import Mathlib

/-!
# Checkout workflow of the e-commerce back end (`src/backend/server.js`)

A shallow embedding of the `POST /checkout` handler and of the tables it reads and
writes (schema: `src/backend/db/init-db.js`), followed by the handlers around it that the
properties need: `GET /cart/:userId`, `POST /cart/add`, `PUT /cart/:cartId`,
`GET /vouchers/:userId`, `POST /vouchers/use`, `POST /reviews/add`,
`DELETE /reviews/:reviewId` and the helper `updateProductRating`.

Modelling conventions
* A table is the list of its rows, in storage order; a `SELECT` is a filter or a nested
  loop over these lists, an `UPDATE` a `map`, a `DELETE` a `filter`, an `INSERT` an append.
* `DECIMAL(10,2)` columns and the JavaScript numbers computed from them are exact
  rationals; `INT` columns are integers; `DATETIME` values are integers on one time axis and
  `GETDATE()` is the parameter `now` of the request.
* A nullable column or an optional request field is an `Option`.
* Identity columns that the handler never reads back (order item, payment, inventory and
  order-voucher ids) and defaulted timestamps are left out of the rows.
* A database call that throws is described by `Faults`: each call of the handler has a slot
  holding the message of the error it raises, or `none` when it succeeds. A failed
  statement leaves the tables as they were; a rollback restores the tables of the moment the
  transaction began.
* Two constraints of the schema are part of the model because handlers rely on them: the
  foreign key of `order_vouchers` on `vouchers` and `CHECK (quantity > 0)` on `cart_items`.
  Other constraint violations are thrown errors like any other and fall under the faults.
* A number bound as `sql.Decimal(10, 1)` is rounded to one decimal place.
-/

namespace Checkout

/-- Amounts of money (`DECIMAL(10,2)` columns, JavaScript numbers). -/
abbrev Money := ℚ

/-- Row of `carts`. -/
structure Cart where
  cart_id : Int
  user_id : Int
deriving DecidableEq

/-- Row of `cart_items`. -/
structure CartItem where
  cart_item_id : Int
  cart_id : Int
  product_id : Int
  quantity : Int
  voucher_id : Option Int
deriving DecidableEq

/-- Row of `products` (the columns the checkout reads or writes). -/
structure Product where
  product_id : Int
  product_name : String
  price : Money
  stock_quantity : Int
deriving DecidableEq

/-- Row of `product_discounts`. -/
structure ProductDiscount where
  product_id : Int
  discount_price : Money
  discount_start : Int
  discount_end : Int
deriving DecidableEq

/-- Row of `vouchers`. -/
structure Voucher where
  voucher_id : Int
  code : String
  discount_amount : Money
  min_order_value : Money
  expiry_date : Int
  usage_limit : Option Int
  status : Option String
deriving DecidableEq

/-- Row of `user_vouchers`. -/
structure UserVoucher where
  user_voucher_id : Int
  user_id : Int
  voucher_id : Int
  used : Option Bool
deriving DecidableEq

/-- Row of `orders`. -/
structure Order where
  order_id : Int
  user_id : Int
  total_price : Money
  total : Option Money
  order_status : String
deriving DecidableEq

/-- Row of `order_items`. -/
structure OrderItem where
  order_id : Int
  product_id : Int
  quantity : Int
  subtotal : Money
deriving DecidableEq

/-- Row of `payments`; `voucher_id` is only filled when the table has that column. -/
structure Payment where
  order_id : Int
  payment_method : String
  payment_status : String
  voucher_id : Option Int
deriving DecidableEq

/-- Row of `inventory`. -/
structure InventoryLog where
  product_id : Int
  stock_added : Int
  stock_removed : Int
deriving DecidableEq

/-- Row of `order_vouchers`. -/
structure OrderVoucher where
  order_id : Int
  voucher_id : Int
deriving DecidableEq

/-- The database: one list per table, the next identity value of the tables whose new ids
a handler reads back, and the two facts about the schema that the checkout asks the server
for. -/
structure Db where
  carts : List Cart
  cart_items : List CartItem
  products : List Product
  product_discounts : List ProductDiscount
  vouchers : List Voucher
  user_vouchers : List UserVoucher
  orders : List Order
  order_items : List OrderItem
  payments : List Payment
  inventory : List InventoryLog
  order_vouchers : List OrderVoucher
  next_order_id : Int
  has_order_vouchers_table : Bool
  payments_has_voucher_id : Bool
  next_voucher_id : Int
  next_user_voucher_id : Int
  next_cart_id : Int
  next_cart_item_id : Int
deriving DecidableEq

/-- Body of `POST /checkout`: `{ userId, cartItemIds, voucherId, userVoucherId, paymentMethod }`.
`cartItemIds` is `none` when the field is absent or not an array. -/
structure CheckoutRequest where
  userId : Option Int
  cartItemIds : Option (List Int)
  voucherId : Option Int
  userVoucherId : Option Int
  paymentMethod : Option String
deriving DecidableEq

/-- Row returned by the verification query of the handler. -/
structure VerifiedItem where
  cart_item_id : Int
  cart_id : Int
  quantity : Int
  voucher_id : Option Int
  product_id : Int
  product_name : String
  price : Money
  stock_quantity : Int
  discount_price : Money
deriving DecidableEq

/-- Entry of `items` in the out-of-stock response. -/
structure OutOfStockEntry where
  cart_item_id : Int
  product_name : String
  requested : Int
  available : Int
deriving DecidableEq

/-- The `voucherApplied` object of the success response. -/
structure VoucherApplied where
  voucherId : Int
  code : String
  discountAmount : Money
deriving DecidableEq

/-- The JSON body of the 200 response. -/
structure CheckoutSuccess where
  orderId : Int
  totalBeforeDiscount : Money
  discount : Money
  finalTotal : Money
  paymentMethod : String
  paymentStatus : String
  voucherApplied : Option VoucherApplied
deriving DecidableEq

/-- What the handler sends back: the 200 body, or a status with an error text and, for the
out-of-stock rejection, the list of offending lines. -/
inductive Response where
  | success (body : CheckoutSuccess)
  | failure (status : Nat) (error : String) (items : Option (List OutOfStockEntry))
deriving DecidableEq

/-- Error raised by each database call of the handler (`none`: the call succeeds). The calls
made once per line are indexed by the position of the line in the verified record set. -/
structure Faults where
  getPool : Option String
  verifyQuery : Option String
  voucherQuery : Option String
  beginTx : Option String
  stockCheck : Nat → Option String
  orderInsert : Option String
  orderVoucherInsert : Option String
  orderItemInsert : Nat → Option String
  stockUpdate : Nat → Option String
  inventoryInsert : Nat → Option String
  paymentColumnQuery : Option String
  paymentInsert : Option String
  markVoucherUsed : Option String
  cartDelete : Option String
  commit : Option String

/-- JavaScript truthiness of an optional integer field: absent, `null` and `0` are falsy. -/
def truthyInt : Option Int → Bool
  | some n => n != 0
  | none => false

/-- The rows that `LEFT JOIN product_discounts pd ON p.product_id = pd.product_id AND
GETDATE() BETWEEN pd.discount_start AND pd.discount_end` attaches to a product. -/
def activeDiscounts (db : Db) (now : Int) (p : Product) : List ProductDiscount :=
  db.product_discounts.filter fun pd =>
    decide (p.product_id = pd.product_id) && decide (pd.discount_start ≤ now)
      && decide (now ≤ pd.discount_end)

/-- One row of the verification query for a cart line joined to its product, with
`ISNULL(pd.discount_price, p.price) AS discount_price`. -/
def mkVerifiedItem (ci : CartItem) (p : Product) (discount_price : Money) : VerifiedItem :=
  { cart_item_id := ci.cart_item_id, cart_id := ci.cart_id, quantity := ci.quantity,
    voucher_id := ci.voucher_id, product_id := p.product_id, product_name := p.product_name,
    price := p.price, stock_quantity := p.stock_quantity, discount_price := discount_price }

/-- The rows of the left join for one cart line and its product: one row per active
discount window, or a single row at list price when there is none. -/
def joinDiscounts (db : Db) (now : Int) (ci : CartItem) (p : Product) : List VerifiedItem :=
  match activeDiscounts db now p with
  | [] => [mkVerifiedItem ci p p.price]
  | pds => pds.map fun pd => mkVerifiedItem ci p pd.discount_price

/-- The verification query (`verifyItemsQuery`): carts of the user joined to their lines,
the products of the lines and the discount windows active now, restricted to the requested
cart item ids. The query has no `ORDER BY`: the order of the list is the order in which the
handler receives the rows, whatever it is, not an order the database promises with respect
to its tables. -/
def verifyItems (db : Db) (now : Int) (userId : Int) (cartItemIds : List Int) :
    List VerifiedItem :=
  db.carts.flatMap fun c =>
    db.cart_items.flatMap fun ci =>
      db.products.flatMap fun p =>
        if c.cart_id = ci.cart_id ∧ ci.product_id = p.product_id ∧ c.user_id = userId
            ∧ ci.cart_item_id ∈ cartItemIds then
          joinDiscounts db now ci p
        else []

/-- Step 2 of the handler: `recordset.filter(item => item.quantity > item.stock_quantity)`. -/
def outOfStockItems (rows : List VerifiedItem) : List VerifiedItem :=
  rows.filter fun item => decide (item.quantity > item.stock_quantity)

/-- The `items` array of the out-of-stock response. -/
def outOfStockEntries (rows : List VerifiedItem) : List OutOfStockEntry :=
  (outOfStockItems rows).map fun item =>
    { cart_item_id := item.cart_item_id, product_name := item.product_name,
      requested := item.quantity, available := item.stock_quantity }

/-- Step 3 of the handler:
`recordset.reduce((sum, item) => sum + parseFloat(item.discount_price) * item.quantity, 0)`.
Amounts are exact rationals here; the handler adds IEEE doubles, whose sum can differ from
the exact one by rounding noise (100 units at 4.35 add up to 434.99999999999994). The
properties below that compare the subtotal with another amount are stated for the subtotal
that the handler computed and returns as `totalBeforeDiscount`. -/
def subtotalOf (rows : List VerifiedItem) : Money :=
  rows.foldl (fun sum item => sum + item.discount_price * (item.quantity : Money)) 0

/-- The voucher query of step 4: `WHERE voucher_id = @voucherId AND status = 'active' AND
expiry_date > GETDATE()`. -/
def voucherLookup (db : Db) (now : Int) (voucherId : Int) : List Voucher :=
  db.vouchers.filter fun v =>
    decide (v.voucher_id = voucherId) && decide (v.status = some "active")
      && decide (v.expiry_date > now)

/-- The discount of a voucher that is applied to `subtotal`: a percentage capped at 1000 when
`discount_amount <= 100`, the amount itself otherwise. -/
def voucherDiscount (voucher : Voucher) (subtotal : Money) : Money :=
  if voucher.discount_amount ≤ 100 then
    let totalDiscount := subtotal * voucher.discount_amount / 100
    if totalDiscount > 1000 then 1000 else totalDiscount
  else voucher.discount_amount

/-- Step 4 of the handler, given the record set of the voucher query: the pair
`(totalDiscount, appliedVoucher)`. -/
def applyVoucherRows (found : List Voucher) (subtotal : Money) : Money × Option Voucher :=
  match found with
  | voucher :: _ =>
    if subtotal ≥ voucher.min_order_value then (voucherDiscount voucher subtotal, some voucher)
    else (0, none)
  | [] => (0, none)

/-- Step 4 of the handler: nothing happens unless `voucherId` is truthy. -/
def applyVoucher (db : Db) (now : Int) (voucherId : Option Int) (subtotal : Money) :
    Money × Option Voucher :=
  match voucherId with
  | some vid => if vid != 0 then applyVoucherRows (voucherLookup db now vid) subtotal else (0, none)
  | none => (0, none)

/-- The text of `paymentMethod || "cod"`: an absent, `null` or empty field is falsy. -/
def paymentMethodOrCod (paymentMethod : Option String) : String :=
  match paymentMethod with
  | some s => if s != "" then s else "cod"
  | none => "cod"

/-- The text of `paymentMethod === "cod" ? "pending" : "completed"`. -/
def paymentStatusOf (paymentMethod : Option String) : String :=
  if paymentMethod = some "cod" then "pending" else "completed"

/-- Message thrown by the re-check when the product row is gone. -/
def msgNoLongerExists (item : VerifiedItem) : String :=
  "Product " ++ toString item.product_id ++ " no longer exists"

/-- Message thrown by the re-check when the stock read in the transaction is too small. -/
def msgInsufficientStock (item : VerifiedItem) (available : Int) : String :=
  "Product " ++ toString item.product_id ++ " (" ++ item.product_name
    ++ ") now has insufficient stock. Available: " ++ toString available
    ++ ", Requested: " ++ toString item.quantity

/-- The loop that re-checks the stock of every line inside the transaction, from the line
at position `i` on: the first failing query, missing product or insufficient stock throws. -/
def recheckStock (db : Db) (f : Faults) : Nat → List VerifiedItem → Except String Unit
  | _, [] => .ok ()
  | i, item :: rest =>
    match f.stockCheck i with
    | some e => .error e
    | none =>
      match db.products.filter (fun p => decide (p.product_id = item.product_id)) with
      | [] => .error (msgNoLongerExists item)
      | p :: _ =>
        if p.stock_quantity ≥ item.quantity then recheckStock db f (i + 1) rest
        else .error (msgInsufficientStock item p.stock_quantity)

/-- The value a `sql.Decimal(10, 2)` parameter holds: the number rounded to two decimal
places, halves upwards. -/
def roundDecimal2 (x : Money) : Money :=
  (⌊x * 100 + 1 / 2⌋ : Int) / 100

/-- The row inserted into `orders`: `total_price` and `total` hold the subtotal and the final
total as the `sql.Decimal(10, 2)` parameters `@totalPrice` and `@finalTotal` carry them,
`order_status = 'processing'`. -/
def orderOf (orderId userId : Int) (subtotal finalTotal : Money) : Order :=
  { order_id := orderId, user_id := userId, total_price := roundDecimal2 subtotal,
    total := some (roundDecimal2 finalTotal), order_status := "processing" }

/-- The statement `INSERT INTO orders (user_id, total_price, total, order_status) OUTPUT
INSERTED.order_id`: the new order id and the tables afterwards. -/
def insertOrder (db : Db) (userId : Int) (subtotal finalTotal : Money) : Int × Db :=
  (db.next_order_id,
    { db with
      orders := db.orders ++ [orderOf db.next_order_id userId subtotal finalTotal]
      next_order_id := db.next_order_id + 1 })

/-- The guarded insert into `order_vouchers`, inside its own `try`/`catch`: a thrown error
(an injected one, or the foreign key on `vouchers`) is logged and swallowed. -/
def recordOrderVoucher (db : Db) (f : Faults) (orderId voucherId : Int) : Db :=
  match f.orderVoucherInsert with
  | some _ => db
  | none =>
    if db.has_order_vouchers_table && db.vouchers.any (fun v => decide (v.voucher_id = voucherId))
    then { db with order_vouchers := db.order_vouchers ++ [OrderVoucher.mk orderId voucherId] }
    else db

/-- The block `if (voucherId) { try { ... order_vouchers ... } catch { ... } }`. -/
def recordOrderVoucherIfAny (db : Db) (f : Faults) (orderId : Int) (voucherId : Option Int) :
    Db :=
  match voucherId with
  | some vid => if vid != 0 then recordOrderVoucher db f orderId vid else db
  | none => db

/-- The statement `UPDATE products SET stock_quantity = stock_quantity - @quantity WHERE
product_id = @productId`. -/
def decrementStock (products : List Product) (productId quantity : Int) : List Product :=
  products.map fun p =>
    if p.product_id = productId then { p with stock_quantity := p.stock_quantity - quantity }
    else p

/-- The row inserted into `order_items` for a line: `subtotal` holds
`parseFloat(item.discount_price) * item.quantity` as the `sql.Decimal(10, 2)` parameter
`@subtotal` carries it. -/
def orderItemOf (orderId : Int) (item : VerifiedItem) : OrderItem :=
  { order_id := orderId, product_id := item.product_id, quantity := item.quantity,
    subtotal := roundDecimal2 (item.discount_price * (item.quantity : Money)) }

/-- The loop over the lines, from the line at position `i` on: insert the order item,
decrement the stock, and log the inventory change (the log is inside its own `try`/`catch`,
so its failure is swallowed). -/
def processItems (f : Faults) (orderId : Int) : Nat → List VerifiedItem → Db → Except String Db
  | _, [], db => .ok db
  | i, item :: rest, db =>
    match f.orderItemInsert i with
    | some e => .error e
    | none =>
      let db1 := { db with order_items := db.order_items ++ [orderItemOf orderId item] }
      match f.stockUpdate i with
      | some e => .error e
      | none =>
        let db2 := { db1 with
          products := decrementStock db1.products item.product_id item.quantity }
        let log : InventoryLog :=
          { product_id := item.product_id, stock_added := 0, stock_removed := item.quantity }
        let db3 :=
          match f.inventoryInsert i with
          | some _ => db2
          | none => { db2 with inventory := db2.inventory ++ [log] }
        processItems f orderId (i + 1) rest db3

/-- The payment record: the column query and the insert are inside one `try` whose `catch`
rethrows `Payment creation failed: ...`. -/
def createPayment (db : Db) (f : Faults) (orderId : Int) (req : CheckoutRequest) :
    Except String Db :=
  match f.paymentColumnQuery with
  | some e => .error ("Payment creation failed: " ++ e)
  | none =>
    match f.paymentInsert with
    | some e => .error ("Payment creation failed: " ++ e)
    | none =>
      let payment : Payment :=
        { order_id := orderId, payment_method := paymentMethodOrCod req.paymentMethod,
          payment_status := paymentStatusOf req.paymentMethod,
          voucher_id :=
            if db.payments_has_voucher_id && truthyInt req.voucherId then req.voucherId
            else none }
      .ok { db with payments := db.payments ++ [payment] }

/-- The statement `UPDATE user_vouchers SET used = 1 WHERE user_voucher_id = @userVoucherId`,
run when both `voucherId` and `userVoucherId` are truthy; its failure is swallowed. -/
def markVoucherUsed (db : Db) (f : Faults) (req : CheckoutRequest) : Db :=
  if truthyInt req.voucherId && truthyInt req.userVoucherId then
    match f.markVoucherUsed with
    | some _ => db
    | none =>
      { db with user_vouchers := db.user_vouchers.map fun uv =>
          if some uv.user_voucher_id = req.userVoucherId then { uv with used := some true }
          else uv }
  else db

/-- The statement `DELETE FROM cart_items WHERE cart_item_id IN (...)`; its failure is
swallowed. -/
def removeCartItems (db : Db) (f : Faults) (cartItemIds : List Int) : Db :=
  match f.cartDelete with
  | some _ => db
  | none =>
    { db with cart_items := db.cart_items.filter fun ci => decide (ci.cart_item_id ∉ cartItemIds) }

/-- The body of the inner `try`: everything between `transaction.begin()` and the success
response. `.error e` is a thrown error with message `e`; `.ok` carries the new order id and
the tables at commit. -/
def txBody (db : Db) (f : Faults) (userId : Int) (cartItemIds : List Int)
    (req : CheckoutRequest) (rows : List VerifiedItem) (subtotal finalTotal : Money) :
    Except String (Int × Db) :=
  match recheckStock db f 0 rows with
  | .error e => .error e
  | .ok _ =>
    match f.orderInsert with
    | some e => .error e
    | none =>
      let orderId := (insertOrder db userId subtotal finalTotal).1
      let db1 := (insertOrder db userId subtotal finalTotal).2
      let db2 := recordOrderVoucherIfAny db1 f orderId req.voucherId
      match processItems f orderId 0 rows db2 with
      | .error e => .error e
      | .ok db3 =>
        match createPayment db3 f orderId req with
        | .error e => .error e
        | .ok db4 =>
          let db5 := markVoucherUsed db4 f req
          let db6 := removeCartItems db5 f cartItemIds
          match f.commit with
          | some e => .error e
          | none => .ok (orderId, db6)

/-- The handler from step 3 on, for a verified record set with no line out of stock:
subtotal, voucher, final total, then the transaction. A throw of the transaction body is
answered after a rollback, which restores `db`. -/
def placeOrder (db : Db) (now : Int) (f : Faults) (userId : Int) (cartItemIds : List Int)
    (req : CheckoutRequest) (rows : List VerifiedItem) : Response × Db :=
  let subtotal := subtotalOf rows
  match (if truthyInt req.voucherId then f.voucherQuery else none) with
  | some e => (.failure 500 ("Failed to process checkout: " ++ e) none, db)
  | none =>
    let applied := applyVoucher db now req.voucherId subtotal
    let totalDiscount := applied.1
    let finalTotal := max 0 (subtotal - totalDiscount)
    match f.beginTx with
    | some e => (.failure 500 ("Failed to process checkout: " ++ e) none, db)
    | none =>
      match txBody db f userId cartItemIds req rows subtotal finalTotal with
      | .error e => (.failure 500 ("Failed to process order: " ++ e) none, db)
      | .ok (orderId, db1) =>
        let body : CheckoutSuccess :=
          { orderId := orderId, totalBeforeDiscount := subtotal, discount := totalDiscount,
            finalTotal := finalTotal, paymentMethod := paymentMethodOrCod req.paymentMethod,
            paymentStatus := paymentStatusOf req.paymentMethod,
            voucherApplied := applied.2.map fun v =>
              VoucherApplied.mk v.voucher_id v.code totalDiscount }
        (.success body, db1)

/-- The handler after the two checks on the request body: the verification query, the count
check and the out-of-stock check, then `placeOrder`. -/
def checkoutVerified (db : Db) (now : Int) (f : Faults) (userId : Int)
    (cartItemIds : List Int) (req : CheckoutRequest) : Response × Db :=
  match f.getPool with
  | some e => (.failure 500 ("Failed to process checkout: " ++ e) none, db)
  | none =>
    match f.verifyQuery with
    | some e => (.failure 500 ("Failed to process checkout: " ++ e) none, db)
    | none =>
      let rows := verifyItems db now userId cartItemIds
      if rows.length ≠ cartItemIds.length then
        (.failure 400 "Some items don't exist or don't belong to your cart" none, db)
      else if (outOfStockItems rows).length > 0 then
        (.failure 400 "Some items are out of stock" (some (outOfStockEntries rows)), db)
      else placeOrder db now f userId cartItemIds req rows

/-- The handler of `POST /checkout`: the response and the tables after the request. -/
def checkout (db : Db) (now : Int) (req : CheckoutRequest) (f : Faults) : Response × Db :=
  match req.userId with
  | none => (.failure 400 "User ID is required" none, db)
  | some userId =>
    if userId = 0 then (.failure 400 "User ID is required" none, db)
    else
      match req.cartItemIds with
      | none => (.failure 400 "No items selected for checkout" none, db)
      | some cartItemIds =>
        if cartItemIds.length = 0 then (.failure 400 "No items selected for checkout" none, db)
        else checkoutVerified db now f userId cartItemIds req

/-! ### Notions used to state the properties -/

/-- Quantity ordered of a product: the sum of the quantities of the lines of the record set
that reference it. -/
def orderedQuantity (rows : List VerifiedItem) (productId : Int) : Int :=
  ((rows.filter fun item => decide (item.product_id = productId)).map fun item =>
    item.quantity).sum

/-- A product row after an order of `rows`: untouched when no line references the product,
its stock reduced by the quantity ordered otherwise. -/
def stockAfterOrder (rows : List VerifiedItem) (p : Product) : Product :=
  if rows.any (fun item => decide (item.product_id = p.product_id)) then
    { p with stock_quantity := p.stock_quantity - orderedQuantity rows p.product_id }
  else p

/-- The text `text` contains the message `m`. -/
def containsText (text m : String) : Prop :=
  ∃ pre post : String, text = pre ++ m ++ post

/-- No database call throws. -/
def noFaults : Faults :=
  { getPool := none, verifyQuery := none, voucherQuery := none, beginTx := none,
    stockCheck := fun _ => none, orderInsert := none, orderVoucherInsert := none,
    orderItemInsert := fun _ => none, stockUpdate := fun _ => none,
    inventoryInsert := fun _ => none, paymentColumnQuery := none, paymentInsert := none,
    markVoucherUsed := none, cartDelete := none, commit := none }

/-- A database with empty tables, an existing `order_vouchers` table and no `voucher_id`
column in `payments`. -/
def emptyDb : Db :=
  { carts := [], cart_items := [], products := [], product_discounts := [], vouchers := [],
    user_vouchers := [], orders := [], order_items := [], payments := [], inventory := [],
    order_vouchers := [], next_order_id := 1, has_order_vouchers_table := true,
    payments_has_voucher_id := false, next_voucher_id := 1, next_user_voucher_id := 1,
    next_cart_id := 1, next_cart_item_id := 1 }

/-- The first error thrown by an order-item insert or a stock update among `n` lines
starting at position `i`, in the order in which the loop over the lines runs them. -/
def firstItemFault (f : Faults) : Nat → Nat → Option String
  | _, 0 => none
  | i, n + 1 =>
    match f.orderItemInsert i with
    | some e => some e
    | none =>
      match f.stockUpdate i with
      | some e => some e
      | none => firstItemFault f (i + 1) n

/-- The error rethrown by the payment block, if one of its two calls throws. -/
def paymentFault (f : Faults) : Option String :=
  match f.paymentColumnQuery with
  | some e => some ("Payment creation failed: " ++ e)
  | none =>
    match f.paymentInsert with
    | some e => some ("Payment creation failed: " ++ e)
    | none => none

/-- The outcome of the transaction body without the tables: the message of the error it
throws, or the id of the order it commits. -/
def txOutcome (db : Db) (f : Faults) (rows : List VerifiedItem) : Except String Int :=
  match recheckStock db f 0 rows with
  | .error e => .error e
  | .ok _ =>
    match f.orderInsert with
    | some e => .error e
    | none =>
      match firstItemFault f 0 rows.length with
      | some e => .error e
      | none =>
        match paymentFault f with
        | some e => .error e
        | none =>
          match f.commit with
          | some e => .error e
          | none => .ok db.next_order_id

/-- The message `m` is raised by a step of the commit phase whose failure the handler does
not catch on the spot: the stock re-check, the order insert, an order-item insert, a stock
update, the payment block or the commit. -/
def CommitStepFails (db : Db) (f : Faults) (rows : List VerifiedItem) (m : String) : Prop :=
  recheckStock db f 0 rows = .error m
    ∨ f.orderInsert = some m
    ∨ (∃ i, i < rows.length ∧ f.orderItemInsert i = some m)
    ∨ (∃ i, i < rows.length ∧ f.stockUpdate i = some m)
    ∨ f.paymentColumnQuery = some m
    ∨ f.paymentInsert = some m
    ∨ f.commit = some m

/-- The voucher query finds a voucher with this id that is active and unexpired, and the
subtotal reaches its `min_order_value`. -/
def voucherQualifies (db : Db) (now : Int) (voucherId : Option Int) (subtotal : Money) : Prop :=
  ∃ vid v, voucherId = some vid ∧ vid ≠ 0 ∧ (voucherLookup db now vid).head? = some v
    ∧ v.min_order_value ≤ subtotal

/-! ### Concrete states and requests -/

/-- One user (7) with one cart line: one lamp at 1000, five in stock. -/
def dbLamp : Db :=
  { emptyDb with
    carts := [⟨1, 7⟩]
    cart_items := [⟨1, 1, 1, 1, none⟩]
    products := [⟨1, "lamp", 1000, 5⟩] }

/-- The lamp cart with a fixed voucher of 1500. -/
def dbFixed : Db :=
  { dbLamp with vouchers := [⟨1, "BIG", 1500, 0, 100, some 1, some "active"⟩] }

/-- The lamp cart with a 20 percent voucher, minimum order 500. -/
def voucherPct : Voucher := ⟨1, "SAVE20", 20, 500, 100, some 1, some "active"⟩

/-- The lamp cart with the 20 percent voucher. -/
def dbPct : Db :=
  { dbLamp with vouchers := [voucherPct] }

/-- The lamp cart with the 20 percent voucher, already used by user 7. -/
def dbUsed : Db :=
  { dbPct with user_vouchers := [⟨1, 7, 1, some true⟩] }

/-- Checkout of the lamp line by user 7 with voucher 1, paid by card. -/
def reqVoucher : CheckoutRequest :=
  { userId := some 7, cartItemIds := some [1], voucherId := some 1, userVoucherId := some 1,
    paymentMethod := some "card" }

/-- Checkout of the lamp line with a voucher id that no voucher has. -/
def reqMissingVoucher : CheckoutRequest :=
  { reqVoucher with voucherId := some 99 }

/-- One line of two desks: list price 500, discount price 400 in the window from 0 to 50,
ten in stock; a chair that is not in the cart. -/
def dbDesk : Db :=
  { emptyDb with
    carts := [⟨1, 7⟩]
    cart_items := [⟨1, 1, 1, 2, none⟩]
    products := [⟨1, "desk", 500, 10⟩, ⟨2, "chair", 80, 4⟩]
    product_discounts := [⟨1, 400, 0, 50⟩] }

/-- Checkout of the desk line, no voucher, cash on delivery. -/
def reqDesk : CheckoutRequest :=
  { userId := some 7, cartItemIds := some [1], voucherId := none, userVoucherId := none,
    paymentMethod := some "cod" }

/-- The desk checkout with `paymentMethod` left out of the body. -/
def reqNoMethod : CheckoutRequest :=
  { reqDesk with paymentMethod := none }

/-- Two cart lines of user 7 for the same product, two units each, three in stock. -/
def dbTwoLines : Db :=
  { emptyDb with
    carts := [⟨1, 7⟩]
    cart_items := [⟨1, 1, 1, 2, none⟩, ⟨2, 1, 1, 2, none⟩]
    products := [⟨1, "lamp", 1000, 3⟩] }

/-- Checkout of both lines. -/
def reqTwoLines : CheckoutRequest :=
  { userId := some 7, cartItemIds := some [1, 2], voucherId := none, userVoucherId := none,
    paymentMethod := some "cod" }

/-- One line asking for seven desks when ten were in stock and only three are left. -/
def dbShort : Db :=
  { dbDesk with
    cart_items := [⟨1, 1, 1, 7, none⟩]
    products := [⟨1, "desk", 500, 3⟩, ⟨2, "chair", 80, 4⟩] }

/-- Only the inventory insert of the first line throws. -/
def faultInventory : Faults :=
  { noFaults with inventoryInsert := fun _ => some "Invalid object name inventory" }

/-- Only the order insert throws. -/
def faultOrder : Faults :=
  { noFaults with orderInsert := some "deadlock victim" }

/-! ### `GET /cart/:userId` -/

/-- Row returned by `GET /cart/:userId` (the `added_at` and `product_link` columns are left
out). -/
structure CartRow where
  cart_item_id : Int
  cart_id : Int
  quantity : Int
  voucher_id : Option Int
  product_id : Int
  product_name : String
  price : Money
  discount_price : Money
deriving DecidableEq

/-- One row of the cart query, with `ISNULL(pd.discount_price, p.price) AS discount_price`. -/
def mkCartRow (ci : CartItem) (p : Product) (discount_price : Money) : CartRow :=
  { cart_item_id := ci.cart_item_id, cart_id := ci.cart_id, quantity := ci.quantity,
    voucher_id := ci.voucher_id, product_id := p.product_id, product_name := p.product_name,
    price := p.price, discount_price := discount_price }

/-- The rows of the left join of the cart query for one cart line and its product. -/
def cartJoinDiscounts (db : Db) (now : Int) (ci : CartItem) (p : Product) : List CartRow :=
  match activeDiscounts db now p with
  | [] => [mkCartRow ci p p.price]
  | pds => pds.map fun pd => mkCartRow ci p pd.discount_price

/-- The query of `GET /cart/:userId`: the join of the verification query of the checkout,
without the restriction to listed cart item ids. -/
def getCart (db : Db) (now : Int) (userId : Int) : List CartRow :=
  db.carts.flatMap fun c =>
    db.cart_items.flatMap fun ci =>
      db.products.flatMap fun p =>
        if c.cart_id = ci.cart_id ∧ ci.product_id = p.product_id ∧ c.user_id = userId then
          cartJoinDiscounts db now ci p
        else []

/-! ### More concrete states and requests -/

/-- The lamp cart with the 20 percent voucher, claimed by user 7 and not used yet. -/
def dbClaimed : Db :=
  { dbPct with user_vouchers := [⟨1, 7, 1, some false⟩] }

/-- Checkout of the lamp line with a user-voucher id and no voucher id. -/
def reqUserVoucherOnly : CheckoutRequest :=
  { reqVoucher with voucherId := none }

/-- The desk cart with a second discount window, from 5 to 60 at 350, overlapping the first
one (0 to 50 at 400). -/
def dbOverlap : Db :=
  { dbDesk with product_discounts := [⟨1, 400, 0, 50⟩, ⟨1, 350, 5, 60⟩] }

/-- Checkout of the desk line together with cart item 99, which does not exist. -/
def reqWithUnknownItem : CheckoutRequest :=
  { reqDesk with cartItemIds := some [1, 99] }

/-! ### `GET /vouchers/:userId` and `POST /vouchers/use` -/

/-- Answer of the handlers that send no data back beyond a success flag or an error text. -/
inductive Reply where
  | ok
  | failure (status : Nat) (error : String)
deriving DecidableEq

/-- Element of the array sent by `GET /vouchers/:userId` (`admin_id`, `created_at` and
`claimed_at` are left out). -/
structure VoucherView where
  voucher_id : Int
  code : String
  discount_amount : Money
  min_order_value : Money
  expiry_date : Int
  usage_limit : Option Int
  status : Option String
  voucher_type : String
  user_voucher_id : Option Int
  used : Option Bool
  discount_type : String
  discount_value : Money
  minimum_order_value : Money
  max_discount : Money
deriving DecidableEq

/-- Error raised by each database call of `GET /vouchers/:userId` (`none`: the call
succeeds): the listing (pool or query), the statement that creates or finds the welcome
voucher, the statement that assigns it to the user. -/
structure VoucherFaults where
  listQuery : Option String
  welcomeVoucher : Option String
  assignVoucher : Option String

/-- The rows of `vouchersQuery`: vouchers left-joined to the claims of the user, kept when
the voucher is active (or has no status) and unexpired and the claim, if any, is the
user's and is not used. -/
def vouchersQuery (db : Db) (now userId : Int) : List (Voucher × Option UserVoucher) :=
  db.vouchers.flatMap fun v =>
    let claims := db.user_vouchers.filter fun uv =>
      decide (v.voucher_id = uv.voucher_id) && decide (uv.user_id = userId)
    let joined : List (Voucher × Option UserVoucher) :=
      match claims with
      | [] => [(v, none)]
      | _ => claims.map fun uv => (v, some uv)
    joined.filter fun r =>
      (decide (v.status = some "active") || decide (v.status = none))
        && decide (v.expiry_date > now)
        && (match r.2 with
            | none => true
            | some uv =>
              decide (uv.user_id = userId)
                && (decide (uv.used = none) || decide (uv.used = some false)))

/-- The element `processedVoucher` built from a row of the listing:
`discount_type = discount_amount > 100 ? "fixed" : "percentage"`, `max_discount` 1000 for a
percentage and the amount for a fixed voucher. -/
def processVoucher (r : Voucher × Option UserVoucher) : VoucherView :=
  { voucher_id := r.1.voucher_id, code := r.1.code, discount_amount := r.1.discount_amount,
    min_order_value := r.1.min_order_value, expiry_date := r.1.expiry_date,
    usage_limit := r.1.usage_limit, status := r.1.status,
    voucher_type := (match r.2 with
      | some _ => "user_specific"
      | none => "global"),
    user_voucher_id := r.2.map fun uv => uv.user_voucher_id,
    used := r.2.bind fun uv => uv.used,
    discount_type := if r.1.discount_amount > 100 then "fixed" else "percentage",
    discount_value := r.1.discount_amount, minimum_order_value := r.1.min_order_value,
    max_discount := if r.1.discount_amount > 100 then r.1.discount_amount else 1000 }

/-- The row of the welcome voucher: code `WELCOME10`, amount 100, minimum order 500, one use,
active, expiring one month after the request. -/
def welcomeVoucher (voucherId inOneMonth : Int) : Voucher :=
  { voucher_id := voucherId, code := "WELCOME10", discount_amount := 100,
    min_order_value := 500, expiry_date := inOneMonth, usage_limit := some 1,
    status := some "active" }

/-- The single element sent back after the welcome voucher was assigned. -/
def welcomeView (voucherId userVoucherId inOneMonth : Int) : VoucherView :=
  { voucher_id := voucherId, code := "WELCOME10", discount_amount := 100,
    min_order_value := 500, expiry_date := inOneMonth, usage_limit := some 1,
    status := some "active", voucher_type := "user_specific",
    user_voucher_id := some userVoucherId, used := none, discount_type := "fixed",
    discount_value := 100, minimum_order_value := 500, max_discount := 100 }

/-- The statement `IF NOT EXISTS (SELECT 1 FROM vouchers WHERE code = @code) INSERT ... OUTPUT
INSERTED.voucher_id ELSE SELECT voucher_id FROM vouchers WHERE code = @code`: the record
set of voucher ids and the tables afterwards. -/
def ensureWelcomeVoucher (db : Db) (inOneMonth : Int) : List Int × Db :=
  match db.vouchers.filter (fun v => decide (v.code = "WELCOME10")) with
  | [] =>
    ([db.next_voucher_id],
      { db with
        vouchers := db.vouchers ++ [welcomeVoucher db.next_voucher_id inOneMonth]
        next_voucher_id := db.next_voucher_id + 1 })
  | found => (found.map fun v => v.voucher_id, db)

/-- The statement `IF NOT EXISTS (SELECT 1 FROM user_vouchers WHERE user_id = @userId AND
voucher_id = @voucherId) INSERT ... VALUES (@userId, @voucherId, GETDATE(), 0) OUTPUT
INSERTED.user_voucher_id ELSE SELECT user_voucher_id ... AND (used = 0 OR used IS NULL)`:
the record set of user-voucher ids and the tables afterwards. -/
def assignWelcomeVoucher (db : Db) (userId voucherId : Int) : List Int × Db :=
  match db.user_vouchers.filter (fun uv =>
      decide (uv.user_id = userId) && decide (uv.voucher_id = voucherId)) with
  | [] =>
    ([db.next_user_voucher_id],
      { db with
        user_vouchers := db.user_vouchers
          ++ [UserVoucher.mk db.next_user_voucher_id userId voucherId (some false)]
        next_user_voucher_id := db.next_user_voucher_id + 1 })
  | claims =>
    ((claims.filter fun uv => decide (uv.used = some false) || decide (uv.used = none)).map
      fun uv => uv.user_voucher_id, db)

/-- The seeding branch of `GET /vouchers/:userId`, run when the listing is empty; every
error is caught and answered with the empty array. -/
def seedWelcomeVoucher (db : Db) (inOneMonth userId : Int) (f : VoucherFaults) :
    List VoucherView × Db :=
  match f.welcomeVoucher with
  | some _ => ([], db)
  | none =>
    match (ensureWelcomeVoucher db inOneMonth).1 with
    | [] => ([], (ensureWelcomeVoucher db inOneMonth).2)
    | voucherId :: _ =>
      match f.assignVoucher with
      | some _ => ([], (ensureWelcomeVoucher db inOneMonth).2)
      | none =>
        let assigned :=
          assignWelcomeVoucher (ensureWelcomeVoucher db inOneMonth).2 userId voucherId
        match assigned.1 with
        | [] => ([], assigned.2)
        | userVoucherId :: _ => ([welcomeView voucherId userVoucherId inOneMonth], assigned.2)

/-- The handler of `GET /vouchers/:userId`: the array sent back and the tables afterwards.
`inOneMonth` is the date one month after the request. -/
def getVouchers (db : Db) (now inOneMonth userId : Int) (f : VoucherFaults) :
    List VoucherView × Db :=
  match f.listQuery with
  | some _ => ([], db)
  | none =>
    if (vouchersQuery db now userId).length = 0 then seedWelcomeVoucher db inOneMonth userId f
    else ((vouchersQuery db now userId).map processVoucher, db)

/-- Body of `POST /vouchers/use`. -/
structure UseVoucherRequest where
  userId : Option Int
  voucherId : Option Int
  userVoucherId : Option Int
deriving DecidableEq

/-- The statement `UPDATE user_vouchers SET used = 1 WHERE user_voucher_id = @userVoucherId`. -/
def setUsed (userVouchers : List UserVoucher) (userVoucherId : Int) : List UserVoucher :=
  userVouchers.map fun uv =>
    if uv.user_voucher_id = userVoucherId then { uv with used := some true } else uv

/-- The handler of `POST /vouchers/use`; `fault` is the error of the pool or of the update. -/
def useVoucher (db : Db) (req : UseVoucherRequest) (fault : Option String) : Reply × Db :=
  if !truthyInt req.userId || !truthyInt req.voucherId then
    (.failure 400 "Missing userId or voucherId", db)
  else
    match fault with
    | some _ => (.failure 500 "Failed to mark voucher as used", db)
    | none =>
      match req.userVoucherId with
      | some userVoucherId =>
        if userVoucherId != 0 then
          (.ok, { db with user_vouchers := setUsed db.user_vouchers userVoucherId })
        else (.ok, db)
      | none => (.ok, db)

/-- A request to one of the three handlers that write `user_vouchers`. -/
inductive VoucherOp where
  | getVouchers (now inOneMonth userId : Int) (f : VoucherFaults)
  | useVoucher (req : UseVoucherRequest) (fault : Option String)
  | checkout (now : Int) (req : CheckoutRequest) (f : Faults)

/-- The tables after one request. -/
def stepVoucherOp (db : Db) : VoucherOp → Db
  | .getVouchers now inOneMonth userId f => (getVouchers db now inOneMonth userId f).2
  | .useVoucher req fault => (useVoucher db req fault).2
  | .checkout now req f => (checkout db now req f).2

/-- The tables after a sequence of requests, handled one after the other. -/
def runVoucherOps (db : Db) (ops : List VoucherOp) : Db :=
  ops.foldl stepVoucherOp db

/-- Row by row, `new` keeps the rows of `old` at their positions with their ids, and a row
that was used is still used. -/
def UsedFlagsKept (old new : List UserVoucher) : Prop :=
  ∀ (i : Nat) (uv : UserVoucher), old[i]? = some uv →
    ∃ uv1 : UserVoucher, new[i]? = some uv1 ∧ uv1.user_voucher_id = uv.user_voucher_id
      ∧ uv1.user_id = uv.user_id ∧ uv1.voucher_id = uv.voucher_id
      ∧ (uv.used = some true → uv1.used = some true)

/-- No database call of `GET /vouchers/:userId` throws. -/
def noVoucherFaults : VoucherFaults :=
  { listQuery := none, welcomeVoucher := none, assignVoucher := none }

/-- A first listing for user 7, the use of user voucher 1, a second listing. -/
def opsWelcome : List VoucherOp :=
  [.getVouchers 10 40 7 noVoucherFaults, .useVoucher ⟨some 7, some 1, some 1⟩ none,
    .getVouchers 11 41 7 noVoucherFaults]

/-! ### `POST /cart/add` and `PUT /cart/:cartId` -/

/-- Body of `POST /cart/add`. -/
structure CartAddRequest where
  userId : Option Int
  productId : Option Int
  quantity : Option Int
  voucherId : Option Int
deriving DecidableEq

/-- Error raised by each database call of `POST /cart/add` (`none`: the call succeeds): the
cart lookup (or the pool), the cart insert, the lookup of the line, the update or insert of
the line. A violated foreign key of the line is such an error of the last call. -/
structure CartAddFaults where
  findCart : Option String
  createCart : Option String
  findItem : Option String
  writeItem : Option String

/-- Answer of `POST /cart/add`. -/
inductive CartAddReply where
  | updated (newQuantity cartItemId : Int)
  | added (cartItemId : Int)
  | failure (status : Nat) (error : String)
deriving DecidableEq

/-- The value of `quantity || 1`: a missing or zero quantity counts as one. -/
def quantityOrOne (quantity : Option Int) : Int :=
  match quantity with
  | some n => if n != 0 then n else 1
  | none => 1

/-- The column constraint `quantity INT CHECK (quantity > 0) NOT NULL` of `cart_items`: a
statement that would store a quantity failing it raises an error and stores nothing. -/
def quantityAllowed (quantity : Int) : Bool :=
  decide (quantity > 0)

/-- Step 1 of `POST /cart/add`: the id of the first cart of the user, or of a cart created
for the user; `none` when the insert throws. -/
def ensureCart (db : Db) (userId : Int) (f : CartAddFaults) : Option (Int × Db) :=
  match db.carts.filter (fun c => decide (c.user_id = userId)) with
  | [] =>
    match f.createCart with
    | some _ => none
    | none =>
      some (db.next_cart_id,
        { db with
          carts := db.carts ++ [Cart.mk db.next_cart_id userId]
          next_cart_id := db.next_cart_id + 1 })
  | c :: _ => some (c.cart_id, db)

/-- The update of step 2: `SET quantity = @quantity` on the line, together with
`voucher_id = @voucherId` when the body carries a voucher id. -/
def updateCartLine (items : List CartItem) (cartItemId newQuantity : Int)
    (voucherId : Option Int) : List CartItem :=
  items.map fun ci =>
    if ci.cart_item_id = cartItemId then
      { ci with
        quantity := newQuantity
        voucher_id := (match voucherId with
          | some v => some v
          | none => ci.voucher_id) }
    else ci

/-- Steps 2 and 3 of `POST /cart/add` for the cart `cartId`: add the quantity to the line
of the product when there is one, insert a new line otherwise. Every error, that of the
quantity constraint included, is answered 500. -/
def addToCart (db : Db) (cartId : Int) (req : CartAddRequest) (f : CartAddFaults) :
    CartAddReply × Db :=
  match f.findItem with
  | some _ => (.failure 500 "Failed to add product to cart", db)
  | none =>
    match db.cart_items.filter (fun ci =>
        decide (ci.cart_id = cartId) && decide (some ci.product_id = req.productId)) with
    | existing :: _ =>
      match f.writeItem with
      | some _ => (.failure 500 "Failed to add product to cart", db)
      | none =>
        if quantityAllowed (existing.quantity + quantityOrOne req.quantity) then
          (.updated (existing.quantity + quantityOrOne req.quantity) existing.cart_item_id,
            { db with
              cart_items := updateCartLine db.cart_items existing.cart_item_id
                (existing.quantity + quantityOrOne req.quantity) req.voucherId })
        else (.failure 500 "Failed to add product to cart", db)
    | [] =>
      match f.writeItem with
      | some _ => (.failure 500 "Failed to add product to cart", db)
      | none =>
        match req.productId with
        | none => (.failure 500 "Failed to add product to cart", db)
        | some productId =>
          if quantityAllowed (quantityOrOne req.quantity) then
            (.added db.next_cart_item_id,
              { db with
                cart_items := db.cart_items
                  ++ [CartItem.mk db.next_cart_item_id cartId productId
                        (quantityOrOne req.quantity) req.voucherId]
                next_cart_item_id := db.next_cart_item_id + 1 })
          else (.failure 500 "Failed to add product to cart", db)

/-- The handler of `POST /cart/add`. The statements run outside a transaction, so a cart
created in step 1 stays when a later step fails. -/
def cartAdd (db : Db) (req : CartAddRequest) (f : CartAddFaults) : CartAddReply × Db :=
  match req.userId with
  | none =>
    (.failure 400 "User ID is required. Please login before adding items to cart.", db)
  | some userId =>
    if userId = 0 then
      (.failure 400 "User ID is required. Please login before adding items to cart.", db)
    else
      match f.findCart with
      | some _ => (.failure 500 "Failed to add product to cart", db)
      | none =>
        match ensureCart db userId f with
        | none => (.failure 500 "Failed to add product to cart", db)
        | some (cartId, db1) => addToCart db1 cartId req f

/-- Error raised by each database call of `PUT /cart/:cartId` (`none`: the call succeeds). -/
structure CartUpdateFaults where
  getPool : Option String
  findItem : Option String
  deleteItem : Option String
  updateItem : Option String

/-- Answer of `PUT /cart/:cartId`. -/
inductive CartUpdateReply where
  | removed (cartItemId : Int)
  | updated (cartItemId quantity : Int)
  | failure (status : Nat) (error : String)
deriving DecidableEq

/-- The text standing for the error the server raises when a statement violates the
quantity constraint. -/
def quantityViolation : String :=
  "The UPDATE statement conflicted with the CHECK constraint on quantity"

/-- The handler of `PUT /cart/:cartId`. `cartId` and `quantity` are the results of
`parseInt`, `none` standing for `NaN`. Quantity 0 deletes the line; any other quantity is
written by an update, which the quantity constraint rejects when it is negative. -/
def cartUpdate (db : Db) (cartId quantity : Option Int) (f : CartUpdateFaults) :
    CartUpdateReply × Db :=
  match f.getPool with
  | some e => (.failure 500 ("Server error: " ++ e), db)
  | none =>
    match cartId with
    | none => (.failure 400 "Invalid cart item ID: must be a number", db)
    | some cartItemId =>
      match f.findItem with
      | some e => (.failure 500 ("Database error checking cart item: " ++ e), db)
      | none =>
        if (db.cart_items.filter fun ci => decide (ci.cart_item_id = cartItemId)).length = 0
        then
          (.failure 404 ("Cart item with id " ++ toString cartItemId ++ " not found"), db)
        else
          match quantity with
          | none => (.failure 400 "Invalid quantity: must be a number", db)
          | some parsedQuantity =>
            if parsedQuantity = 0 then
              match f.deleteItem with
              | some e => (.failure 500 ("Database error deleting cart item: " ++ e), db)
              | none =>
                (.removed cartItemId,
                  { db with
                    cart_items := db.cart_items.filter fun ci =>
                      decide (ci.cart_item_id ≠ cartItemId) })
            else
              match f.updateItem with
              | some e => (.failure 500 ("Database error updating cart item: " ++ e), db)
              | none =>
                if quantityAllowed parsedQuantity then
                  (.updated cartItemId parsedQuantity,
                    { db with
                      cart_items := db.cart_items.map fun ci =>
                        if ci.cart_item_id = cartItemId then
                          { ci with quantity := parsedQuantity }
                        else ci })
                else
                  (.failure 500 ("Database error updating cart item: " ++ quantityViolation),
                    db)

/-- A request to one of the two handlers that write cart lines. -/
inductive CartOp where
  | add (req : CartAddRequest) (f : CartAddFaults)
  | update (cartId quantity : Option Int) (f : CartUpdateFaults)

/-- The tables after one cart request. -/
def stepCartOp (db : Db) : CartOp → Db
  | .add req f => (cartAdd db req f).2
  | .update cartId quantity f => (cartUpdate db cartId quantity f).2

/-- The tables after a sequence of cart requests, handled one after the other. -/
def runCartOps (db : Db) (ops : List CartOp) : Db :=
  ops.foldl stepCartOp db

/-- No database call of `POST /cart/add` throws. -/
def noCartAddFaults : CartAddFaults :=
  { findCart := none, createCart := none, findItem := none, writeItem := none }

/-- No database call of `PUT /cart/:cartId` throws. -/
def noCartUpdateFaults : CartUpdateFaults :=
  { getPool := none, findItem := none, deleteItem := none, updateItem := none }

/-- The desk cart with the identity counters past the rows it holds. -/
def dbDeskCart : Db :=
  { dbDesk with next_cart_id := 2, next_cart_item_id := 2 }

/-- Add three chairs, take five desks out of the line of two, set the chairs to minus one,
set the desks to zero. -/
def opsCart : List CartOp :=
  [.add ⟨some 7, some 2, some 3, none⟩ noCartAddFaults,
    .add ⟨some 7, some 1, some (-5), none⟩ noCartAddFaults,
    .update (some 2) (some (-1)) noCartUpdateFaults,
    .update (some 1) (some 0) noCartUpdateFaults]

/-! ### Reviews and the product rating -/

/-- Row of `reviews` (`created_at` is left out). -/
structure Review where
  review_id : Int
  user_id : Int
  product_id : Int
  rating : Int
  review_text : String
deriving DecidableEq

/-- Row of `product_stats`; `rating` is a `DECIMAL(10,1)` column. -/
structure ProductStat where
  product_id : Int
  pieces_sold : String
  rating : Money
deriving DecidableEq

/-- The two tables the review handlers write, and the next identity value of `reviews`. -/
structure ReviewDb where
  reviews : List Review
  product_stats : List ProductStat
  next_review_id : Int
deriving DecidableEq

/-- Body of `POST /reviews/add`. -/
structure ReviewAddRequest where
  userId : Option Int
  productId : Option Int
  rating : Option Int
  reviewText : Option String
deriving DecidableEq

/-- Error raised by each database call of the review handlers (`none`: the call succeeds):
the lookup of an existing review (or the pool), the update or insert of the review, the
lookup and the delete of `DELETE /reviews/:reviewId`, and the two calls of
`updateProductRating`. -/
structure ReviewFaults where
  checkExisting : Option String
  writeReview : Option String
  findReview : Option String
  deleteReview : Option String
  ratingQuery : Option String
  ratingUpdate : Option String

/-- Answer of the review handlers. -/
inductive ReviewReply where
  | updated (reviewId : Int)
  | added (reviewId : Int)
  | deleted
  | failure (status : Nat) (error : String)
deriving DecidableEq

/-- The column `AVG(CAST(rating AS FLOAT))` over the reviews of a product: `none` (SQL
`NULL`) when the product has no review. -/
def averageRating (reviews : List Review) (productId : Int) : Option Money :=
  let ratings := (reviews.filter fun r => decide (r.product_id = productId)).map fun r =>
    (r.rating : Money)
  if ratings.length = 0 then none else some (ratings.sum / (ratings.length : Money))

/-- The value a `DECIMAL(10,1)` parameter holds for a non-negative number: the number
rounded to one decimal place, halves upwards. -/
def roundDecimal1 (x : Money) : Money :=
  (⌊x * 10 + 1 / 2⌋ : Int) / 10

/-- The helper `updateProductRating`: the average of the ratings of the product, `0` when
there is none (`average_rating || 0`), is bound as `sql.Decimal(10, 1)` and written to the
`product_stats` rows of the product. Every error is caught and logged. -/
def updateProductRating (db : ReviewDb) (productId : Int) (f : ReviewFaults) : ReviewDb :=
  match f.ratingQuery with
  | some _ => db
  | none =>
    match f.ratingUpdate with
    | some _ => db
    | none =>
      { db with
        product_stats := db.product_stats.map fun s =>
          if s.product_id = productId then
            { s with rating := roundDecimal1 ((averageRating db.reviews productId).getD 0) }
          else s }

/-- The text of `reviewText || ""`. -/
def reviewTextOrEmpty (reviewText : Option String) : String :=
  reviewText.getD ""

/-- The handler of `POST /reviews/add` after the checks on the body: a review of the user
for the product is updated in place when there is one, a new review is inserted otherwise;
then the rating of the product is recomputed. -/
def writeReview (db : ReviewDb) (userId productId rating : Int) (reviewText : Option String)
    (f : ReviewFaults) : ReviewReply × ReviewDb :=
  match f.checkExisting with
  | some _ => (.failure 500 "Failed to add review", db)
  | none =>
    match db.reviews.filter (fun r =>
        decide (r.user_id = userId) && decide (r.product_id = productId)) with
    | existing :: _ =>
      match f.writeReview with
      | some _ => (.failure 500 "Failed to add review", db)
      | none =>
        (.updated existing.review_id,
          updateProductRating
            { db with
              reviews := db.reviews.map fun r =>
                if r.user_id = userId ∧ r.product_id = productId then
                  { r with rating := rating, review_text := reviewTextOrEmpty reviewText }
                else r }
            productId f)
    | [] =>
      match f.writeReview with
      | some _ => (.failure 500 "Failed to add review", db)
      | none =>
        (.added db.next_review_id,
          updateProductRating
            { db with
              reviews := db.reviews
                ++ [Review.mk db.next_review_id userId productId rating
                      (reviewTextOrEmpty reviewText)]
              next_review_id := db.next_review_id + 1 }
            productId f)

/-- The handler of `POST /reviews/add`. -/
def addReview (db : ReviewDb) (req : ReviewAddRequest) (f : ReviewFaults) :
    ReviewReply × ReviewDb :=
  if !truthyInt req.userId || !truthyInt req.productId || !truthyInt req.rating then
    (.failure 400 "Missing required fields", db)
  else if req.rating.getD 0 < 1 ∨ req.rating.getD 0 > 5 then
    (.failure 400 "Rating must be between 1 and 5", db)
  else
    writeReview db (req.userId.getD 0) (req.productId.getD 0) (req.rating.getD 0)
      req.reviewText f

/-- The handler of `DELETE /reviews/:reviewId`: the product of the review is read first,
the review deleted, the rating of that product recomputed. -/
def deleteReview (db : ReviewDb) (reviewId : Int) (f : ReviewFaults) :
    ReviewReply × ReviewDb :=
  match f.findReview with
  | some _ => (.failure 500 "Failed to delete review", db)
  | none =>
    match db.reviews.filter (fun r => decide (r.review_id = reviewId)) with
    | [] => (.failure 404 "Review not found", db)
    | found :: _ =>
      match f.deleteReview with
      | some _ => (.failure 500 "Failed to delete review", db)
      | none =>
        (.deleted,
          updateProductRating
            { db with reviews := db.reviews.filter fun r => decide (r.review_id ≠ reviewId) }
            found.product_id f)

/-- The arithmetic mean of the ratings of the reviews stored for a product, and 0 when
there are none. -/
def meanRating (reviews : List Review) (productId : Int) : Money :=
  if (reviews.filter fun r => decide (r.product_id = productId)).length = 0 then 0
  else ((reviews.filter fun r => decide (r.product_id = productId)).map fun r =>
      (r.rating : Money)).sum
    / ((reviews.filter fun r => decide (r.product_id = productId)).length : Money)

/-- No database call of the review handlers throws. -/
def noReviewFaults : ReviewFaults :=
  { checkExisting := none, writeReview := none, findReview := none, deleteReview := none,
    ratingQuery := none, ratingUpdate := none }

/-- Product 1 with a statistics row and no review yet. -/
def dbNoReviews : ReviewDb :=
  { reviews := [], product_stats := [⟨1, "0", 0⟩], next_review_id := 1 }

/-- A review of product 1 by `userId` with the given rating. -/
def reqReview (userId rating : Int) : ReviewAddRequest :=
  { userId := some userId, productId := some 1, rating := some rating, reviewText := none }

/-- The tables after users 1, 2 and 3 reviewed product 1 with the given ratings. -/
def dbThreeReviews (r1 r2 r3 : Int) : ReviewDb :=
  (addReview (addReview (addReview dbNoReviews (reqReview 1 r1) noReviewFaults).2
    (reqReview 2 r2) noReviewFaults).2 (reqReview 3 r3) noReviewFaults).2

/-! ### Concrete states for the out-of-stock list and the cart deletion -/

/-- Two cart lines of user 7: seven desks (three in stock) and one chair (four in stock). -/
def dbMixedStock : Db :=
  { dbDesk with
    cart_items := [⟨1, 1, 1, 7, none⟩, ⟨2, 1, 2, 1, none⟩]
    products := [⟨1, "desk", 500, 3⟩, ⟨2, "chair", 80, 4⟩] }

/-- Checkout of the two lines of `dbMixedStock`. -/
def reqMixedStock : CheckoutRequest :=
  { reqDesk with cartItemIds := some [1, 2] }

/-- Carts of two users: user 7 holds two desks (line 1) and a chair (line 2), user 8 holds
one desk (line 3). -/
def dbTwoUsers : Db :=
  { dbDesk with
    carts := [⟨1, 7⟩, ⟨2, 8⟩]
    cart_items := [⟨1, 1, 1, 2, none⟩, ⟨2, 1, 2, 1, none⟩, ⟨3, 2, 1, 1, none⟩] }

/-! ### Order status, stock additions and voucher administration -/

/-- The statement `UPDATE orders SET order_status = @status WHERE order_id = @orderId`. -/
def setOrderStatus (orders : List Order) (orderId : Int) (status : String) : List Order :=
  orders.map fun o => if o.order_id = orderId then { o with order_status := status } else o

/-- The handler of `PUT /orders/:orderId/status`; `fault` is the error of the pool or of the
update. When a row matches, a missing `status` (bound as NULL) is refused by the NOT NULL
column and a text longer than the 50 characters of the column is refused as well; both are
thrown errors, answered 500. -/
def updateOrderStatus (db : Db) (orderId : Int) (status : Option String)
    (fault : Option String) : Reply × Db :=
  match fault with
  | some _ => (.failure 500 "Failed to update order status", db)
  | none =>
    if (db.orders.filter fun o => decide (o.order_id = orderId)).length > 0 then
      match status with
      | none => (.failure 500 "Failed to update order status", db)
      | some s =>
        if s.length > 50 then (.failure 500 "Failed to update order status", db)
        else (.ok, { db with orders := setOrderStatus db.orders orderId s })
    else (.failure 404 "Order not found", db)

/-- The handler of `PUT /orders/:orderId/cancel`: the same update with the fixed text
`Cancelled`. -/
def cancelOrder (db : Db) (orderId : Int) (fault : Option String) : Reply × Db :=
  match fault with
  | some _ => (.failure 500 "Failed to cancel order", db)
  | none =>
    if (db.orders.filter fun o => decide (o.order_id = orderId)).length > 0 then
      (.ok, { db with orders := setOrderStatus db.orders orderId "Cancelled" })
    else (.failure 404 "Order not found", db)

/-- A change of `products.price` for one product. No handler of the back end writes this
column after the product was added; the definition is the statement
`UPDATE products SET price = @price WHERE product_id = @productId` run on the database. -/
def setProductPrice (db : Db) (productId : Int) (price : Money) : Db :=
  { db with products := db.products.map fun p =>
      if p.product_id = productId then { p with price := price } else p }

/-- Body of `POST /products/add-stock`. -/
structure AddStockRequest where
  product_id : Option Int
  stock_quantity : Option Int
deriving DecidableEq

/-- Error raised by the two database calls of `POST /products/add-stock` (`none`: the call
succeeds): the stock update (or the pool before it) and the inventory insert. -/
structure AddStockFaults where
  stockUpdate : Option String
  inventoryInsert : Option String

/-- The statement `UPDATE products SET stock_quantity = stock_quantity + @stock_quantity
WHERE product_id = @product_id`. -/
def incrementStock (products : List Product) (productId quantity : Int) : List Product :=
  products.map fun p =>
    if p.product_id = productId then { p with stock_quantity := p.stock_quantity + quantity }
    else p

/-- The handler of `POST /products/add-stock`: the stock update, then the inventory insert,
outside any transaction, so a failing insert leaves the updated stock in place. A missing
field is bound as NULL: the update then matches no row or is refused by the NOT NULL
column, and the insert is refused; an insert for a product that does not exist is refused
by the foreign key of `inventory`. -/
def addStock (db : Db) (req : AddStockRequest) (f : AddStockFaults) : Reply × Db :=
  match f.stockUpdate with
  | some _ => (.failure 500 "Failed to add stock", db)
  | none =>
    match req.product_id, req.stock_quantity with
    | some productId, some quantity =>
      if db.products.any (fun p => decide (p.product_id = productId)) then
        let db1 := { db with products := incrementStock db.products productId quantity }
        match f.inventoryInsert with
        | some _ => (.failure 500 "Failed to add stock", db1)
        | none =>
          (.ok, { db1 with inventory := db1.inventory ++ [InventoryLog.mk productId quantity 0] })
      else (.failure 500 "Failed to add stock", db)
    | _, _ => (.failure 500 "Failed to add stock", db)

/-- Body of `POST /admin/vouchers`. -/
structure NewVoucherRequest where
  code : Option String
  discount_amount : Option Money
  min_order_value : Option Money
  expiry_date : Option Int
  usage_limit : Option Int
deriving DecidableEq

/-- The handler of `POST /admin/vouchers`: one insert with `status = 'active'`, no check of
the values. The insert is refused (a thrown error, answered 500) when a NOT NULL column gets
no value, when the code is longer than 50 characters or is already taken (`code` is
UNIQUE); `fault` is any other error of the pool or of the insert. The rounding of the two
amounts to the scale of `DECIMAL(10,2)` is left out. -/
def adminAddVoucher (db : Db) (req : NewVoucherRequest) (fault : Option String) :
    Reply × Db :=
  match fault with
  | some _ => (.failure 500 "Failed to add voucher", db)
  | none =>
    match req.code, req.discount_amount, req.min_order_value, req.expiry_date with
    | some code, some amount, some minOrder, some expiry =>
      if code.length > 50 || db.vouchers.any (fun v => decide (v.code = code)) then
        (.failure 500 "Failed to add voucher", db)
      else
        (.ok,
          { db with
            vouchers := db.vouchers
              ++ [Voucher.mk db.next_voucher_id code amount minOrder expiry req.usage_limit
                    (some "active")]
            next_voucher_id := db.next_voucher_id + 1 })
    | _, _, _, _ => (.failure 500 "Failed to add voucher", db)

/-- The handler of `DELETE /admin/vouchers/:voucherId`. The delete cascades to the claims in
`user_vouchers`, sets `cart_items.voucher_id` to NULL where it named the voucher, and is
refused (answered 500) while a row of `order_vouchers` refers to the voucher. -/
def adminDeleteVoucher (db : Db) (voucherId : Int) (fault : Option String) : Reply × Db :=
  match fault with
  | some _ => (.failure 500 "Failed to delete voucher", db)
  | none =>
    if db.vouchers.any (fun v => decide (v.voucher_id = voucherId)) then
      if db.has_order_vouchers_table
          && db.order_vouchers.any (fun ov => decide (ov.voucher_id = voucherId)) then
        (.failure 500 "Failed to delete voucher", db)
      else
        (.ok,
          { db with
            vouchers := db.vouchers.filter fun v => decide (v.voucher_id ≠ voucherId)
            user_vouchers := db.user_vouchers.filter fun uv => decide (uv.voucher_id ≠ voucherId)
            cart_items := db.cart_items.map fun ci =>
              if ci.voucher_id = some voucherId then { ci with voucher_id := none } else ci })
    else (.failure 404 "Voucher not found", db)

/-- A request that may follow the creation of an order: a status update, a cancellation, a
price change, a stock addition, the creation or deletion of a voucher, a checkout. -/
inductive OrderOp where
  | updateStatus (orderId : Int) (status : Option String) (fault : Option String)
  | cancel (orderId : Int) (fault : Option String)
  | setPrice (productId : Int) (price : Money)
  | addStock (req : AddStockRequest) (f : AddStockFaults)
  | addVoucher (req : NewVoucherRequest) (fault : Option String)
  | deleteVoucher (voucherId : Int) (fault : Option String)
  | checkout (now : Int) (req : CheckoutRequest) (f : Faults)

/-- The tables after one such request. -/
def stepOrderOp (db : Db) : OrderOp → Db
  | .updateStatus orderId status fault => (updateOrderStatus db orderId status fault).2
  | .cancel orderId fault => (cancelOrder db orderId fault).2
  | .setPrice productId price => setProductPrice db productId price
  | .addStock req f => (addStock db req f).2
  | .addVoucher req fault => (adminAddVoucher db req fault).2
  | .deleteVoucher voucherId fault => (adminDeleteVoucher db voucherId fault).2
  | .checkout now req f => (checkout db now req f).2

/-- The tables after a sequence of such requests, handled one after the other. -/
def runOrderOps (db : Db) (ops : List OrderOp) : Db :=
  ops.foldl stepOrderOp db

/-- Row by row, `new` keeps the orders of `old` at their positions with their id, user,
`total_price` and `total`. -/
def OrderTotalsKept (old new : List Order) : Prop :=
  ∀ (i : Nat) (o : Order), old[i]? = some o →
    ∃ o1 : Order, new[i]? = some o1 ∧ o1.order_id = o.order_id ∧ o1.user_id = o.user_id
      ∧ o1.total_price = o.total_price ∧ o1.total = o.total

/-- The rows of `order_items` that belong to an order. -/
def itemsOfOrder (db : Db) (orderId : Int) : List OrderItem :=
  db.order_items.filter fun oi => decide (oi.order_id = orderId)

/-- The desk cart after a first checkout of user 7 (order 1: two desks, 800), with a stored
voucher and a second cart line of one chair. -/
def dbAfterOrder : Db :=
  { dbDesk with
    cart_items := [⟨2, 1, 2, 1, none⟩]
    products := [⟨1, "desk", 500, 8⟩, ⟨2, "chair", 80, 4⟩]
    vouchers := [voucherPct]
    orders := [⟨1, 7, 800, some 800, "processing"⟩]
    order_items := [⟨1, 1, 2, 800⟩]
    next_order_id := 2
    next_voucher_id := 2 }

/-- A status update, a price change, a stock addition, a new voucher, the deletion of a
voucher, a second checkout and the cancellation of the first order. -/
def opsAfterOrder : List OrderOp :=
  [.updateStatus 1 (some "shipped") none, .setPrice 1 650,
    .addStock ⟨some 1, some 5⟩ ⟨none, none⟩,
    .addVoucher ⟨some "NEW", some 30, some 0, some 90, some 1⟩ none, .deleteVoucher 1 none,
    .checkout 10 { reqDesk with cartItemIds := some [2] } noFaults, .cancel 1 none]

/-- The lamp cart with a voucher whose `discount_amount` is negative. -/
def dbNegative : Db :=
  { dbLamp with
    vouchers := [⟨1, "MINUS", -50, 0, 100, some 1, some "active"⟩]
    next_voucher_id := 2 }

/-- Row by row, `new` is `old` with at most the `order_status` of a row changed; no row is
added or removed. -/
def OnlyStatusChanged (old new : List Order) : Prop :=
  new.length = old.length
    ∧ ∀ (i : Nat) (o : Order), old[i]? = some o →
        ∃ o1 : Order, new[i]? = some o1 ∧ o1 = { o with order_status := o1.order_status }

/-- The order tables of `db1` keep those of `db`: the orders stay with their totals, the
rows of `order_items` stay, rows added to `order_items` carry an order id that was not yet
given out in `db`, and the identity counter of `orders` does not go back. -/
def OrderRowsKept (db db1 : Db) : Prop :=
  OrderTotalsKept db.orders db1.orders
    ∧ db.next_order_id ≤ db1.next_order_id
    ∧ ∃ added : List OrderItem, db1.order_items = db.order_items ++ added
        ∧ ∀ oi ∈ added, db.next_order_id ≤ oi.order_id

/-! ### The front-end `calculateVoucherDiscount` -/

/-- The fields of a voucher object that `calculateVoucherDiscount` reads, with numbers as
the back end sends them; `none` is an absent or `null` field. -/
structure ClientVoucher where
  min_order_value : Option Money
  discount_type : Option String
  discount_value : Option Money
  discount_amount : Option Money
  max_discount : Option Money
deriving DecidableEq

/-- JavaScript truthiness of an optional number: absent, `null` and `0` are falsy. -/
def truthyNum : Option Money → Bool
  | some x => x != 0
  | none => false

/-- The number `parseFloat(x || 0)`. -/
def numberOrZero (x : Option Money) : Money :=
  if truthyNum x then x.getD 0 else 0

/-- The constant `minOrderValue = parseFloat(voucher.min_order_value || 0)`. -/
def minOrderValueOf (voucher : ClientVoucher) : Money :=
  numberOrZero voucher.min_order_value

/-- The constant `discountType = voucher.discount_type || 'fixed'`: an absent or empty text
is falsy. -/
def discountTypeOf (voucher : ClientVoucher) : String :=
  match voucher.discount_type with
  | some s => if s != "" then s else "fixed"
  | none => "fixed"

/-- The constant
`discountValue = parseFloat(voucher.discount_value || voucher.discount_amount || 0)`. -/
def discountValueOf (voucher : ClientVoucher) : Money :=
  if truthyNum voucher.discount_value then voucher.discount_value.getD 0
  else numberOrZero voucher.discount_amount

/-- The constant `maxDiscount = parseFloat(voucher.max_discount || 0)`. -/
def maxDiscountOf (voucher : ClientVoucher) : Money :=
  numberOrZero voucher.max_discount

/-- The function `calculateVoucherDiscount(voucher, subtotal)` of `VoucherService.js`;
`none` is a falsy `voucher`. -/
def calculateVoucherDiscount (voucher : Option ClientVoucher) (subtotal : Money) : Money :=
  match voucher with
  | none => 0
  | some voucher =>
    if subtotal ≤ 0 then 0
    else if minOrderValueOf voucher > 0 ∧ subtotal < minOrderValueOf voucher then 0
    else if discountTypeOf voucher = "percentage" then
      let discountAmount := subtotal * discountValueOf voucher / 100
      if maxDiscountOf voucher > 0 ∧ discountAmount > maxDiscountOf voucher then
        maxDiscountOf voucher
      else discountAmount
    else
      let discountAmount := discountValueOf voucher
      if discountAmount > subtotal then subtotal else discountAmount

/-- A percentage voucher of 150 percent with no `max_discount`. -/
def voucherOverHundred : ClientVoucher :=
  { min_order_value := none, discount_type := some "percentage", discount_value := some 150,
    discount_amount := none, max_discount := none }

/-- A percentage voucher of 20 percent, minimum order 500, at most 150 off. -/
def voucherTwentyCapped : ClientVoucher :=
  { min_order_value := some 500, discount_type := some "percentage",
    discount_value := some 20, discount_amount := some 20, max_discount := some 150 }

/-! ### `POST /apply-voucher` -/

/-- Element of the `cartItems` array of the body of `POST /apply-voucher`, as the cart page
holds it: list price, discounted price if any, quantity. -/
structure PreviewItem where
  price : Money
  discount_price : Option Money
  quantity : Int
deriving DecidableEq

/-- Body of `POST /apply-voucher`; `cartItems := none` is a missing field or a value that is
not an array. -/
structure PreviewRequest where
  userId : Option Int
  voucherId : Option Int
  cartItems : Option (List PreviewItem)
deriving DecidableEq

/-- Row of the voucher query of `POST /apply-voucher`. -/
structure PreviewRow where
  voucher_id : Int
  code : String
  discount_amount : Money
  min_order_value : Money
  user_voucher_id : Option Int
deriving DecidableEq

/-- The 200 body of `POST /apply-voucher`. -/
structure PreviewSuccess where
  voucherId : Int
  voucherCode : String
  userVoucherId : Option Int
  originalAmount : Money
  discountAmount : Money
  finalAmount : Money
  isPercentage : Bool
  discountValue : Money
deriving DecidableEq

/-- What `POST /apply-voucher` sends back: the 200 body, the 400 answer
`Minimum order value of ... not met` with the required value, or a status with an error
text. -/
inductive PreviewResponse where
  | success (body : PreviewSuccess)
  | minOrderNotMet (required : Money)
  | failure (status : Nat) (error : String)
deriving DecidableEq

/-- The parameters that the handler binds on the voucher query: one call
`.input("voucherId", sql.Int, voucherId)`. -/
def previewQueryInputs : List String := ["voucherId"]

/-- The parameters that the text of the voucher query refers to: `@userId` in the join
condition and `@voucherId` in the `WHERE` clause. -/
def previewQueryParameters : List String := ["userId", "voucherId"]

/-- The rows of the voucher query for given values of its two parameters: the voucher with
this id, active or without status and unexpired, left-joined to the claims of the user. -/
def previewRows (db : Db) (now userId voucherId : Int) : List PreviewRow :=
  db.vouchers.flatMap fun v =>
    if v.voucher_id = voucherId ∧ (v.status = some "active" ∨ v.status = none)
        ∧ v.expiry_date > now then
      match db.user_vouchers.filter (fun uv =>
          decide (v.voucher_id = uv.voucher_id) && decide (uv.user_id = userId)) with
      | [] => [PreviewRow.mk v.voucher_id v.code v.discount_amount v.min_order_value none]
      | claims => claims.map fun uv =>
          PreviewRow.mk v.voucher_id v.code v.discount_amount v.min_order_value
            (some uv.user_voucher_id)
    else []

/-- The voucher query as the handler runs it. The database refuses a batch that refers to a
parameter which was not bound (`Must declare the scalar variable`), whatever the tables
hold; `fault` is an error of the pool before it. -/
def previewQuery (db : Db) (now userId voucherId : Int) (fault : Option String) :
    Except String (List PreviewRow) :=
  match fault with
  | some e => .error e
  | none =>
    match previewQueryParameters.find? (fun p => decide (p ∉ previewQueryInputs)) with
    | some p => .error ("Must declare the scalar variable @" ++ p)
    | none => .ok (previewRows db now userId voucherId)

/-- The subtotal of the preview:
`cartItems.reduce((sum, item) => sum + parseFloat(item.discount_price || item.price) *
item.quantity, 0)`. -/
def previewSubtotal (cartItems : List PreviewItem) : Money :=
  cartItems.foldl (fun sum item =>
    sum + (if truthyNum item.discount_price then item.discount_price.getD 0 else item.price)
      * (item.quantity : Money)) 0

/-- The handler of `POST /apply-voucher` from the record set of the voucher query on: the
404 for an empty record set, the minimum order check, the discount (a percentage capped at
1000 when `discount_amount <= 100`, the amount itself otherwise), limited to the subtotal,
and the final amount. -/
def previewAnswer (rows : List PreviewRow) (cartItems : List PreviewItem) : PreviewResponse :=
  match rows with
  | [] => .failure 404 "Voucher not found or expired"
  | voucher :: _ =>
    let subtotal := previewSubtotal cartItems
    if subtotal < voucher.min_order_value then .minOrderNotMet voucher.min_order_value
    else
      let isPercentage := decide (voucher.discount_amount ≤ 100)
      let computed :=
        if isPercentage then
          if subtotal * voucher.discount_amount / 100 > 1000 then 1000
          else subtotal * voucher.discount_amount / 100
        else voucher.discount_amount
      let discountAmount := if computed > subtotal then subtotal else computed
      .success
        (PreviewSuccess.mk voucher.voucher_id voucher.code voucher.user_voucher_id subtotal
          discountAmount (subtotal - discountAmount) isPercentage voucher.discount_amount)

/-- The handler of `POST /apply-voucher`: the check of the body, the voucher query (every
thrown error is answered 500), then `previewAnswer`. -/
def applyVoucherPreview (db : Db) (now : Int) (req : PreviewRequest) (fault : Option String) :
    PreviewResponse :=
  if !truthyInt req.userId || !truthyInt req.voucherId then
    .failure 400 "Missing required data"
  else
    match req.cartItems with
    | none => .failure 400 "Missing required data"
    | some cartItems =>
      match previewQuery db now (req.userId.getD 0) (req.voucherId.getD 0) fault with
      | .error _ => .failure 500 "Failed to apply voucher"
      | .ok rows => previewAnswer rows cartItems

/-- The lines of a checkout as the cart page sends them to the preview. -/
def previewItemsOf (rows : List VerifiedItem) : List PreviewItem :=
  rows.map fun row => PreviewItem.mk row.price (some row.discount_price) row.quantity

/-- The preview request of user 7 for voucher 1 on the lamp line. -/
def reqPreview : PreviewRequest :=
  { userId := some 7, voucherId := some 1,
    cartItems := some (previewItemsOf (verifyItems dbFixed 10 7 [1])) }

/-! ### Repeated calls of `GET /vouchers/:userId` -/

/-- One call of `GET /vouchers/:userId`: the time of the call, the date one month later,
the user, and the errors of its database calls. -/
structure VoucherCall where
  now : Int
  inOneMonth : Int
  userId : Int
  f : VoucherFaults

/-- The tables after a sequence of calls of `GET /vouchers/:userId`, handled one after the
other. -/
def runVoucherCalls (db : Db) (calls : List VoucherCall) : Db :=
  calls.foldl (fun db c => (getVouchers db c.now c.inOneMonth c.userId c.f).2) db

/-- The vouchers with the code of the welcome voucher. -/
def welcomeVouchers (db : Db) : List Voucher :=
  db.vouchers.filter fun v => decide (v.code = "WELCOME10")

/-- The claims of a voucher by a user. -/
def claimsOf (db : Db) (userId voucherId : Int) : List UserVoucher :=
  db.user_vouchers.filter fun uv =>
    decide (uv.user_id = userId) && decide (uv.voucher_id = voucherId)

/-- Three calls for user 7 and one for user 8. -/
def callsWelcome : List VoucherCall :=
  [⟨10, 40, 7, noVoucherFaults⟩, ⟨11, 41, 7, noVoucherFaults⟩, ⟨12, 42, 8, noVoucherFaults⟩,
    ⟨50, 80, 7, noVoucherFaults⟩]

/-- Two users, each with one cart line for the last lamp in stock. -/
def dbLastUnit : Db :=
  { emptyDb with
    carts := [⟨1, 7⟩, ⟨2, 8⟩]
    cart_items := [⟨1, 1, 1, 1, none⟩, ⟨2, 2, 1, 1, none⟩]
    products := [⟨1, "lamp", 1000, 1⟩] }

/-- Checkout of line 2 by user 8. -/
def reqSecondUser : CheckoutRequest :=
  { userId := some 8, cartItemIds := some [2], voucherId := none, userVoucherId := none,
    paymentMethod := some "cod" }

/-! ### Selected lines, and more concrete states -/

/-- The selected lines: the cart lines of the user whose id is listed in the request, each
with its product; the verification query without its join to the discount windows. -/
def selectedLines (db : Db) (userId : Int) (cartItemIds : List Int) :
    List (CartItem × Product) :=
  db.carts.flatMap fun c =>
    db.cart_items.flatMap fun ci =>
      db.products.flatMap fun p =>
        if c.cart_id = ci.cart_id ∧ ci.product_id = p.product_id ∧ c.user_id = userId
            ∧ ci.cart_item_id ∈ cartItemIds then
          [(ci, p)]
        else []

/-- The effective unit price of a product with at most one discount window active now: the
discount price of that window, the list price when no window is active. -/
def effectivePrice (db : Db) (now : Int) (p : Product) : Money :=
  match activeDiscounts db now p with
  | [] => p.price
  | pd :: _ => pd.discount_price

/-- No product has more than one discount window active now. -/
def SingleWindows (db : Db) (now : Int) : Prop :=
  ∀ p ∈ db.products, (activeDiscounts db now p).length ≤ 1

/-- The voucher named by the request is stored, is active and unexpired, and the subtotal
reaches its `min_order_value`; stated on the `vouchers` table itself. A voucher id of `0`
is falsy in the handler and names no voucher. -/
def VoucherFoundAndQualifies (db : Db) (now : Int) (voucherId : Option Int)
    (subtotal : Money) : Prop :=
  ∃ vid v, voucherId = some vid ∧ vid ≠ 0 ∧ v ∈ db.vouchers ∧ v.voucher_id = vid
    ∧ v.status = some "active" ∧ now < v.expiry_date ∧ v.min_order_value ≤ subtotal

/-- The lamp at 1000.50 with a voucher of 25 percent. -/
def dbOdd : Db :=
  { dbLamp with
    products := [⟨1, "lamp", 2001 / 2, 5⟩]
    vouchers := [⟨1, "QUARTER", 25, 0, 100, some 1, some "active"⟩] }

/-- The lamp cart with the 20 percent voucher disabled. -/
def dbDisabled : Db :=
  { dbLamp with vouchers := [⟨1, "SAVE20", 20, 500, 100, some 1, some "disabled"⟩] }

/-- The lamp cart with a 20 percent voucher that asks for an order of 5000. -/
def dbHighMin : Db :=
  { dbLamp with vouchers := [⟨1, "SAVE20", 20, 5000, 100, some 1, some "active"⟩] }

/-- The desk with two overlapping discount windows, seven desks in the cart line and three
in stock. -/
def dbOverlapShort : Db :=
  { dbOverlap with
    cart_items := [⟨1, 1, 1, 7, none⟩]
    products := [⟨1, "desk", 500, 3⟩, ⟨2, "chair", 80, 4⟩] }

/-- One active voucher `SPRING` that expires at 20, and no welcome voucher. -/
def dbSpring : Db :=
  { emptyDb with
    vouchers := [⟨1, "SPRING", 20, 0, 20, some 1, some "active"⟩]
    next_voucher_id := 2 }

/-! ## Properties -/

/-! ### The loop over the lines -/

/-- The tables a successful run of the loop over the lines leaves behind: the stock is
decremented line by line, one order item is appended per line, the other tables read by
the checkout are untouched. -/
theorem processItems_ok_tables (f : Faults) (orderId : Int) :
    ∀ (rows : List VerifiedItem) (i : Nat) (db db1 : Db),
      processItems f orderId i rows db = .ok db1 →
      db1.products
          = rows.foldl (fun ps item => decrementStock ps item.product_id item.quantity)
              db.products
        ∧ db1.order_items = db.order_items ++ rows.map (orderItemOf orderId)
        ∧ db1.orders = db.orders ∧ db1.next_order_id = db.next_order_id
        ∧ db1.carts = db.carts ∧ db1.cart_items = db.cart_items
        ∧ db1.vouchers = db.vouchers ∧ db1.user_vouchers = db.user_vouchers
        ∧ db1.payments = db.payments ∧ db1.order_vouchers = db.order_vouchers
        ∧ db1.product_discounts = db.product_discounts
        ∧ db1.payments_has_voucher_id = db.payments_has_voucher_id := by
  intro rows
  induction rows with
  | nil =>
    intro i db db1 h
    simp only [processItems, Except.ok.injEq] at h
    subst h
    simp
  | cons item rest ih =>
    intro i db db1 h
    unfold processItems at h
    cases hoi : f.orderItemInsert i with
    | some e => simp [hoi] at h
    | none =>
      cases hsu : f.stockUpdate i with
      | some e => simp [hoi, hsu] at h
      | none =>
        simp only [hoi, hsu] at h
        cases hinv : f.inventoryInsert i with
        | some e =>
          simp only [hinv] at h
          have := ih _ _ _ h
          simpa using this
        | none =>
          simp only [hinv] at h
          have := ih _ _ _ h
          simpa using this

/-- Decrementing the stock line by line reduces the stock of every product by the quantity
ordered of it. -/
theorem foldl_decrementStock (rows : List VerifiedItem) :
    ∀ ps : List Product,
      rows.foldl (fun ps item => decrementStock ps item.product_id item.quantity) ps
        = ps.map fun p =>
            { p with stock_quantity := p.stock_quantity - orderedQuantity rows p.product_id } := by
  induction rows with
  | nil =>
    intro ps
    simp [orderedQuantity]
  | cons item rest ih =>
    intro ps
    rw [List.foldl_cons, ih]
    simp only [decrementStock, List.map_map]
    apply List.map_congr_left
    intro p _
    by_cases hp : p.product_id = item.product_id
    · have hp2 : item.product_id = p.product_id := hp.symm
      simp [hp, orderedQuantity, List.filter_cons]
      omega
    · have hp2 : ¬ item.product_id = p.product_id := fun h => hp h.symm
      simp [hp, hp2, orderedQuantity, List.filter_cons]

/-- Nothing is ordered of a product that no line references. -/
theorem orderedQuantity_eq_zero (rows : List VerifiedItem) (productId : Int)
    (h : ∀ item ∈ rows, item.product_id ≠ productId) : orderedQuantity rows productId = 0 := by
  have : rows.filter (fun item => decide (item.product_id = productId)) = [] := by
    rw [List.filter_eq_nil_iff]
    intro item hitem
    simpa using h item hitem
  simp [orderedQuantity, this]

/-- The stock after the loop over the lines, product by product. -/
theorem foldl_decrementStock_eq_stockAfterOrder (rows : List VerifiedItem) (ps : List Product) :
    rows.foldl (fun ps item => decrementStock ps item.product_id item.quantity) ps
      = ps.map (stockAfterOrder rows) := by
  rw [foldl_decrementStock]
  apply List.map_congr_left
  intro p _
  unfold stockAfterOrder
  split
  · rfl
  · next hany =>
    have hz : orderedQuantity rows p.product_id = 0 := by
      apply orderedQuantity_eq_zero
      intro item hitem heq
      apply hany
      rw [List.any_eq_true]
      exact ⟨item, hitem, by simpa using heq⟩
    simp [hz]

/-! ### The transaction body -/

/-- The order-voucher block only touches `order_vouchers`. -/
theorem recordOrderVoucherIfAny_tables (db : Db) (f : Faults) (orderId : Int)
    (voucherId : Option Int) :
    (recordOrderVoucherIfAny db f orderId voucherId).products = db.products
      ∧ (recordOrderVoucherIfAny db f orderId voucherId).orders = db.orders
      ∧ (recordOrderVoucherIfAny db f orderId voucherId).next_order_id = db.next_order_id := by
  unfold recordOrderVoucherIfAny recordOrderVoucher
  cases voucherId with
  | none => simp
  | some vid =>
    by_cases hv : vid = 0
    · simp [hv]
    · cases hf : f.orderVoucherInsert with
      | some e => simp [hv]
      | none =>
        simp only [bne_iff_ne, ne_eq, hv, not_false_eq_true, if_true]
        split <;> exact ⟨rfl, rfl, rfl⟩

/-- What a committed transaction body did to `orders` and `products`: the new order has the
next identity value and stores the subtotal and the final total, and the stock of every
product is reduced by the quantity ordered of it. -/
theorem txBody_ok_inv {db : Db} {f : Faults} {userId : Int} {cartItemIds : List Int}
    {req : CheckoutRequest} {rows : List VerifiedItem} {subtotal finalTotal : Money}
    {orderId : Int} {db1 : Db}
    (h : txBody db f userId cartItemIds req rows subtotal finalTotal = .ok (orderId, db1)) :
    orderId = db.next_order_id
      ∧ db1.orders = db.orders ++ [orderOf orderId userId subtotal finalTotal]
      ∧ db1.products = db.products.map (stockAfterOrder rows) := by
  unfold txBody at h
  cases hr : recheckStock db f 0 rows with
  | error e => simp [hr] at h
  | ok u =>
    cases ho : f.orderInsert with
    | some e => simp [hr, ho] at h
    | none =>
      simp only [hr, ho] at h
      cases hitems : processItems f (insertOrder db userId subtotal finalTotal).1 0 rows
          (recordOrderVoucherIfAny (insertOrder db userId subtotal finalTotal).2 f
            (insertOrder db userId subtotal finalTotal).1 req.voucherId) with
      | error e => simp [hitems] at h
      | ok db3 =>
        simp only [hitems] at h
        cases hpay : createPayment db3 f (insertOrder db userId subtotal finalTotal).1 req with
        | error e => simp [hpay] at h
        | ok db4 =>
          simp only [hpay] at h
          cases hc : f.commit with
          | some e => simp [hc] at h
          | none =>
            simp only [hc, Except.ok.injEq, Prod.mk.injEq] at h
            obtain ⟨hid, hdb⟩ := h
            obtain ⟨hprod, -, hord, -⟩ := processItems_ok_tables f _ rows 0 _ db3 hitems
            have hrec := recordOrderVoucherIfAny_tables
              (insertOrder db userId subtotal finalTotal).2 f
              (insertOrder db userId subtotal finalTotal).1 req.voucherId
            have hid2 : orderId = db.next_order_id := by rw [← hid]; rfl
            have h3o : db3.orders = db.orders ++ [orderOf orderId userId subtotal finalTotal] := by
              rw [hord, hrec.2.1, hid2]; rfl
            have h3p : db3.products = db.products.map (stockAfterOrder rows) := by
              rw [hprod, hrec.1, foldl_decrementStock_eq_stockAfterOrder]; rfl
            have h4 : db4.orders = db3.orders ∧ db4.products = db3.products := by
              unfold createPayment at hpay
              cases h1 : f.paymentColumnQuery with
              | some e => simp [h1] at hpay
              | none =>
                cases h2 : f.paymentInsert with
                | some e => simp [h1, h2] at hpay
                | none =>
                  simp only [h1, h2, Except.ok.injEq] at hpay
                  subst hpay
                  exact ⟨rfl, rfl⟩
            have h5 : (markVoucherUsed db4 f req).orders = db4.orders
                ∧ (markVoucherUsed db4 f req).products = db4.products := by
              unfold markVoucherUsed
              split
              · split <;> exact ⟨rfl, rfl⟩
              · exact ⟨rfl, rfl⟩
            have h6 : ∀ d : Db, (removeCartItems d f cartItemIds).orders = d.orders
                ∧ (removeCartItems d f cartItemIds).products = d.products := by
              intro d
              unfold removeCartItems
              split <;> exact ⟨rfl, rfl⟩
            subst hdb
            refine ⟨hid2, ?_, ?_⟩
            · rw [(h6 _).1, h5.1, h4.1, h3o]
            · rw [(h6 _).2, h5.2, h4.2, h3p]

/-- Where the first fault of the loop over the lines comes from. -/
theorem firstItemFault_some (f : Faults) :
    ∀ (n i : Nat) (e : String), firstItemFault f i n = some e →
      ∃ j, i ≤ j ∧ j < i + n ∧ (f.orderItemInsert j = some e ∨ f.stockUpdate j = some e) := by
  intro n
  induction n with
  | zero => intro i e h; simp [firstItemFault] at h
  | succ n ih =>
    intro i e h
    unfold firstItemFault at h
    cases hoi : f.orderItemInsert i with
    | some e1 =>
      simp only [hoi, Option.some.injEq] at h
      exact ⟨i, le_refl i, by omega, Or.inl (by rw [hoi, h])⟩
    | none =>
      cases hsu : f.stockUpdate i with
      | some e1 =>
        simp only [hoi, hsu, Option.some.injEq] at h
        exact ⟨i, le_refl i, by omega, Or.inr (by rw [hsu, h])⟩
      | none =>
        simp only [hoi, hsu] at h
        obtain ⟨j, hj1, hj2, hj3⟩ := ih (i + 1) e h
        exact ⟨j, by omega, by omega, hj3⟩

/-- When the loop over the lines meets no fault, no order-item insert and no stock update
of its lines throws. -/
theorem firstItemFault_none (f : Faults) :
    ∀ (n i : Nat), firstItemFault f i n = none →
      ∀ j, i ≤ j → j < i + n → f.orderItemInsert j = none ∧ f.stockUpdate j = none := by
  intro n
  induction n with
  | zero => intro i _ j h1 h2; omega
  | succ n ih =>
    intro i h j h1 h2
    unfold firstItemFault at h
    cases hoi : f.orderItemInsert i with
    | some e1 => simp [hoi] at h
    | none =>
      cases hsu : f.stockUpdate i with
      | some e1 => simp [hoi, hsu] at h
      | none =>
        simp only [hoi, hsu] at h
        by_cases hji : j = i
        · subst hji
          exact ⟨hoi, hsu⟩
        · exact ih (i + 1) h j (by omega) (by omega)

/-- The loop over the lines throws exactly its first fault. -/
theorem processItems_error_of_fault (f : Faults) (orderId : Int) :
    ∀ (rows : List VerifiedItem) (i : Nat) (db : Db) (e : String),
      firstItemFault f i rows.length = some e → processItems f orderId i rows db = .error e := by
  intro rows
  induction rows with
  | nil => intro i db e h; simp [firstItemFault] at h
  | cons item rest ih =>
    intro i db e h
    simp only [List.length_cons] at h
    unfold firstItemFault at h
    unfold processItems
    cases hoi : f.orderItemInsert i with
    | some e1 => simpa [hoi] using h
    | none =>
      cases hsu : f.stockUpdate i with
      | some e1 => simpa [hoi, hsu] using h
      | none =>
        simp only [hoi, hsu] at h
        exact ih _ _ _ h

/-- The loop over the lines runs to its end when it meets no fault. -/
theorem processItems_ok_of_no_fault (f : Faults) (orderId : Int) :
    ∀ (rows : List VerifiedItem) (i : Nat) (db : Db),
      firstItemFault f i rows.length = none → ∃ db1, processItems f orderId i rows db = .ok db1 := by
  intro rows
  induction rows with
  | nil => intro i db _; exact ⟨db, rfl⟩
  | cons item rest ih =>
    intro i db h
    simp only [List.length_cons] at h
    unfold firstItemFault at h
    unfold processItems
    cases hoi : f.orderItemInsert i with
    | some e1 => simp [hoi] at h
    | none =>
      cases hsu : f.stockUpdate i with
      | some e1 => simp [hoi, hsu] at h
      | none =>
        simp only [hoi, hsu] at h
        exact ih _ _ h

/-- The payment block throws exactly its fault. -/
theorem createPayment_error_of_fault (db : Db) (f : Faults) (orderId : Int)
    (req : CheckoutRequest) (e : String) (h : paymentFault f = some e) :
    createPayment db f orderId req = .error e := by
  unfold paymentFault at h
  unfold createPayment
  cases h1 : f.paymentColumnQuery with
  | some e1 => simpa [h1] using h
  | none =>
    cases h2 : f.paymentInsert with
    | some e2 => simpa [h1, h2] using h
    | none => simp [h1, h2] at h

/-- The payment block succeeds when none of its calls throws. -/
theorem createPayment_ok_of_no_fault (db : Db) (f : Faults) (orderId : Int)
    (req : CheckoutRequest) (h : paymentFault f = none) :
    ∃ db1, createPayment db f orderId req = .ok db1 := by
  unfold paymentFault at h
  unfold createPayment
  cases h1 : f.paymentColumnQuery with
  | some e1 => simp [h1] at h
  | none =>
    cases h2 : f.paymentInsert with
    | some e2 => simp [h1, h2] at h
    | none => exact ⟨_, rfl⟩

/-- The transaction body throws the error of its outcome. -/
theorem txBody_error_of_outcome {db : Db} {f : Faults} {rows : List VerifiedItem} {e : String}
    (userId : Int) (cartItemIds : List Int) (req : CheckoutRequest)
    (subtotal finalTotal : Money) (h : txOutcome db f rows = .error e) :
    txBody db f userId cartItemIds req rows subtotal finalTotal = .error e := by
  unfold txOutcome at h
  unfold txBody
  cases hr : recheckStock db f 0 rows with
  | error e1 => simpa [hr] using h
  | ok u =>
    cases ho : f.orderInsert with
    | some e1 => simpa [hr, ho] using h
    | none =>
      simp only [hr, ho] at h ⊢
      cases hi : firstItemFault f 0 rows.length with
      | some e1 =>
        simp only [hi, Except.error.injEq] at h
        subst h
        rw [processItems_error_of_fault f _ rows 0 _ e1 hi]
      | none =>
        simp only [hi] at h
        obtain ⟨db3, h3⟩ := processItems_ok_of_no_fault f
          (insertOrder db userId subtotal finalTotal).1 rows 0
          (recordOrderVoucherIfAny (insertOrder db userId subtotal finalTotal).2 f
            (insertOrder db userId subtotal finalTotal).1 req.voucherId) hi
        rw [h3]
        cases hp : paymentFault f with
        | some e1 =>
          simp only [hp, Except.error.injEq] at h
          subst h
          simp only [createPayment_error_of_fault db3 f _ req e1 hp]
        | none =>
          simp only [hp] at h
          obtain ⟨db4, h4⟩ := createPayment_ok_of_no_fault db3 f
            (insertOrder db userId subtotal finalTotal).1 req hp
          simp only [h4]
          cases hc : f.commit with
          | some e1 => simpa [hc] using h
          | none => simp [hc] at h

/-- The transaction body commits the order of its outcome. -/
theorem txBody_ok_of_outcome {db : Db} {f : Faults} {rows : List VerifiedItem} {orderId : Int}
    (userId : Int) (cartItemIds : List Int) (req : CheckoutRequest)
    (subtotal finalTotal : Money) (h : txOutcome db f rows = .ok orderId) :
    ∃ db1, txBody db f userId cartItemIds req rows subtotal finalTotal = .ok (orderId, db1) := by
  unfold txOutcome at h
  unfold txBody
  cases hr : recheckStock db f 0 rows with
  | error e1 => simp [hr] at h
  | ok u =>
    cases ho : f.orderInsert with
    | some e1 => simp [hr, ho] at h
    | none =>
      simp only [hr, ho] at h ⊢
      cases hi : firstItemFault f 0 rows.length with
      | some e1 => simp [hi] at h
      | none =>
        simp only [hi] at h
        obtain ⟨db3, h3⟩ := processItems_ok_of_no_fault f
          (insertOrder db userId subtotal finalTotal).1 rows 0
          (recordOrderVoucherIfAny (insertOrder db userId subtotal finalTotal).2 f
            (insertOrder db userId subtotal finalTotal).1 req.voucherId) hi
        rw [h3]
        cases hp : paymentFault f with
        | some e1 => simp [hp] at h
        | none =>
          simp only [hp] at h
          obtain ⟨db4, h4⟩ := createPayment_ok_of_no_fault db3 f
            (insertOrder db userId subtotal finalTotal).1 req hp
          simp only [h4]
          cases hc : f.commit with
          | some e1 => simp [hc] at h
          | none =>
            simp only [hc, Except.ok.injEq] at h
            subst h
            exact ⟨_, rfl⟩

/-- The stock re-check only reads `products`. -/
theorem recheckStock_congr {db db' : Db} (f : Faults) (h : db.products = db'.products) :
    ∀ (rows : List VerifiedItem) (i : Nat),
      recheckStock db f i rows = recheckStock db' f i rows := by
  intro rows
  induction rows with
  | nil => intro i; rfl
  | cons item rest ih =>
    intro i
    unfold recheckStock
    rw [h, ih]

/-- The outcome of the transaction body only depends on `products` and on the next order
id. -/
theorem txOutcome_congr {db db' : Db} (f : Faults) (rows : List VerifiedItem)
    (hp : db.products = db'.products) (hn : db.next_order_id = db'.next_order_id) :
    txOutcome db f rows = txOutcome db' f rows := by
  unfold txOutcome
  rw [recheckStock_congr f hp rows 0, hn]

/-- A text contains itself. -/
theorem containsText_self (m : String) : containsText m m :=
  ⟨"", "", by simp⟩

/-- A text with something put in front still contains what it contained. -/
theorem containsText_append_left (pre text m : String) (h : containsText text m) :
    containsText (pre ++ text) m := by
  obtain ⟨a, b, hab⟩ := h
  exact ⟨pre ++ a, b, by rw [hab]; simp [String.append_assoc]⟩

/-- An error of the transaction body stems from a failing step of the commit phase, and
its text contains the message of that step. -/
theorem txOutcome_error_cause {db : Db} {f : Faults} {rows : List VerifiedItem} {e : String}
    (h : txOutcome db f rows = .error e) :
    ∃ m, CommitStepFails db f rows m ∧ containsText e m := by
  unfold txOutcome at h
  cases hr : recheckStock db f 0 rows with
  | error e1 =>
    simp only [hr, Except.error.injEq] at h
    subst h
    exact ⟨e1, Or.inl hr, containsText_self _⟩
  | ok u =>
    cases ho : f.orderInsert with
    | some e1 =>
      simp only [hr, ho, Except.error.injEq] at h
      subst h
      exact ⟨e1, Or.inr (Or.inl ho), containsText_self _⟩
    | none =>
      simp only [hr, ho] at h
      cases hi : firstItemFault f 0 rows.length with
      | some e1 =>
        simp only [hi, Except.error.injEq] at h
        subst h
        obtain ⟨j, -, hj, hcase⟩ := firstItemFault_some f _ _ _ hi
        have hj2 : j < rows.length := by omega
        rcases hcase with hcase | hcase
        · exact ⟨e1, Or.inr (Or.inr (Or.inl ⟨j, hj2, hcase⟩)), containsText_self _⟩
        · exact ⟨e1, Or.inr (Or.inr (Or.inr (Or.inl ⟨j, hj2, hcase⟩))), containsText_self _⟩
      | none =>
        simp only [hi] at h
        cases hp : paymentFault f with
        | some e1 =>
          simp only [hp, Except.error.injEq] at h
          subst h
          unfold paymentFault at hp
          cases h1 : f.paymentColumnQuery with
          | some m =>
            simp only [h1, Option.some.injEq] at hp
            subst hp
            exact ⟨m, Or.inr (Or.inr (Or.inr (Or.inr (Or.inl h1)))),
              containsText_append_left _ _ _ (containsText_self _)⟩
          | none =>
            cases h2 : f.paymentInsert with
            | some m =>
              simp only [h1, h2, Option.some.injEq] at hp
              subst hp
              exact ⟨m, Or.inr (Or.inr (Or.inr (Or.inr (Or.inr (Or.inl h2))))),
                containsText_append_left _ _ _ (containsText_self _)⟩
            | none => simp [h1, h2] at hp
        | none =>
          simp only [hp] at h
          cases hc : f.commit with
          | some e1 =>
            simp only [hc, Except.error.injEq] at h
            subst h
            exact ⟨e1, Or.inr (Or.inr (Or.inr (Or.inr (Or.inr (Or.inr hc))))),
              containsText_self _⟩
          | none => simp [hc] at h

/-- A failing step of the commit phase makes the transaction body throw. -/
theorem txOutcome_error_of_step_fails {db : Db} {f : Faults} {rows : List VerifiedItem}
    {m : String} (hm : CommitStepFails db f rows m) :
    ∃ e, txOutcome db f rows = .error e := by
  cases h : txOutcome db f rows with
  | error e => exact ⟨e, rfl⟩
  | ok orderId =>
    exfalso
    unfold txOutcome at h
    cases hr : recheckStock db f 0 rows with
    | error e1 => simp [hr] at h
    | ok u =>
      cases ho : f.orderInsert with
      | some e1 => simp [hr, ho] at h
      | none =>
        simp only [hr, ho] at h
        cases hi : firstItemFault f 0 rows.length with
        | some e1 => simp [hi] at h
        | none =>
          simp only [hi] at h
          cases hp : paymentFault f with
          | some e1 => simp [hp] at h
          | none =>
            simp only [hp] at h
            cases hc : f.commit with
            | some e1 => simp [hc] at h
            | none =>
              have hnone := firstItemFault_none f _ _ hi
              unfold paymentFault at hp
              rcases hm with h1 | h1 | ⟨j, hj, h1⟩ | ⟨j, hj, h1⟩ | h1 | h1 | h1
              · rw [hr] at h1
                simp at h1
              · rw [ho] at h1
                simp at h1
              · rw [(hnone j (by omega) (by omega)).1] at h1
                simp at h1
              · rw [(hnone j (by omega) (by omega)).2] at h1
                simp at h1
              · simp [h1] at hp
              · cases h2 : f.paymentColumnQuery <;> simp [h1, h2] at hp
              · rw [hc] at h1
                simp at h1

/-! ### The handler -/

/-- What a success response of `placeOrder` says: every field of the body is the value the
handler computed before the transaction, and the transaction body committed. -/
theorem placeOrder_success_inv {db : Db} {now : Int} {f : Faults} {userId : Int}
    {cartItemIds : List Int} {req : CheckoutRequest} {rows : List VerifiedItem}
    {body : CheckoutSuccess} {db1 : Db}
    (h : placeOrder db now f userId cartItemIds req rows = (.success body, db1)) :
    body.totalBeforeDiscount = subtotalOf rows
      ∧ body.discount = (applyVoucher db now req.voucherId (subtotalOf rows)).1
      ∧ body.finalTotal = max 0 (subtotalOf rows - body.discount)
      ∧ body.paymentMethod = paymentMethodOrCod req.paymentMethod
      ∧ body.paymentStatus = paymentStatusOf req.paymentMethod
      ∧ body.voucherApplied
          = (applyVoucher db now req.voucherId (subtotalOf rows)).2.map
              (fun v => VoucherApplied.mk v.voucher_id v.code body.discount)
      ∧ txBody db f userId cartItemIds req rows (subtotalOf rows) body.finalTotal
          = .ok (body.orderId, db1) := by
  unfold placeOrder at h
  cases hq : (if truthyInt req.voucherId then f.voucherQuery else none) with
  | some e => simp [hq] at h
  | none =>
    cases hb : f.beginTx with
    | some e => simp [hq, hb] at h
    | none =>
      simp only [hq, hb] at h
      cases ht : txBody db f userId cartItemIds req rows (subtotalOf rows)
          (max 0 (subtotalOf rows - (applyVoucher db now req.voucherId (subtotalOf rows)).1)) with
      | error e => simp [ht] at h
      | ok r =>
        obtain ⟨orderId, db2⟩ := r
        simp only [ht, Prod.mk.injEq, Response.success.injEq] at h
        obtain ⟨hbody, hdb⟩ := h
        subst hbody hdb
        exact ⟨rfl, rfl, rfl, rfl, rfl, rfl, ht⟩

/-- What a success response of `POST /checkout` says about the request: it names a user and
a non-empty list of cart items, the verification query returned as many rows as ids were
listed, no row is out of stock, and `placeOrder` succeeded on these rows. -/
theorem checkout_success_inv {db : Db} {now : Int} {req : CheckoutRequest} {f : Faults}
    {body : CheckoutSuccess} {db1 : Db}
    (h : checkout db now req f = (.success body, db1)) :
    ∃ userId cartItemIds, req.userId = some userId ∧ userId ≠ 0
      ∧ req.cartItemIds = some cartItemIds ∧ cartItemIds ≠ []
      ∧ (verifyItems db now userId cartItemIds).length = cartItemIds.length
      ∧ outOfStockItems (verifyItems db now userId cartItemIds) = []
      ∧ placeOrder db now f userId cartItemIds req (verifyItems db now userId cartItemIds)
          = (.success body, db1) := by
  unfold checkout at h
  cases hu : req.userId with
  | none => simp [hu] at h
  | some userId =>
    by_cases hu0 : userId = 0
    · simp [hu, hu0] at h
    · cases hc : req.cartItemIds with
      | none => simp [hu, hu0, hc] at h
      | some cartItemIds =>
        by_cases hl : cartItemIds.length = 0
        · simp [hu, hu0, hc, hl] at h
        · simp only [hu, hu0, hc, hl, if_false] at h
          unfold checkoutVerified at h
          cases hp : f.getPool with
          | some e => simp [hp] at h
          | none =>
            cases hv : f.verifyQuery with
            | some e => simp [hp, hv] at h
            | none =>
              simp only [hp, hv] at h
              by_cases hlen : (verifyItems db now userId cartItemIds).length = cartItemIds.length
              · by_cases hs : (outOfStockItems (verifyItems db now userId cartItemIds)).length > 0
                · simp [hlen, hs] at h
                · simp only [hlen, hs, ne_eq, not_true_eq_false, if_false] at h
                  refine ⟨userId, cartItemIds, rfl, hu0, rfl, ?_, hlen, ?_, h⟩
                  · intro hnil
                    exact hl (by simp [hnil])
                  · exact List.length_eq_zero.mp (by omega)
              · simp [hlen] at h

/-- The subtotal is the sum over the rows of effective unit price times quantity. -/
theorem subtotalOf_eq_sum (rows : List VerifiedItem) :
    subtotalOf rows
      = (rows.map fun item => item.discount_price * (item.quantity : Money)).sum := by
  have key : ∀ (l : List VerifiedItem) (acc : Money),
      l.foldl (fun sum item => sum + item.discount_price * (item.quantity : Money)) acc
        = acc + (l.map fun item => item.discount_price * (item.quantity : Money)).sum := by
    intro l
    induction l with
    | nil => intro acc; simp
    | cons item rest ih =>
      intro acc
      simp only [List.foldl_cons, List.map_cons, List.sum_cons, ih]
      ring
  simpa [subtotalOf] using key rows 0

/-- The discount of an applied percentage voucher: the percentage of the subtotal, capped
at 1000. -/
theorem voucherDiscount_percentage (voucher : Voucher) (subtotal : Money)
    (h : voucher.discount_amount ≤ 100) :
    voucherDiscount voucher subtotal
      = min (subtotal * voucher.discount_amount / 100) 1000 := by
  unfold voucherDiscount
  simp only [h, if_true]
  by_cases hc : subtotal * voucher.discount_amount / 100 > 1000
  · simp only [hc, if_true]
    exact (min_eq_right (le_of_lt hc)).symm
  · simp only [hc, if_false]
    exact (min_eq_left (not_lt.mp hc)).symm

/-- The discount of an applied fixed voucher is its `discount_amount`, whatever the
subtotal. -/
theorem voucherDiscount_fixed (voucher : Voucher) (subtotal : Money)
    (h : 100 < voucher.discount_amount) :
    voucherDiscount voucher subtotal = voucher.discount_amount := by
  unfold voucherDiscount
  simp [not_le.mpr h]

/-- When the handler applies a voucher, the discount is the discount of that voucher. -/
theorem applyVoucher_applied {db : Db} {now : Int} {voucherId : Option Int}
    {subtotal : Money} {voucher : Voucher}
    (h : (applyVoucher db now voucherId subtotal).2 = some voucher) :
    (applyVoucher db now voucherId subtotal).1 = voucherDiscount voucher subtotal := by
  unfold applyVoucher at h ⊢
  cases voucherId with
  | none => simp at h
  | some vid =>
    by_cases hv : vid = 0
    · simp [hv] at h
    · simp only [bne_iff_ne, ne_eq, hv, not_false_eq_true, if_true] at h ⊢
      unfold applyVoucherRows at h ⊢
      cases hl : voucherLookup db now vid with
      | nil => simp [hl] at h
      | cons v rest =>
        simp only [hl] at h ⊢
        by_cases hm : subtotal ≥ v.min_order_value
        · simp only [hm, if_true, Option.some.injEq] at h ⊢
          rw [h]
        · simp [hm] at h

/-- The response of `placeOrder` is determined by the subtotal, the outcome of the voucher
step, the payment method and the outcome of the transaction body. -/
theorem placeOrder_response_congr {db db' : Db} {now : Int} {f : Faults} {userId : Int}
    {cartItemIds : List Int} {req req' : CheckoutRequest} {rows : List VerifiedItem}
    (hq : (if truthyInt req.voucherId then f.voucherQuery else none)
      = (if truthyInt req'.voucherId then f.voucherQuery else none))
    (hv : applyVoucher db now req.voucherId (subtotalOf rows)
      = applyVoucher db' now req'.voucherId (subtotalOf rows))
    (hpm : req.paymentMethod = req'.paymentMethod)
    (ho : txOutcome db f rows = txOutcome db' f rows) :
    (placeOrder db now f userId cartItemIds req rows).1
      = (placeOrder db' now f userId cartItemIds req' rows).1 := by
  unfold placeOrder
  simp only [← hq, ← hv, ← hpm]
  cases hq1 : (if truthyInt req.voucherId then f.voucherQuery else none) with
  | some e => rfl
  | none =>
    cases hb : f.beginTx with
    | some e => rfl
    | none =>
      simp only []
      cases hout : txOutcome db f rows with
      | error e =>
        rw [txBody_error_of_outcome userId cartItemIds req _ _ hout,
          txBody_error_of_outcome userId cartItemIds req' _ _ (ho ▸ hout)]
      | ok orderId =>
        obtain ⟨d1, h1⟩ := txBody_ok_of_outcome userId cartItemIds req (subtotalOf rows)
          (max 0 (subtotalOf rows - (applyVoucher db now req.voucherId (subtotalOf rows)).1)) hout
        obtain ⟨d2, h2⟩ := txBody_ok_of_outcome userId cartItemIds req' (subtotalOf rows)
          (max 0 (subtotalOf rows - (applyVoucher db now req.voucherId (subtotalOf rows)).1))
          (ho ▸ hout)
        rw [h1, h2]

/-- The response of `POST /checkout` is the same for two requests and two states that agree
on the user, the listed cart items, the payment method, the rows of the verification
query, the outcome of the voucher step and the outcome of the transaction body. -/
theorem checkout_response_congr {db db' : Db} {now : Int} {f : Faults}
    {req req' : CheckoutRequest}
    (hu : req.userId = req'.userId) (hc : req.cartItemIds = req'.cartItemIds)
    (hpm : req.paymentMethod = req'.paymentMethod)
    (hq : (if truthyInt req.voucherId then f.voucherQuery else none)
      = (if truthyInt req'.voucherId then f.voucherQuery else none))
    (hrows : ∀ userId cartItemIds,
      verifyItems db now userId cartItemIds = verifyItems db' now userId cartItemIds)
    (hv : ∀ userId cartItemIds, req.userId = some userId → req.cartItemIds = some cartItemIds →
      applyVoucher db now req.voucherId (subtotalOf (verifyItems db now userId cartItemIds))
        = applyVoucher db' now req'.voucherId
            (subtotalOf (verifyItems db now userId cartItemIds)))
    (ho : ∀ rows, txOutcome db f rows = txOutcome db' f rows) :
    (checkout db now req f).1 = (checkout db' now req' f).1 := by
  unfold checkout
  rw [← hu, ← hc]
  cases hu1 : req.userId with
  | none => rfl
  | some userId =>
    by_cases hu0 : userId = 0
    · simp [hu0]
    · cases hc1 : req.cartItemIds with
      | none => simp [hu0]
      | some cartItemIds =>
        by_cases hl : cartItemIds.length = 0
        · simp [hu0, hl]
        · simp only [hu0, hl, if_false]
          unfold checkoutVerified
          rw [← hrows]
          cases hp : f.getPool with
          | some e => rfl
          | none =>
            cases hvq : f.verifyQuery with
            | some e => rfl
            | none =>
              simp only []
              by_cases hlen : (verifyItems db now userId cartItemIds).length = cartItemIds.length
              · by_cases hs : (outOfStockItems (verifyItems db now userId cartItemIds)).length > 0
                · simp [hlen, hs]
                · simp only [hlen, hs, ne_eq, not_true_eq_false, if_false]
                  exact placeOrder_response_congr hq (hv userId cartItemIds hu1 hc1) hpm (ho _)
              · simp [hlen]

/-- The handler applies a voucher exactly when the voucher qualifies. -/
theorem applyVoucher_applied_iff (db : Db) (now : Int) (voucherId : Option Int)
    (subtotal : Money) :
    (applyVoucher db now voucherId subtotal).2 ≠ none
      ↔ voucherQualifies db now voucherId subtotal := by
  unfold applyVoucher voucherQualifies
  cases voucherId with
  | none => simp
  | some vid =>
    by_cases hv : vid = 0
    · simp [hv]
    · simp only [bne_iff_ne, ne_eq, hv, not_false_eq_true, if_true, Option.some.injEq]
      unfold applyVoucherRows
      cases hl : voucherLookup db now vid with
      | nil =>
        constructor
        · intro h
          exact absurd rfl h
        · rintro ⟨vid', v', hvid, -, hhead, -⟩
          subst hvid
          rw [hl] at hhead
          simp at hhead
      | cons v rest =>
        by_cases hm : subtotal ≥ v.min_order_value
        · constructor
          · intro _
            exact ⟨vid, v, rfl, hv, by rw [hl]; rfl, hm⟩
          · intro _
            simp [hm]
        · constructor
          · intro h
            simp [hm] at h
          · rintro ⟨vid', v', hvid, -, hhead, hmin⟩
            subst hvid
            rw [hl] at hhead
            simp only [List.head?_cons, Option.some.injEq] at hhead
            subst hhead
            exact absurd hmin hm

/-- A voucher that is not applied contributes no discount. -/
theorem applyVoucher_not_applied {db : Db} {now : Int} {voucherId : Option Int}
    {subtotal : Money} (h : (applyVoucher db now voucherId subtotal).2 = none) :
    applyVoucher db now voucherId subtotal = (0, none) := by
  unfold applyVoucher at h ⊢
  cases voucherId with
  | none => rfl
  | some vid =>
    by_cases hv : vid = 0
    · simp [hv]
    · simp only [bne_iff_ne, ne_eq, hv, not_false_eq_true, if_true] at h ⊢
      unfold applyVoucherRows at h ⊢
      cases hl : voucherLookup db now vid with
      | nil => rfl
      | cons v rest =>
        simp only [hl] at h ⊢
        by_cases hm : subtotal ≥ v.min_order_value
        · simp [hm] at h
        · simp [hm]

/-! ### Voucher discount -/

/-- C1, evaluated at the failing input: for a subtotal of 1000 and an applied fixed voucher
of 1500, the handler answers with `discount = 1500` (also in
`voucherApplied.discountAmount`) and `finalTotal = 0`; the discount is not
`min(discount_amount, subtotal) = 1000`. -/
theorem C1_fixed_voucher_discount_exceeds_subtotal :
    ∃ body db1, checkout dbFixed 10 reqVoucher noFaults = (.success body, db1)
      ∧ body.totalBeforeDiscount = 1000 ∧ body.discount = 1500
      ∧ body.voucherApplied = some ⟨1, "BIG", 1500⟩ ∧ body.finalTotal = 0
      ∧ body.discount ≠ min 1500 body.totalBeforeDiscount := by
  have h : checkout dbFixed 10 reqVoucher noFaults
      = (.success ⟨1, 1000, 1500, 0, "card", "completed", some ⟨1, "BIG", 1500⟩⟩,
          (checkout dbFixed 10 reqVoucher noFaults).2) := by decide!
  exact ⟨_, _, h, rfl, rfl, rfl, rfl, by norm_num⟩

/-- C2: in every successful checkout whose applied voucher has `discount_amount ≤ 100`, the
discount of the response, which is also `voucherApplied.discountAmount`, is
`min(subtotal × discount_amount / 100, 1000)`. -/
theorem C2_percentage_voucher_discount (db : Db) (now : Int) (req : CheckoutRequest)
    (f : Faults) (body : CheckoutSuccess) (db1 : Db) (voucher : Voucher)
    (h : checkout db now req f = (.success body, db1))
    (hv : (applyVoucher db now req.voucherId body.totalBeforeDiscount).2 = some voucher)
    (hp : voucher.discount_amount ≤ 100) :
    body.discount = min (body.totalBeforeDiscount * voucher.discount_amount / 100) 1000
      ∧ body.voucherApplied = some ⟨voucher.voucher_id, voucher.code, body.discount⟩ := by
  obtain ⟨userId, cartItemIds, -, -, -, -, -, -, hplace⟩ := checkout_success_inv h
  obtain ⟨hsub, hdisc, -, -, -, happ, -⟩ := placeOrder_success_inv hplace
  rw [hsub] at hv ⊢
  constructor
  · rw [hdisc, applyVoucher_applied hv, voucherDiscount_percentage voucher _ hp]
  · rw [happ, hv]
    rfl

/-- C2 at the scenario of the specification: subtotal 1000, a 20 percent voucher with
minimum order value 500 gives `discount = 200` and `finalTotal = 800`. -/
theorem C2_percentage_voucher_discount_scenario :
    (applyVoucher dbPct 10 reqVoucher.voucherId 1000).2 = some voucherPct
      ∧ voucherPct.discount_amount ≤ 100
      ∧ ∃ body db1, checkout dbPct 10 reqVoucher noFaults = (.success body, db1)
          ∧ body.totalBeforeDiscount = 1000
          ∧ body.discount = min (1000 * 20 / 100) 1000
          ∧ body.discount = 200 ∧ body.finalTotal = 800 := by
  have h : checkout dbPct 10 reqVoucher noFaults
      = (.success ⟨1, 1000, 200, 800, "card", "completed", some ⟨1, "SAVE20", 200⟩⟩,
          (checkout dbPct 10 reqVoucher noFaults).2) := by decide!
  have hv : (applyVoucher dbPct 10 reqVoucher.voucherId 1000).2 = some voucherPct := by decide!
  have hp : voucherPct.discount_amount ≤ 100 := by decide!
  have hthm := C2_percentage_voucher_discount dbPct 10 reqVoucher noFaults _ _ voucherPct h hv hp
  exact ⟨hv, hp, _, _, h, rfl, hthm.1, rfl, rfl⟩

/-! ### Totals and stock of a successful checkout -/

/-- Rounding to two decimal places gives a multiple of one hundredth at most half a
hundredth away from the number. -/
theorem roundDecimal2_spec (x : Money) :
    (∃ n : Int, roundDecimal2 x = (n : Money) / 100) ∧ |roundDecimal2 x - x| ≤ 1 / 200 := by
  unfold roundDecimal2
  refine ⟨⟨⌊x * 100 + 1 / 2⌋, rfl⟩, ?_⟩
  have h1 : ((⌊x * 100 + 1 / 2⌋ : Int) : Money) ≤ x * 100 + 1 / 2 := Int.floor_le _
  have h2 : x * 100 + 1 / 2 < ((⌊x * 100 + 1 / 2⌋ : Int) : Money) + 1 :=
    Int.lt_floor_add_one _
  rw [abs_le]
  constructor <;> linarith

/-- A number with at most two decimal places is stored as it is. -/
theorem roundDecimal2_of_hundredths (n : Int) :
    roundDecimal2 ((n : Money) / 100) = (n : Money) / 100 := by
  unfold roundDecimal2
  have e : (n : Money) / 100 * 100 + 1 / 2 = (n : Money) + 1 / 2 := by ring
  have hfloor : ⌊(n : Money) + 1 / 2⌋ = n := by
    rw [Int.floor_eq_iff]
    constructor <;> linarith
  rw [e, hfloor]

/-- Two functions that agree on the elements of a list give the same `flatMap`. -/
theorem flatMap_congr_of_mem {α β : Type} (l : List α) (f g : α → List β)
    (h : ∀ a ∈ l, f a = g a) : l.flatMap f = l.flatMap g := by
  induction l with
  | nil => rfl
  | cons a rest ih =>
    rw [List.flatMap_cons, List.flatMap_cons, h a (List.mem_cons_self _ _),
      ih (fun b hb => h b (List.mem_cons_of_mem _ hb))]

/-- When no product has more than one discount window active, the verification query
returns exactly one row per selected line, at the effective unit price of its product. -/
theorem verifyItems_eq_selectedLines {db : Db} {now : Int} (hs : SingleWindows db now)
    (userId : Int) (cartItemIds : List Int) :
    verifyItems db now userId cartItemIds
      = (selectedLines db userId cartItemIds).map fun l =>
          mkVerifiedItem l.1 l.2 (effectivePrice db now l.2) := by
  unfold verifyItems selectedLines
  rw [List.map_flatMap]
  apply flatMap_congr_of_mem
  intro c _
  rw [List.map_flatMap]
  apply flatMap_congr_of_mem
  intro ci _
  rw [List.map_flatMap]
  apply flatMap_congr_of_mem
  intro p hp
  have hj : joinDiscounts db now ci p = [mkVerifiedItem ci p (effectivePrice db now p)] := by
    have hlen := hs p hp
    unfold joinDiscounts effectivePrice
    cases hd : activeDiscounts db now p with
    | nil => rfl
    | cons pd rest =>
      cases rest with
      | nil => rfl
      | cons pd2 rest2 =>
        rw [hd] at hlen
        simp at hlen
  split
  · rw [hj]
    rfl
  · rfl

/-- C3, the claim as stated fails: the lamp costs 1000.50 and the voucher takes 25 percent;
the response has `finalTotal = 750.375 = max(0, subtotal − discount)`, and the order is
stored with `total = 750.38`, the value of the `DECIMAL(10,2)` column. -/
theorem C3_stored_total_is_rounded :
    ∃ body db1, checkout dbOdd 10 reqVoucher noFaults = (.success body, db1)
      ∧ body.totalBeforeDiscount = 2001 / 2 ∧ body.discount = 2001 / 8
      ∧ body.finalTotal = 6003 / 8
      ∧ max 0 (body.totalBeforeDiscount - body.discount) = 6003 / 8
      ∧ db1.orders = [⟨1, 7, 2001 / 2, some (37519 / 50), "processing"⟩]
      ∧ ∀ o ∈ db1.orders, o.total ≠ some (max 0 (body.totalBeforeDiscount - body.discount)) := by
  have h : checkout dbOdd 10 reqVoucher noFaults
      = (.success ⟨1, 2001 / 2, 2001 / 8, 6003 / 8, "card", "completed",
            some ⟨1, "QUARTER", 2001 / 8⟩⟩,
          (checkout dbOdd 10 reqVoucher noFaults).2) := by decide!
  have ho : (checkout dbOdd 10 reqVoucher noFaults).2.orders
      = [⟨1, 7, 2001 / 2, some (37519 / 50), "processing"⟩] := by decide!
  refine ⟨_, _, h, rfl, rfl, rfl, by decide!, ho, ?_⟩
  intro o hmem
  rw [ho, List.mem_singleton] at hmem
  rw [hmem]
  decide!

/-- C3, amended: in every successful checkout the final total of the response is
`max(0, subtotal − discount)` for the subtotal and the discount of the same response, and is
not negative; the subtotal is the sum over the rows of the verification query of effective
unit price times quantity, which is the sum over the selected lines when no product has more
than one discount window active. The order stored under the returned id holds the final
total rounded to two decimal places: the final total itself when it has at most two
decimals, a value at most 0.005 away from it otherwise; `total_price` holds the subtotal
rounded likewise. -/
theorem C3_final_total_and_stored_total (db : Db) (now : Int) (req : CheckoutRequest)
    (f : Faults) (body : CheckoutSuccess) (db1 : Db)
    (h : checkout db now req f = (.success body, db1)) :
    ∃ userId cartItemIds order, req.userId = some userId ∧ req.cartItemIds = some cartItemIds
      ∧ body.totalBeforeDiscount
          = ((verifyItems db now userId cartItemIds).map fun item =>
              item.discount_price * (item.quantity : Money)).sum
      ∧ (SingleWindows db now →
          body.totalBeforeDiscount
            = ((selectedLines db userId cartItemIds).map fun l =>
                effectivePrice db now l.2 * (l.1.quantity : Money)).sum)
      ∧ body.finalTotal = max 0 (body.totalBeforeDiscount - body.discount)
      ∧ 0 ≤ body.finalTotal
      ∧ db1.orders = db.orders ++ [order] ∧ order.order_id = body.orderId
      ∧ order.total = some (roundDecimal2 body.finalTotal)
      ∧ order.total_price = roundDecimal2 body.totalBeforeDiscount
      ∧ |roundDecimal2 body.finalTotal - body.finalTotal| ≤ 1 / 200
      ∧ ((∃ n : Int, body.finalTotal = (n : Money) / 100) →
          order.total = some body.finalTotal) := by
  obtain ⟨userId, cartItemIds, hu, -, hc, -, -, -, hplace⟩ := checkout_success_inv h
  obtain ⟨hsub, -, hfin, -, -, -, htx⟩ := placeOrder_success_inv hplace
  obtain ⟨-, hord, -⟩ := txBody_ok_inv htx
  refine ⟨userId, cartItemIds,
    orderOf body.orderId userId body.totalBeforeDiscount body.finalTotal, hu, hc, ?_, ?_, ?_,
    ?_, ?_, rfl, rfl, rfl, (roundDecimal2_spec _).2, ?_⟩
  · rw [hsub, subtotalOf_eq_sum]
  · intro hs
    rw [hsub, subtotalOf_eq_sum, verifyItems_eq_selectedLines hs, List.map_map]
    rfl
  · rw [hfin, hsub]
  · rw [hfin]
    exact le_max_left _ _
  · rw [hord, hsub]
  · rintro ⟨n, hn⟩
    show some (roundDecimal2 body.finalTotal) = some body.finalTotal
    rw [hn, roundDecimal2_of_hundredths]

/-- C3, amended, at the scenario of the specification: one line of two desks at the
discount price 400, no voucher: subtotal 800 over the one selected line, discount 0, final
total 800, stored as the order total. -/
theorem C3_final_total_and_stored_total_scenario :
    SingleWindows dbDesk 10
      ∧ selectedLines dbDesk 7 [1] = [(⟨1, 1, 1, 2, none⟩, ⟨1, "desk", 500, 10⟩)]
      ∧ effectivePrice dbDesk 10 ⟨1, "desk", 500, 10⟩ = 400
      ∧ ∃ body db1, checkout dbDesk 10 reqDesk noFaults = (.success body, db1)
          ∧ body.totalBeforeDiscount = 800 ∧ body.discount = 0 ∧ body.finalTotal = 800
          ∧ body.totalBeforeDiscount
              = ((selectedLines dbDesk 7 [1]).map fun l =>
                  effectivePrice dbDesk 10 l.2 * (l.1.quantity : Money)).sum
          ∧ body.finalTotal = max 0 (body.totalBeforeDiscount - body.discount)
          ∧ db1.orders = [⟨1, 7, 800, some 800, "processing"⟩]
          ∧ ∃ order, db1.orders = dbDesk.orders ++ [order]
              ∧ order.total = some body.finalTotal := by
  have h : checkout dbDesk 10 reqDesk noFaults
      = (.success ⟨1, 800, 0, 800, "cod", "pending", none⟩,
          (checkout dbDesk 10 reqDesk noFaults).2) := by decide!
  have hs : SingleWindows dbDesk 10 := by
    intro p hp
    have hp2 : p = ⟨1, "desk", 500, 10⟩ ∨ p = ⟨2, "chair", 80, 4⟩ := by
      simpa [dbDesk] using hp
    rcases hp2 with rfl | rfl <;> decide!
  obtain ⟨userId, cartItemIds, order, hu, hc, -, hlines, hfin, -, hord, -, -, -, -, hexact⟩ :=
    C3_final_total_and_stored_total dbDesk 10 reqDesk noFaults _ _ h
  have hu7 : userId = 7 := (Option.some.inj (hu : some (7 : Int) = some userId)).symm
  have hc1 : cartItemIds = [1] :=
    (Option.some.inj (hc : some [(1 : Int)] = some cartItemIds)).symm
  subst hu7 hc1
  exact ⟨hs, by decide!, by decide!, _, _, h, rfl, rfl, rfl, hlines hs, hfin, by decide!,
    order, hord, hexact ⟨80000, by norm_num⟩⟩

/-- After every successful checkout the `products` table is the old one with the stock of
each product referenced by a row of the verification query reduced by the sum of the
quantities of the rows that reference it, and every other product row unchanged. -/
theorem stock_reduced_by_row_quantities (db : Db) (now : Int) (req : CheckoutRequest)
    (f : Faults) (body : CheckoutSuccess) (db1 : Db)
    (h : checkout db now req f = (.success body, db1)) :
    ∃ userId cartItemIds, req.userId = some userId ∧ req.cartItemIds = some cartItemIds
      ∧ db1.products
          = db.products.map (stockAfterOrder (verifyItems db now userId cartItemIds))
      ∧ (∀ p, (∃ item ∈ verifyItems db now userId cartItemIds, item.product_id = p.product_id) →
          (stockAfterOrder (verifyItems db now userId cartItemIds) p).stock_quantity
            = p.stock_quantity
                - orderedQuantity (verifyItems db now userId cartItemIds) p.product_id)
      ∧ (∀ p, (∀ item ∈ verifyItems db now userId cartItemIds, item.product_id ≠ p.product_id) →
          stockAfterOrder (verifyItems db now userId cartItemIds) p = p) := by
  obtain ⟨userId, cartItemIds, hu, -, hc, -, -, -, hplace⟩ := checkout_success_inv h
  obtain ⟨-, -, -, -, -, -, htx⟩ := placeOrder_success_inv hplace
  obtain ⟨-, -, hprod⟩ := txBody_ok_inv htx
  refine ⟨userId, cartItemIds, hu, hc, hprod, ?_, ?_⟩
  · rintro p ⟨item, hitem, hid⟩
    have hany : (verifyItems db now userId cartItemIds).any
        (fun item => decide (item.product_id = p.product_id)) = true := by
      rw [List.any_eq_true]
      exact ⟨item, hitem, by simpa using hid⟩
    simp [stockAfterOrder, hany]
  · intro p hno
    have hany : ¬ (verifyItems db now userId cartItemIds).any
        (fun item => decide (item.product_id = p.product_id)) = true := by
      rw [List.any_eq_true]
      rintro ⟨item, hitem, hid⟩
      exact hno item hitem (by simpa using hid)
    simp [stockAfterOrder, hany]

/-- With one discount window active, one line of quantity 2 takes the stock of the desk
from 10 to 8 and leaves the chair, which is not in the cart, at 4. -/
theorem stock_reduced_scenario :
    ∃ body db1, checkout dbDesk 10 reqDesk noFaults = (.success body, db1)
      ∧ dbDesk.products = [⟨1, "desk", 500, 10⟩, ⟨2, "chair", 80, 4⟩]
      ∧ db1.products = [⟨1, "desk", 500, 8⟩, ⟨2, "chair", 80, 4⟩] := by
  have h : checkout dbDesk 10 reqDesk noFaults
      = (.success ⟨1, 800, 0, 800, "cod", "pending", none⟩,
          (checkout dbDesk 10 reqDesk noFaults).2) := by decide!
  obtain ⟨userId, cartItemIds, hu, hc, hprod, -, -⟩ :=
    stock_reduced_by_row_quantities dbDesk 10 reqDesk noFaults _ _ h
  have hu7 : userId = 7 := (Option.some.inj (hu : some (7 : Int) = some userId)).symm
  have hc1 : cartItemIds = [1] := (Option.some.inj (hc : some [(1 : Int)] = some cartItemIds)).symm
  subst hu7 hc1
  refine ⟨_, _, h, rfl, ?_⟩
  rw [hprod]
  decide!

/-- C4, evaluated at the failing input: the request lists cart item 1, a line of two desks,
and cart item 99, which does not exist, so the one selected line has quantity 2; the desk
has two discount windows active, the verification query returns the line twice, the count
check passes, and the stock of the desk goes from 10 to 6, not to 8. -/
theorem C4_one_line_of_two_takes_four_from_stock :
    selectedLines dbOverlap 7 [1, 99] = [(⟨1, 1, 1, 2, none⟩, ⟨1, "desk", 500, 10⟩)]
      ∧ (verifyItems dbOverlap 10 7 [1, 99]).length = 2
      ∧ ∃ body db1, checkout dbOverlap 10 reqWithUnknownItem noFaults = (.success body, db1)
          ∧ dbOverlap.products = [⟨1, "desk", 500, 10⟩, ⟨2, "chair", 80, 4⟩]
          ∧ db1.products = [⟨1, "desk", 500, 6⟩, ⟨2, "chair", 80, 4⟩] := by
  have h : checkout dbOverlap 10 reqWithUnknownItem noFaults
      = (.success ⟨1, 1500, 0, 1500, "cod", "pending", none⟩,
          (checkout dbOverlap 10 reqWithUnknownItem noFaults).2) := by decide!
  exact ⟨by decide!, by decide!, _, _, h, rfl, by decide!⟩

/-! ### Rejections -/

/-- C5: when some line returned by the verification query for the user and the listed cart
items asks for more than the stock of its product, the handler answers with a failure
(status 400 or 500) and every table is as before the request. -/
theorem C5_out_of_stock_request_changes_nothing (db : Db) (now : Int) (req : CheckoutRequest)
    (f : Faults) (userId : Int) (cartItemIds : List Int) (item : VerifiedItem)
    (hu : req.userId = some userId) (hc : req.cartItemIds = some cartItemIds)
    (hm : item ∈ verifyItems db now userId cartItemIds)
    (hq : item.quantity > item.stock_quantity) :
    (∃ status error items, (checkout db now req f).1 = .failure status error items
        ∧ (status = 400 ∨ status = 500))
      ∧ (checkout db now req f).2 = db := by
  have hout : (outOfStockItems (verifyItems db now userId cartItemIds)).length > 0 := by
    apply List.length_pos_of_mem (a := item)
    unfold outOfStockItems
    rw [List.mem_filter]
    exact ⟨hm, by simpa using hq⟩
  unfold checkout
  simp only [hu, hc]
  by_cases hu0 : userId = 0
  · simp [hu0]
  · by_cases hl : cartItemIds.length = 0
    · simp [hu0, hl]
    · simp only [hu0, hl, if_false]
      unfold checkoutVerified
      cases hp : f.getPool with
      | some e => simp
      | none =>
        cases hv : f.verifyQuery with
        | some e => simp
        | none =>
          by_cases hlen : (verifyItems db now userId cartItemIds).length = cartItemIds.length
          · simp [hlen, hout]
          · simp [hlen]

/-- C5 at a concrete request: seven desks are asked for, three are in stock; the answer is
the 400 out-of-stock rejection and the tables are unchanged. -/
theorem C5_out_of_stock_scenario :
    (mkVerifiedItem ⟨1, 1, 1, 7, none⟩ ⟨1, "desk", 500, 3⟩ 400) ∈ verifyItems dbShort 10 7 [1]
      ∧ (7 : Int) > 3
      ∧ (checkout dbShort 10 reqDesk noFaults).1
          = .failure 400 "Some items are out of stock" (some [⟨1, "desk", 7, 3⟩])
      ∧ (checkout dbShort 10 reqDesk noFaults).2 = dbShort := by
  have hm : (mkVerifiedItem ⟨1, 1, 1, 7, none⟩ ⟨1, "desk", 500, 3⟩ 400)
      ∈ verifyItems dbShort 10 7 [1] := by decide!
  have hq : (mkVerifiedItem ⟨1, 1, 1, 7, none⟩ ⟨1, "desk", 500, 3⟩ 400).quantity
      > (mkVerifiedItem ⟨1, 1, 1, 7, none⟩ ⟨1, "desk", 500, 3⟩ 400).stock_quantity := by decide
  have hthm := C5_out_of_stock_request_changes_nothing dbShort 10 reqDesk noFaults 7 [1] _
    rfl rfl hm hq
  exact ⟨hm, by decide, by decide!, hthm.2⟩

/-! ### Stock never negative -/

/-- C6, evaluated at the failing input: all stock is non-negative (three lamps), the request
selects two cart lines of two lamps each; both lines pass the check before the
transaction and the re-check inside it, each against the undiminished stock of three, and
the two decrements leave `stock_quantity = -1`. -/
theorem C6_two_lines_of_one_product_drive_stock_negative :
    (∀ p ∈ dbTwoLines.products, 0 ≤ p.stock_quantity)
      ∧ ∃ body db1, checkout dbTwoLines 10 reqTwoLines noFaults = (.success body, db1)
          ∧ db1.products = [⟨1, "lamp", 1000, -1⟩]
          ∧ ∃ p ∈ db1.products, p.stock_quantity < 0 := by
  have h : checkout dbTwoLines 10 reqTwoLines noFaults
      = (.success ⟨1, 4000, 0, 4000, "cod", "pending", none⟩,
          (checkout dbTwoLines 10 reqTwoLines noFaults).2) := by decide!
  have hp : (checkout dbTwoLines 10 reqTwoLines noFaults).2.products
      = [⟨1, "lamp", 1000, -1⟩] := by decide!
  refine ⟨by decide, _, _, h, hp, ?_⟩
  rw [hp]
  exact ⟨_, List.mem_singleton.mpr rfl, by decide⟩

/-! ### Failures of the commit phase -/

/-- C7, counterexample: the inventory-log insert of the only line throws, and the handler
still answers with success and commits the order, the stock decrement and the removal of
the cart line. -/
theorem C7_inventory_log_failure_is_swallowed :
    faultInventory.inventoryInsert 0 = some "Invalid object name inventory"
      ∧ ∃ body db1, checkout dbDesk 10 reqDesk faultInventory = (.success body, db1)
          ∧ db1.orders ≠ dbDesk.orders ∧ db1.products ≠ dbDesk.products
          ∧ db1.cart_items ≠ dbDesk.cart_items ∧ db1.inventory = dbDesk.inventory := by
  have h : checkout dbDesk 10 reqDesk faultInventory
      = (.success ⟨1, 800, 0, 800, "cod", "pending", none⟩,
          (checkout dbDesk 10 reqDesk faultInventory).2) := by decide!
  exact ⟨rfl, _, _, h, by decide!, by decide!, by decide!, by decide!⟩

/-- C7, amended: when the request reaches the commit phase and a step of it other than the
inventory log fails (the stock re-check, the order insert, an order-item insert, a stock
update, the payment block or the commit), the handler answers 500 with a text that
contains the message of a failing step, and every table is as before the request. -/
theorem C7_commit_phase_failure_rolls_back (db : Db) (now : Int) (req : CheckoutRequest)
    (f : Faults) (userId : Int) (cartItemIds : List Int)
    (hu : req.userId = some userId) (hu0 : userId ≠ 0)
    (hc : req.cartItemIds = some cartItemIds) (hne : cartItemIds ≠ [])
    (hpool : f.getPool = none) (hver : f.verifyQuery = none)
    (hvq : f.voucherQuery = none) (hbegin : f.beginTx = none)
    (hlen : (verifyItems db now userId cartItemIds).length = cartItemIds.length)
    (hstock : outOfStockItems (verifyItems db now userId cartItemIds) = [])
    (hfail : ∃ m, CommitStepFails db f (verifyItems db now userId cartItemIds) m) :
    ∃ m text, CommitStepFails db f (verifyItems db now userId cartItemIds) m
      ∧ checkout db now req f = (.failure 500 text none, db)
      ∧ containsText text m := by
  obtain ⟨m0, hm0⟩ := hfail
  obtain ⟨e, he⟩ := txOutcome_error_of_step_fails hm0
  obtain ⟨m, hm, hcontains⟩ := txOutcome_error_cause he
  refine ⟨m, "Failed to process order: " ++ e, hm, ?_, containsText_append_left _ _ _ hcontains⟩
  have hl : ¬ cartItemIds.length = 0 := fun h => hne (List.length_eq_zero.mp h)
  unfold checkout
  simp only [hu, hu0, hc, hl, if_false]
  unfold checkoutVerified
  simp only [hpool, hver, hlen, hstock, ne_eq, not_true_eq_false, List.length_nil,
    gt_iff_lt, lt_self_iff_false, if_false]
  unfold placeOrder
  simp only [hvq, ite_self, hbegin]
  rw [txBody_error_of_outcome userId cartItemIds req _ _ he]

/-- C7, amended, at a concrete request: the order insert throws `deadlock victim`; the
answer is 500 `Failed to process order: deadlock victim` and nothing changed. -/
theorem C7_commit_phase_failure_scenario :
    CommitStepFails dbDesk faultOrder (verifyItems dbDesk 10 7 [1]) "deadlock victim"
      ∧ checkout dbDesk 10 reqDesk faultOrder
          = (.failure 500 "Failed to process order: deadlock victim" none, dbDesk)
      ∧ ∃ m text, CommitStepFails dbDesk faultOrder (verifyItems dbDesk 10 7 [1]) m
          ∧ checkout dbDesk 10 reqDesk faultOrder = (.failure 500 text none, dbDesk)
          ∧ containsText text m := by
  have hfail : CommitStepFails dbDesk faultOrder (verifyItems dbDesk 10 7 [1])
      "deadlock victim" := Or.inr (Or.inl rfl)
  exact ⟨hfail, by decide!,
    C7_commit_phase_failure_rolls_back dbDesk 10 reqDesk faultOrder 7 [1] rfl (by decide) rfl
      (by decide) rfl rfl rfl rfl (by decide!) (by decide!) ⟨_, hfail⟩⟩

/-! ### Payment status -/

/-- C8, evaluated at the failing input: for a body without `paymentMethod` the handler
records and returns the method `cod` (`paymentMethod || "cod"`) together with the status
`completed` (`paymentMethod === "cod"` is false for the missing field), not `pending`. -/
theorem C8_omitted_payment_method_is_cod_completed :
    reqNoMethod.paymentMethod = none
      ∧ ∃ body db1, checkout dbDesk 10 reqNoMethod noFaults = (.success body, db1)
          ∧ body.paymentMethod = "cod" ∧ body.paymentStatus = "completed"
          ∧ db1.payments = [⟨1, "cod", "completed", none⟩] := by
  have h : checkout dbDesk 10 reqNoMethod noFaults
      = (.success ⟨1, 800, 0, 800, "cod", "completed", none⟩,
          (checkout dbDesk 10 reqNoMethod noFaults).2) := by decide!
  exact ⟨rfl, _, _, h, rfl, rfl, by decide!⟩

/-! ### Vouchers that do not qualify, vouchers already used -/

/-- With `voucher_id` the primary key of `vouchers`, the voucher query followed by the
minimum check accepts the voucher of the request exactly when that voucher is stored, active
and unexpired and the subtotal reaches its `min_order_value`. -/
theorem voucherQualifies_iff_found {db : Db} {now : Int} {voucherId : Option Int}
    {subtotal : Money}
    (hpk : ∀ a ∈ db.vouchers, ∀ b ∈ db.vouchers, a.voucher_id = b.voucher_id → a = b) :
    voucherQualifies db now voucherId subtotal
      ↔ VoucherFoundAndQualifies db now voucherId subtotal := by
  have hmem : ∀ (vid : Int) (v : Voucher), v ∈ voucherLookup db now vid
      ↔ v ∈ db.vouchers ∧ v.voucher_id = vid ∧ v.status = some "active"
          ∧ now < v.expiry_date := by
    intro vid v
    unfold voucherLookup
    rw [List.mem_filter]
    simp only [Bool.and_eq_true, decide_eq_true_eq, gt_iff_lt, and_assoc]
  constructor
  · rintro ⟨vid, v, hvid, h0, hhead, hmin⟩
    cases hl : voucherLookup db now vid with
    | nil =>
      rw [hl] at hhead
      simp at hhead
    | cons w rest =>
      rw [hl] at hhead
      simp only [List.head?_cons, Option.some.injEq] at hhead
      subst hhead
      have hw : w ∈ voucherLookup db now vid := by
        rw [hl]
        exact List.mem_cons_self _ _
      obtain ⟨h1, h2, h3, h4⟩ := (hmem vid w).mp hw
      exact ⟨vid, w, hvid, h0, h1, h2, h3, h4, hmin⟩
  · rintro ⟨vid, v, hvid, h0, h1, h2, h3, h4, hmin⟩
    have hv : v ∈ voucherLookup db now vid := (hmem vid v).mpr ⟨h1, h2, h3, h4⟩
    cases hl : voucherLookup db now vid with
    | nil =>
      rw [hl] at hv
      simp at hv
    | cons w rest =>
      have hw : w ∈ voucherLookup db now vid := by
        rw [hl]
        exact List.mem_cons_self _ _
      obtain ⟨hw1, hw2, -, -⟩ := (hmem vid w).mp hw
      have hwv : w = v := hpk w hw1 v h1 (hw2.trans h2.symm)
      refine ⟨vid, v, hvid, h0, ?_, hmin⟩
      rw [hl, hwv]
      rfl

/-- C9: let a request name a user and a list of cart items, and let `voucher_id` be the
primary key of `vouchers`. In every success response `voucherApplied` is present exactly
when the voucher named by the request is stored, has status `active`, has an expiry date
after now, and the subtotal of the response reaches its `min_order_value`. When one of these
fails (the voucher is missing, not active, expired, or asks for more than the subtotal), a
success response has `discount = 0`, no `voucherApplied` and `finalTotal = max(0, subtotal)`,
which is the subtotal when that is not negative; and, the voucher query not throwing, the
response is the one the same request without a voucher id gets, so the voucher never turns
a success into a failure. The rule is that of step 4 of the handler for whatever subtotal
it is handed: the voucher is applied exactly when it is found as above and that subtotal
reaches its `min_order_value`, and contributes nothing otherwise. -/
theorem C9_unqualified_voucher_is_silently_dropped (db : Db) (now : Int)
    (req : CheckoutRequest) (f : Faults) (userId : Int) (cartItemIds : List Int)
    (hu : req.userId = some userId) (hc : req.cartItemIds = some cartItemIds)
    (hpk : ∀ a ∈ db.vouchers, ∀ b ∈ db.vouchers, a.voucher_id = b.voucher_id → a = b) :
    (∀ body db1, checkout db now req f = (.success body, db1) →
        (body.voucherApplied ≠ none
          ↔ VoucherFoundAndQualifies db now req.voucherId body.totalBeforeDiscount))
      ∧ (∀ body db1, checkout db now req f = (.success body, db1) →
          ¬ VoucherFoundAndQualifies db now req.voucherId body.totalBeforeDiscount →
            body.discount = 0 ∧ body.voucherApplied = none
              ∧ body.finalTotal = max 0 body.totalBeforeDiscount
              ∧ (0 ≤ body.totalBeforeDiscount → body.finalTotal = body.totalBeforeDiscount))
      ∧ (¬ VoucherFoundAndQualifies db now req.voucherId
            (subtotalOf (verifyItems db now userId cartItemIds)) →
          f.voucherQuery = none →
          (checkout db now req f).1 = (checkout db now { req with voucherId := none } f).1)
      ∧ (∀ subtotal : Money,
          ((applyVoucher db now req.voucherId subtotal).2 ≠ none
              ↔ VoucherFoundAndQualifies db now req.voucherId subtotal)
            ∧ (¬ VoucherFoundAndQualifies db now req.voucherId subtotal →
                applyVoucher db now req.voucherId subtotal = (0, none))) := by
  have key : ∀ body db1, checkout db now req f = (.success body, db1) →
      body.totalBeforeDiscount = subtotalOf (verifyItems db now userId cartItemIds)
        ∧ body.discount
            = (applyVoucher db now req.voucherId
                (subtotalOf (verifyItems db now userId cartItemIds))).1
        ∧ body.finalTotal = max 0 (body.totalBeforeDiscount - body.discount)
        ∧ body.voucherApplied
            = (applyVoucher db now req.voucherId
                (subtotalOf (verifyItems db now userId cartItemIds))).2.map
                (fun v => VoucherApplied.mk v.voucher_id v.code body.discount) := by
    intro body db1 h
    obtain ⟨userId1, cartItemIds1, hu1, -, hc1, -, -, -, hplace⟩ := checkout_success_inv h
    have e1 : userId1 = userId := Option.some.inj (hu1.symm.trans hu)
    have e2 : cartItemIds1 = cartItemIds := Option.some.inj (hc1.symm.trans hc)
    subst e1 e2
    obtain ⟨hsub, hdisc, hfin, -, -, happ, -⟩ := placeOrder_success_inv hplace
    exact ⟨hsub, hdisc, by rw [hfin, hsub], happ⟩
  have hstep : ∀ subtotal : Money,
      ((applyVoucher db now req.voucherId subtotal).2 ≠ none
          ↔ VoucherFoundAndQualifies db now req.voucherId subtotal)
        ∧ (¬ VoucherFoundAndQualifies db now req.voucherId subtotal →
            applyVoucher db now req.voucherId subtotal = (0, none)) := by
    intro subtotal
    have hiff : (applyVoucher db now req.voucherId subtotal).2 ≠ none
        ↔ VoucherFoundAndQualifies db now req.voucherId subtotal := by
      rw [← voucherQualifies_iff_found hpk]
      exact applyVoucher_applied_iff _ _ _ _
    refine ⟨hiff, ?_⟩
    intro hq
    apply applyVoucher_not_applied
    by_contra hcon
    exact hq (hiff.mp hcon)
  refine ⟨?_, ?_, ?_, hstep⟩
  · intro body db1 h
    obtain ⟨hsub, -, -, happ⟩ := key body db1 h
    rw [hsub, ← voucherQualifies_iff_found hpk, ← applyVoucher_applied_iff, happ]
    cases (applyVoucher db now req.voucherId
      (subtotalOf (verifyItems db now userId cartItemIds))).2 <;> simp
  · intro body db1 h hq
    obtain ⟨hsub, hdisc, hfin, happ⟩ := key body db1 h
    rw [hsub, ← voucherQualifies_iff_found hpk] at hq
    have hnone : (applyVoucher db now req.voucherId
        (subtotalOf (verifyItems db now userId cartItemIds))).2 = none := by
      by_contra hcon
      exact hq ((applyVoucher_applied_iff _ _ _ _).mp hcon)
    have hzero : body.discount = 0 := by
      rw [hdisc, applyVoucher_not_applied hnone]
    have hfin0 : body.finalTotal = max 0 body.totalBeforeDiscount := by
      rw [hfin, hzero, sub_zero]
    refine ⟨hzero, by rw [happ, hnone]; rfl, hfin0, ?_⟩
    intro hpos
    rw [hfin0, max_eq_right hpos]
  · intro hq hvq
    rw [← voucherQualifies_iff_found hpk] at hq
    have hnone : applyVoucher db now req.voucherId
        (subtotalOf (verifyItems db now userId cartItemIds)) = (0, none) := by
      apply applyVoucher_not_applied
      by_contra hcon
      exact hq ((applyVoucher_applied_iff _ _ _ _).mp hcon)
    refine @checkout_response_congr db db now f req { req with voucherId := none }
      rfl rfl rfl ?_ ?_ ?_ ?_
    · simp [hvq, truthyInt]
    · intro _ _
      rfl
    · intro userId1 cartItemIds1 hu1 hc1
      have e1 : userId1 = userId := Option.some.inj (hu1.symm.trans hu)
      have e2 : cartItemIds1 = cartItemIds := Option.some.inj (hc1.symm.trans hc)
      subst e1 e2
      rw [hnone]
      rfl
    · intro _
      rfl

/-- C9 at concrete requests on the lamp cart (subtotal 1000). A voucher id that no voucher
has, a voucher that expired (now = 200, expiry 100), a voucher with status `disabled` and a
voucher that asks for an order of 5000 are each answered with the success of the same
request without a voucher id: discount 0, final total 1000, no `voucherApplied`. The
active, unexpired 20 percent voucher with minimum 500 is applied. -/
theorem C9_unqualified_voucher_scenario :
    (¬ VoucherFoundAndQualifies dbPct 10 reqMissingVoucher.voucherId 1000
        ∧ (checkout dbPct 10 reqMissingVoucher noFaults).1
            = .success ⟨1, 1000, 0, 1000, "card", "completed", none⟩
        ∧ (checkout dbPct 10 reqMissingVoucher noFaults).1
            = (checkout dbPct 10 { reqMissingVoucher with voucherId := none } noFaults).1)
      ∧ (¬ VoucherFoundAndQualifies dbPct 200 reqVoucher.voucherId 1000
        ∧ (checkout dbPct 200 reqVoucher noFaults).1
            = .success ⟨1, 1000, 0, 1000, "card", "completed", none⟩
        ∧ (checkout dbPct 200 reqVoucher noFaults).1
            = (checkout dbPct 200 { reqVoucher with voucherId := none } noFaults).1)
      ∧ (¬ VoucherFoundAndQualifies dbDisabled 10 reqVoucher.voucherId 1000
        ∧ (checkout dbDisabled 10 reqVoucher noFaults).1
            = .success ⟨1, 1000, 0, 1000, "card", "completed", none⟩
        ∧ (checkout dbDisabled 10 reqVoucher noFaults).1
            = (checkout dbDisabled 10 { reqVoucher with voucherId := none } noFaults).1)
      ∧ (¬ VoucherFoundAndQualifies dbHighMin 10 reqVoucher.voucherId 1000
        ∧ (checkout dbHighMin 10 reqVoucher noFaults).1
            = .success ⟨1, 1000, 0, 1000, "card", "completed", none⟩
        ∧ (checkout dbHighMin 10 reqVoucher noFaults).1
            = (checkout dbHighMin 10 { reqVoucher with voucherId := none } noFaults).1)
      ∧ (VoucherFoundAndQualifies dbPct 10 reqVoucher.voucherId 1000
        ∧ ∃ body db1, checkout dbPct 10 reqVoucher noFaults = (.success body, db1)
            ∧ body.discount = 200 ∧ body.voucherApplied ≠ none) := by
  have hs1 : subtotalOf (verifyItems dbPct 10 7 [1]) = 1000 := by decide!
  have hs2 : subtotalOf (verifyItems dbPct 200 7 [1]) = 1000 := by decide!
  have hs3 : subtotalOf (verifyItems dbDisabled 10 7 [1]) = 1000 := by decide!
  have hs4 : subtotalOf (verifyItems dbHighMin 10 7 [1]) = 1000 := by decide!
  have hpkPct : ∀ a ∈ dbPct.vouchers, ∀ b ∈ dbPct.vouchers,
      a.voucher_id = b.voucher_id → a = b := by
    intro a ha b hb _
    have ea : a = voucherPct := by simpa [dbPct] using ha
    have eb : b = voucherPct := by simpa [dbPct] using hb
    rw [ea, eb]
  have hpkDis : ∀ a ∈ dbDisabled.vouchers, ∀ b ∈ dbDisabled.vouchers,
      a.voucher_id = b.voucher_id → a = b := by
    intro a ha b hb _
    have ea : a = ⟨1, "SAVE20", 20, 500, 100, some 1, some "disabled"⟩ := by
      simpa [dbDisabled] using ha
    have eb : b = ⟨1, "SAVE20", 20, 500, 100, some 1, some "disabled"⟩ := by
      simpa [dbDisabled] using hb
    rw [ea, eb]
  have hpkMin : ∀ a ∈ dbHighMin.vouchers, ∀ b ∈ dbHighMin.vouchers,
      a.voucher_id = b.voucher_id → a = b := by
    intro a ha b hb _
    have ea : a = ⟨1, "SAVE20", 20, 5000, 100, some 1, some "active"⟩ := by
      simpa [dbHighMin] using ha
    have eb : b = ⟨1, "SAVE20", 20, 5000, 100, some 1, some "active"⟩ := by
      simpa [dbHighMin] using hb
    rw [ea, eb]
  have hq1 : ¬ VoucherFoundAndQualifies dbPct 10 reqMissingVoucher.voucherId 1000 := by
    rintro ⟨vid, v, hvid, -, hmem, hid, -, -, -⟩
    have ev : v = voucherPct := by simpa [dbPct] using hmem
    have e99 : vid = 99 := (Option.some.inj hvid).symm
    rw [ev, e99] at hid
    exact absurd hid (by decide)
  have hq2 : ¬ VoucherFoundAndQualifies dbPct 200 reqVoucher.voucherId 1000 := by
    rintro ⟨vid, v, -, -, hmem, -, -, hexp, -⟩
    have ev : v = voucherPct := by simpa [dbPct] using hmem
    rw [ev] at hexp
    exact absurd hexp (by decide)
  have hq3 : ¬ VoucherFoundAndQualifies dbDisabled 10 reqVoucher.voucherId 1000 := by
    rintro ⟨vid, v, -, -, hmem, -, hst, -, -⟩
    have ev : v = ⟨1, "SAVE20", 20, 500, 100, some 1, some "disabled"⟩ := by
      simpa [dbDisabled] using hmem
    rw [ev] at hst
    exact absurd hst (by decide)
  have hq4 : ¬ VoucherFoundAndQualifies dbHighMin 10 reqVoucher.voucherId 1000 := by
    rintro ⟨vid, v, -, -, hmem, -, -, -, hmin⟩
    have ev : v = ⟨1, "SAVE20", 20, 5000, 100, some 1, some "active"⟩ := by
      simpa [dbHighMin] using hmem
    rw [ev] at hmin
    exact absurd hmin (by norm_num)
  have hq5 : VoucherFoundAndQualifies dbPct 10 reqVoucher.voucherId 1000 :=
    ⟨1, voucherPct, rfl, by decide, List.mem_singleton.mpr rfl, rfl, rfl, by decide,
      by norm_num [voucherPct]⟩
  have h5 : checkout dbPct 10 reqVoucher noFaults
      = (.success ⟨1, 1000, 200, 800, "card", "completed", some ⟨1, "SAVE20", 200⟩⟩,
          (checkout dbPct 10 reqVoucher noFaults).2) := by decide!
  have t1 := (C9_unqualified_voucher_is_silently_dropped dbPct 10 reqMissingVoucher noFaults
    7 [1] rfl rfl hpkPct).2.2.1 (by rw [hs1]; exact hq1) rfl
  have t2 := (C9_unqualified_voucher_is_silently_dropped dbPct 200 reqVoucher noFaults
    7 [1] rfl rfl hpkPct).2.2.1 (by rw [hs2]; exact hq2) rfl
  have t3 := (C9_unqualified_voucher_is_silently_dropped dbDisabled 10 reqVoucher noFaults
    7 [1] rfl rfl hpkDis).2.2.1 (by rw [hs3]; exact hq3) rfl
  have t4 := (C9_unqualified_voucher_is_silently_dropped dbHighMin 10 reqVoucher noFaults
    7 [1] rfl rfl hpkMin).2.2.1 (by rw [hs4]; exact hq4) rfl
  have t5 := ((C9_unqualified_voucher_is_silently_dropped dbPct 10 reqVoucher noFaults
    7 [1] rfl rfl hpkPct).1 _ _ h5).mpr hq5
  exact ⟨⟨hq1, by decide!, t1⟩, ⟨hq2, by decide!, t2⟩, ⟨hq3, by decide!, t3⟩,
    ⟨hq4, by decide!, t4⟩, ⟨hq5, _, _, h5, rfl, t5⟩⟩

/-- C10, counterexample: user 7 holds a `UserVoucher` for voucher 1 with `used = true`, and
a checkout by user 7 with voucher id 1 still gets the voucher discount of 200. -/
theorem C10_used_voucher_is_discounted_again :
    (∃ uv ∈ dbUsed.user_vouchers, uv.user_id = 7 ∧ uv.voucher_id = 1 ∧ uv.used = some true)
      ∧ reqVoucher.userId = some 7 ∧ reqVoucher.voucherId = some 1
      ∧ ∃ body db1, checkout dbUsed 10 reqVoucher noFaults = (.success body, db1)
          ∧ body.discount = 200 ∧ body.discount ≠ 0
          ∧ body.voucherApplied = some ⟨1, "SAVE20", 200⟩ := by
  have h : checkout dbUsed 10 reqVoucher noFaults
      = (.success ⟨1, 1000, 200, 800, "card", "completed", some ⟨1, "SAVE20", 200⟩⟩,
          (checkout dbUsed 10 reqVoucher noFaults).2) := by decide!
  exact ⟨⟨_, List.mem_singleton.mpr rfl, rfl, rfl, rfl⟩, rfl, rfl, _, _, h, rfl,
    by norm_num, rfl⟩

/-- C10, amended: the handler never reads `user_vouchers`: for every state, request and
fault pattern the response, and with it the voucher discount, is the same whatever rows
and `used` flags that table holds. -/
theorem C10_checkout_response_ignores_user_vouchers (db : Db) (now : Int)
    (req : CheckoutRequest) (f : Faults) (userVouchers : List UserVoucher) :
    (checkout { db with user_vouchers := userVouchers } now req f).1
      = (checkout db now req f).1 := by
  refine @checkout_response_congr { db with user_vouchers := userVouchers } db now f req req
    rfl rfl rfl rfl ?_ ?_ ?_
  · intro _ _
    rfl
  · intro _ _ _ _
    rfl
  · intro rows
    exact txOutcome_congr f rows rfl rfl

/-! ### Vouchers marked as used, order-voucher rows -/

/-- The steps of a committed transaction body: the stock re-check passed, the loop over the
lines and the payment block succeeded, and the tables at commit are those after the
marking of the user voucher and the removal of the cart lines. -/
theorem txBody_ok_steps {db : Db} {f : Faults} {userId : Int} {cartItemIds : List Int}
    {req : CheckoutRequest} {rows : List VerifiedItem} {subtotal finalTotal : Money}
    {orderId : Int} {db1 : Db}
    (h : txBody db f userId cartItemIds req rows subtotal finalTotal = .ok (orderId, db1)) :
    orderId = db.next_order_id ∧ f.commit = none
      ∧ ∃ db3 db4,
          processItems f orderId 0 rows
              (recordOrderVoucherIfAny (insertOrder db userId subtotal finalTotal).2 f orderId
                req.voucherId) = .ok db3
            ∧ createPayment db3 f orderId req = .ok db4
            ∧ db1 = removeCartItems (markVoucherUsed db4 f req) f cartItemIds := by
  unfold txBody at h
  cases hr : recheckStock db f 0 rows with
  | error e => simp [hr] at h
  | ok u =>
    cases ho : f.orderInsert with
    | some e => simp [hr, ho] at h
    | none =>
      simp only [hr, ho] at h
      cases hitems : processItems f (insertOrder db userId subtotal finalTotal).1 0 rows
          (recordOrderVoucherIfAny (insertOrder db userId subtotal finalTotal).2 f
            (insertOrder db userId subtotal finalTotal).1 req.voucherId) with
      | error e => simp [hitems] at h
      | ok db3 =>
        simp only [hitems] at h
        cases hpay : createPayment db3 f (insertOrder db userId subtotal finalTotal).1 req with
        | error e => simp [hpay] at h
        | ok db4 =>
          simp only [hpay] at h
          cases hc : f.commit with
          | some e => simp [hc] at h
          | none =>
            simp only [hc, Except.ok.injEq, Prod.mk.injEq] at h
            obtain ⟨hid, hdb⟩ := h
            subst hid
            exact ⟨rfl, rfl, db3, db4, hitems, hpay, hdb.symm⟩

/-- The payment block only appends to `payments`. -/
theorem createPayment_ok_tables {db db1 : Db} {f : Faults} {orderId : Int}
    {req : CheckoutRequest} (h : createPayment db f orderId req = .ok db1) :
    db1.user_vouchers = db.user_vouchers ∧ db1.order_vouchers = db.order_vouchers
      ∧ db1.cart_items = db.cart_items ∧ db1.order_items = db.order_items
      ∧ db1.vouchers = db.vouchers ∧ db1.carts = db.carts := by
  unfold createPayment at h
  cases h1 : f.paymentColumnQuery with
  | some e => simp [h1] at h
  | none =>
    cases h2 : f.paymentInsert with
    | some e => simp [h1, h2] at h
    | none =>
      simp only [h1, h2, Except.ok.injEq] at h
      subst h
      exact ⟨rfl, rfl, rfl, rfl, rfl, rfl⟩

/-- The marking step rewrites `user_vouchers` from the rows it finds there and touches no
other table read below. -/
theorem markVoucherUsed_tables (db : Db) (f : Faults) (req : CheckoutRequest) :
    (markVoucherUsed db f req).user_vouchers
        = (if truthyInt req.voucherId && truthyInt req.userVoucherId then
            match f.markVoucherUsed with
            | some _ => db.user_vouchers
            | none =>
              db.user_vouchers.map fun uv =>
                if some uv.user_voucher_id = req.userVoucherId then { uv with used := some true }
                else uv
          else db.user_vouchers)
      ∧ (markVoucherUsed db f req).order_vouchers = db.order_vouchers
      ∧ (markVoucherUsed db f req).cart_items = db.cart_items
      ∧ (markVoucherUsed db f req).order_items = db.order_items := by
  unfold markVoucherUsed
  split
  · split <;> exact ⟨rfl, rfl, rfl, rfl⟩
  · exact ⟨rfl, rfl, rfl, rfl⟩

/-- The removal of the cart lines only touches `cart_items`. -/
theorem removeCartItems_tables (db : Db) (f : Faults) (cartItemIds : List Int) :
    (removeCartItems db f cartItemIds).user_vouchers = db.user_vouchers
      ∧ (removeCartItems db f cartItemIds).order_vouchers = db.order_vouchers
      ∧ (removeCartItems db f cartItemIds).order_items = db.order_items := by
  unfold removeCartItems
  split <;> exact ⟨rfl, rfl, rfl⟩

/-- The order-voucher block leaves `user_vouchers` alone and appends at most the row of
this order to `order_vouchers`. -/
theorem recordOrderVoucherIfAny_vouchers (db : Db) (f : Faults) (orderId : Int)
    (voucherId : Option Int) :
    (recordOrderVoucherIfAny db f orderId voucherId).user_vouchers = db.user_vouchers
      ∧ (recordOrderVoucherIfAny db f orderId voucherId).order_vouchers
          = (match voucherId with
            | some vid =>
              if vid ≠ 0 ∧ f.orderVoucherInsert = none ∧ db.has_order_vouchers_table = true
                  ∧ db.vouchers.any (fun v => decide (v.voucher_id = vid)) = true then
                db.order_vouchers ++ [OrderVoucher.mk orderId vid]
              else db.order_vouchers
            | none => db.order_vouchers) := by
  unfold recordOrderVoucherIfAny recordOrderVoucher
  cases voucherId with
  | none => exact ⟨rfl, rfl⟩
  | some vid =>
    by_cases hv : vid = 0
    · simp [hv]
    · cases hf : f.orderVoucherInsert with
      | some e => simp [hv]
      | none =>
        by_cases ht : db.has_order_vouchers_table = true
        · by_cases ha : db.vouchers.any (fun v => decide (v.voucher_id = vid)) = true
          · simp [hv, ht, ha]
          · simp [hv, ht, ha]
        · simp [hv, ht]

/-- What a committed transaction body did to `user_vouchers` and `order_vouchers`: the
first is the result of the marking step on the old rows, the second the result of the
order-voucher block on the old rows. -/
theorem txBody_ok_voucher_tables {db : Db} {f : Faults} {userId : Int}
    {cartItemIds : List Int} {req : CheckoutRequest} {rows : List VerifiedItem}
    {subtotal finalTotal : Money} {orderId : Int} {db1 : Db}
    (h : txBody db f userId cartItemIds req rows subtotal finalTotal = .ok (orderId, db1)) :
    db1.user_vouchers = (markVoucherUsed db f req).user_vouchers
      ∧ db1.order_vouchers = (recordOrderVoucherIfAny db f orderId req.voucherId).order_vouchers := by
  obtain ⟨-, -, db3, db4, hitems, hpay, hdb⟩ := txBody_ok_steps h
  obtain ⟨-, -, -, -, -, -, -, h3uv, -, h3ov, -, -⟩ := processItems_ok_tables f _ rows 0 _ db3 hitems
  obtain ⟨h4uv, h4ov, -, -, -, -⟩ := createPayment_ok_tables hpay
  have hrec := recordOrderVoucherIfAny_vouchers (insertOrder db userId subtotal finalTotal).2 f
    orderId req.voucherId
  have hrec0 := recordOrderVoucherIfAny_vouchers db f orderId req.voucherId
  have huv4 : db4.user_vouchers = db.user_vouchers := by
    rw [h4uv, h3uv, hrec.1]
    rfl
  have hov4 : db4.order_vouchers
      = (recordOrderVoucherIfAny db f orderId req.voucherId).order_vouchers := by
    rw [h4ov, h3ov, hrec.2, hrec0.2]
    rfl
  subst hdb
  constructor
  · rw [(removeCartItems_tables _ _ _).1, (markVoucherUsed_tables db4 f req).1,
      (markVoucherUsed_tables db f req).1, huv4]
  · rw [(removeCartItems_tables _ _ _).2.1, (markVoucherUsed_tables db4 f req).2.1, hov4]

/-- C11, counterexample: the request supplies `userVoucherId = 1` and no `voucherId`, the
marking write would not fail, the checkout succeeds, and user voucher 1 still has
`used = false`. -/
theorem C11_user_voucher_id_alone_marks_nothing :
    reqUserVoucherOnly.userVoucherId = some 1 ∧ reqUserVoucherOnly.voucherId = none
      ∧ noFaults.markVoucherUsed = none
      ∧ ∃ body db1, checkout dbClaimed 10 reqUserVoucherOnly noFaults = (.success body, db1)
          ∧ db1.user_vouchers = [⟨1, 7, 1, some false⟩] := by
  have h : checkout dbClaimed 10 reqUserVoucherOnly noFaults
      = (.success ⟨1, 1000, 0, 1000, "card", "completed", none⟩,
          (checkout dbClaimed 10 reqUserVoucherOnly noFaults).2) := by decide!
  exact ⟨rfl, rfl, rfl, _, _, h, by decide!⟩

/-- C11, amended: after a successful checkout whose request supplies a `userVoucherId`, the
marking write not failing: if the request also supplies a `voucherId`, `user_vouchers` is
the old table with `used = true` in every row with that user-voucher id, so every such row
is used afterwards; if it supplies no `voucherId`, `user_vouchers` is unchanged. -/
theorem C11_voucher_id_and_user_voucher_id_mark_used (db : Db) (now : Int)
    (req : CheckoutRequest) (f : Faults) (body : CheckoutSuccess) (db1 : Db)
    (userVoucherId : Int)
    (h : checkout db now req f = (.success body, db1))
    (huv : req.userVoucherId = some userVoucherId) (huv0 : userVoucherId ≠ 0)
    (hf : f.markVoucherUsed = none) :
    (truthyInt req.voucherId = true →
        db1.user_vouchers
            = db.user_vouchers.map (fun uv =>
                if uv.user_voucher_id = userVoucherId then { uv with used := some true } else uv)
          ∧ ∀ uv ∈ db1.user_vouchers, uv.user_voucher_id = userVoucherId → uv.used = some true)
      ∧ (truthyInt req.voucherId = false → db1.user_vouchers = db.user_vouchers) := by
  obtain ⟨userId, cartItemIds, -, -, -, -, -, -, hplace⟩ := checkout_success_inv h
  obtain ⟨-, -, -, -, -, -, htx⟩ := placeOrder_success_inv hplace
  obtain ⟨huvs, -⟩ := txBody_ok_voucher_tables htx
  rw [(markVoucherUsed_tables db f req).1, huv] at huvs
  have htruthy : truthyInt (some userVoucherId) = true := by
    simp [truthyInt, huv0]
  constructor
  · intro hv
    have hmap : db1.user_vouchers
        = db.user_vouchers.map (fun uv =>
            if uv.user_voucher_id = userVoucherId then { uv with used := some true }
            else uv) := by
      rw [huvs]
      simp [hv, htruthy, hf]
    refine ⟨hmap, ?_⟩
    intro uv huvmem hid
    rw [hmap, List.mem_map] at huvmem
    obtain ⟨uv0, -, huv0eq⟩ := huvmem
    by_cases hid0 : uv0.user_voucher_id = userVoucherId
    · simp only [hid0, if_true] at huv0eq
      rw [← huv0eq]
    · simp only [hid0, if_false] at huv0eq
      rw [← huv0eq] at hid
      exact absurd hid hid0
  · intro hv
    rw [huvs]
    simp [hv]

/-- C11, amended, at a concrete request: voucher id 1 and user-voucher id 1 are supplied,
the voucher is applied, and user voucher 1 goes from `used = false` to `used = true`. -/
theorem C11_mark_used_scenario :
    reqVoucher.userVoucherId = some 1 ∧ noFaults.markVoucherUsed = none
      ∧ truthyInt reqVoucher.voucherId = true
      ∧ dbClaimed.user_vouchers = [⟨1, 7, 1, some false⟩]
      ∧ ∃ body db1, checkout dbClaimed 10 reqVoucher noFaults = (.success body, db1)
          ∧ db1.user_vouchers = [⟨1, 7, 1, some true⟩]
          ∧ ∀ uv ∈ db1.user_vouchers, uv.user_voucher_id = 1 → uv.used = some true := by
  have h : checkout dbClaimed 10 reqVoucher noFaults
      = (.success ⟨1, 1000, 200, 800, "card", "completed", some ⟨1, "SAVE20", 200⟩⟩,
          (checkout dbClaimed 10 reqVoucher noFaults).2) := by decide!
  have hthm := C11_voucher_id_and_user_voucher_id_mark_used dbClaimed 10 reqVoucher noFaults
    _ _ 1 h rfl (by decide) rfl
  exact ⟨rfl, rfl, rfl, rfl, _, _, h, by decide!, (hthm.1 rfl).2⟩

/-- C12, evaluated at the failing input: voucher 1 has expired (now = 200, expiry 100), the
request supplies voucher id 1 and user-voucher id 1; the checkout succeeds with
`voucherApplied = null` and discount 0, yet user voucher 1 goes from `used = false` to
`used = true`. -/
theorem C12_unapplied_voucher_is_marked_used :
    dbClaimed.user_vouchers = [⟨1, 7, 1, some false⟩]
      ∧ ∃ body db1, checkout dbClaimed 200 reqVoucher noFaults = (.success body, db1)
          ∧ body.voucherApplied = none ∧ body.discount = 0
          ∧ db1.user_vouchers = [⟨1, 7, 1, some true⟩] := by
  have h : checkout dbClaimed 200 reqVoucher noFaults
      = (.success ⟨1, 1000, 0, 1000, "card", "completed", none⟩,
          (checkout dbClaimed 200 reqVoucher noFaults).2) := by decide!
  exact ⟨rfl, _, _, h, rfl, rfl, by decide!⟩

/-- C13, evaluated at the failing input: voucher 1 exists but has expired (now = 200), the
request supplies its id; the checkout succeeds with `voucherApplied = null`, no voucher is
applied, and the row (order 1, voucher 1) is inserted into `order_vouchers`. -/
theorem C13_order_voucher_row_for_unapplied_voucher :
    dbPct.order_vouchers = []
      ∧ ∃ body db1, checkout dbPct 200 reqVoucher noFaults = (.success body, db1)
          ∧ body.voucherApplied = none ∧ db1.order_vouchers = [⟨1, 1⟩] := by
  have h : checkout dbPct 200 reqVoucher noFaults
      = (.success ⟨1, 1000, 0, 1000, "card", "completed", none⟩,
          (checkout dbPct 200 reqVoucher noFaults).2) := by decide!
  exact ⟨rfl, _, _, h, rfl, by decide!⟩

/-- What the handler does with `order_vouchers`: the insert follows the voucher id of the
request, not the voucher that was applied. Without a voucher id the table is unchanged;
with one, the table gains the row (order id, voucher id) whenever the table exists, a
voucher with that id exists and the insert does not throw; in every case the table is
unchanged or has gained exactly that row. -/
theorem order_voucher_row_follows_voucher_id (db : Db) (now : Int)
    (req : CheckoutRequest) (f : Faults) (body : CheckoutSuccess) (db1 : Db)
    (h : checkout db now req f = (.success body, db1)) :
    (truthyInt req.voucherId = false → db1.order_vouchers = db.order_vouchers)
      ∧ (∀ vid, req.voucherId = some vid → vid ≠ 0 → f.orderVoucherInsert = none →
          db.has_order_vouchers_table = true → (∃ v ∈ db.vouchers, v.voucher_id = vid) →
          db1.order_vouchers = db.order_vouchers ++ [⟨body.orderId, vid⟩])
      ∧ (db1.order_vouchers = db.order_vouchers
          ∨ ∃ vid, req.voucherId = some vid ∧ vid ≠ 0
              ∧ db1.order_vouchers = db.order_vouchers ++ [⟨body.orderId, vid⟩]) := by
  obtain ⟨userId, cartItemIds, -, -, -, -, -, -, hplace⟩ := checkout_success_inv h
  obtain ⟨-, -, -, -, -, -, htx⟩ := placeOrder_success_inv hplace
  obtain ⟨-, hov⟩ := txBody_ok_voucher_tables htx
  rw [(recordOrderVoucherIfAny_vouchers db f body.orderId req.voucherId).2] at hov
  refine ⟨?_, ?_, ?_⟩
  · intro hv
    rw [hov]
    cases hvid : req.voucherId with
    | none => rfl
    | some vid =>
      have : vid = 0 := by
        simpa [truthyInt, hvid] using hv
      simp [this]
  · intro vid hvid hv0 hf ht hex
    rw [hov, hvid]
    have hany : db.vouchers.any (fun v => decide (v.voucher_id = vid)) = true := by
      rw [List.any_eq_true]
      obtain ⟨v, hv, hvv⟩ := hex
      exact ⟨v, hv, by simpa using hvv⟩
    simp [hv0, hf, ht, hany]
  · rw [hov]
    cases hvid : req.voucherId with
    | none => exact Or.inl rfl
    | some vid =>
      simp only []
      split
      · next hcond => exact Or.inr ⟨vid, rfl, hcond.1, rfl⟩
      · exact Or.inl rfl

/-- Voucher 1 is supplied and applied, and the row (order 1, voucher 1) is inserted. -/
theorem order_voucher_row_scenario :
    reqVoucher.voucherId = some 1 ∧ noFaults.orderVoucherInsert = none
      ∧ dbPct.has_order_vouchers_table = true ∧ (∃ v ∈ dbPct.vouchers, v.voucher_id = 1)
      ∧ ∃ body db1, checkout dbPct 10 reqVoucher noFaults = (.success body, db1)
          ∧ db1.order_vouchers = dbPct.order_vouchers ++ [⟨1, 1⟩] := by
  have h : checkout dbPct 10 reqVoucher noFaults
      = (.success ⟨1, 1000, 200, 800, "card", "completed", some ⟨1, "SAVE20", 200⟩⟩,
          (checkout dbPct 10 reqVoucher noFaults).2) := by decide!
  have hex : ∃ v ∈ dbPct.vouchers, v.voucher_id = 1 :=
    ⟨voucherPct, List.mem_singleton.mpr rfl, rfl⟩
  have hthm := order_voucher_row_follows_voucher_id dbPct 10 reqVoucher noFaults _ _ h
  exact ⟨rfl, rfl, rfl, hex, _, _, h, hthm.2.1 1 rfl (by decide) rfl rfl hex⟩

/-! ### Checks on the request body -/

/-- C20: a request whose `userId` is missing (or falsy) is answered 400 `User ID is
required` whatever its `cartItemIds`; a request with a user id whose `cartItemIds` is
missing, not an array or empty is answered 400 `No items selected for checkout`. Both
answers are the same for every database and every fault pattern, and the database is left
as it was. -/
theorem C20_request_body_checks (db : Db) (now : Int) (req : CheckoutRequest) (f : Faults) :
    (truthyInt req.userId = false →
        checkout db now req f = (.failure 400 "User ID is required" none, db))
      ∧ (truthyInt req.userId = true → (req.cartItemIds = none ∨ req.cartItemIds = some []) →
        checkout db now req f = (.failure 400 "No items selected for checkout" none, db)) := by
  constructor
  · intro hu
    unfold checkout
    cases huid : req.userId with
    | none => rfl
    | some userId =>
      have : userId = 0 := by simpa [truthyInt, huid] using hu
      simp [this]
  · intro hu hc
    unfold checkout
    cases huid : req.userId with
    | none => simp [truthyInt, huid] at hu
    | some userId =>
      have hne : userId ≠ 0 := by simpa [truthyInt, huid] using hu
      rcases hc with hc | hc <;> simp [hne, hc]

/-- C20 at concrete requests: no user id with a non-empty list of items, and user 7 with an
empty list of items. -/
theorem C20_request_body_checks_scenario :
    truthyInt ({ reqDesk with userId := none } : CheckoutRequest).userId = false
      ∧ checkout dbDesk 10 { reqDesk with userId := none } noFaults
          = (.failure 400 "User ID is required" none, dbDesk)
      ∧ truthyInt ({ reqDesk with cartItemIds := some [] } : CheckoutRequest).userId = true
      ∧ checkout dbDesk 10 { reqDesk with cartItemIds := some [] } noFaults
          = (.failure 400 "No items selected for checkout" none, dbDesk) := by
  have hthm1 := C20_request_body_checks dbDesk 10 { reqDesk with userId := none } noFaults
  have hthm2 := C20_request_body_checks dbDesk 10 { reqDesk with cartItemIds := some [] }
    noFaults
  exact ⟨rfl, hthm1.1 rfl, rfl, hthm2.2 rfl (Or.inr rfl)⟩

/-! ### Discount windows and the rows of the verification query -/

/-- The active windows of a product are the windows of that product that contain `now`,
both ends included. -/
theorem activeDiscounts_eq_filter (db : Db) (now : Int) (p : Product) :
    activeDiscounts db now p
      = (db.product_discounts.filter fun d => decide (d.product_id = p.product_id)).filter
          fun d => decide (d.discount_start ≤ now) && decide (now ≤ d.discount_end) := by
  unfold activeDiscounts
  rw [List.filter_filter]
  apply List.filter_congr
  intro d _
  by_cases h1 : p.product_id = d.product_id
  · simp [h1]
  · have h2 : ¬ d.product_id = p.product_id := fun h => h1 h.symm
    simp [h1, h2]

/-- The active windows of a product that has a single window. -/
theorem activeDiscounts_single (db : Db) (now : Int) (p : Product) (pd : ProductDiscount)
    (h : (db.product_discounts.filter fun d => decide (d.product_id = p.product_id)) = [pd]) :
    activeDiscounts db now p
      = if pd.discount_start ≤ now ∧ now ≤ pd.discount_end then [pd] else [] := by
  rw [activeDiscounts_eq_filter, h]
  by_cases hw : pd.discount_start ≤ now ∧ now ≤ pd.discount_end
  · simp [hw, List.filter_cons]
  · rw [if_neg hw]
    rw [List.filter_cons, List.filter_nil]
    have : (decide (pd.discount_start ≤ now) && decide (now ≤ pd.discount_end)) = false := by
      by_contra hcon
      apply hw
      simpa using hcon
    simp [this]

/-- Every row of the verification query is a row of the discount join of some cart line
and product. -/
theorem mem_verifyItems {db : Db} {now userId : Int} {cartItemIds : List Int}
    {row : VerifiedItem} (h : row ∈ verifyItems db now userId cartItemIds) :
    ∃ c ∈ db.carts, ∃ ci ∈ db.cart_items, ∃ p ∈ db.products,
      c.cart_id = ci.cart_id ∧ ci.product_id = p.product_id ∧ c.user_id = userId
        ∧ ci.cart_item_id ∈ cartItemIds ∧ row ∈ joinDiscounts db now ci p := by
  unfold verifyItems at h
  simp only [List.mem_flatMap] at h
  obtain ⟨c, hc, ci, hci, p, hp, hrow⟩ := h
  split at hrow
  · next hcond =>
    exact ⟨c, hc, ci, hci, p, hp, hcond.1, hcond.2.1, hcond.2.2.1, hcond.2.2.2, hrow⟩
  · simp at hrow

/-- Every row of the cart query is a row of the discount join of some cart line and
product. -/
theorem mem_getCart {db : Db} {now userId : Int} {row : CartRow}
    (h : row ∈ getCart db now userId) :
    ∃ c ∈ db.carts, ∃ ci ∈ db.cart_items, ∃ p ∈ db.products,
      c.cart_id = ci.cart_id ∧ ci.product_id = p.product_id ∧ c.user_id = userId
        ∧ row ∈ cartJoinDiscounts db now ci p := by
  unfold getCart at h
  simp only [List.mem_flatMap] at h
  obtain ⟨c, hc, ci, hci, p, hp, hrow⟩ := h
  split at hrow
  · next hcond => exact ⟨c, hc, ci, hci, p, hp, hcond.1, hcond.2.1, hcond.2.2, hrow⟩
  · simp at hrow

/-- C17, counterexample: the desk has one discount window, from 0 to 50 at 400; at
`now = 50`, the end of the window, the cart query and the verification query still give
the discount price 400 and the checkout computes the subtotal 2 × 400 = 800, not
2 × 500 = 1000 at list price. -/
theorem C17_discount_applies_at_window_end :
    dbDesk.product_discounts = [⟨1, 400, 0, 50⟩]
      ∧ (getCart dbDesk 50 7).map (fun row => (row.price, row.discount_price)) = [(500, 400)]
      ∧ (verifyItems dbDesk 50 7 [1]).map (fun row => (row.price, row.discount_price))
          = [(500, 400)]
      ∧ ∃ body db1, checkout dbDesk 50 reqDesk noFaults = (.success body, db1)
          ∧ body.totalBeforeDiscount = 800 := by
  have h : checkout dbDesk 50 reqDesk noFaults
      = (.success ⟨1, 800, 0, 800, "cod", "pending", none⟩,
          (checkout dbDesk 50 reqDesk noFaults).2) := by decide!
  exact ⟨rfl, by decide!, by decide!, _, _, h, rfl⟩

/-- C17, amended: for a row of the verification query of the checkout, and for a row of
`GET /cart/:userId`, whose product has a single discount window, the effective unit price
is the discount price exactly when `start ≤ now ≤ end` (both ends included), and the list
price otherwise. -/
theorem C17_discount_window_includes_both_ends (db : Db) (now userId : Int)
    (cartItemIds : List Int) (pd : ProductDiscount) :
    (∀ row ∈ verifyItems db now userId cartItemIds,
        (db.product_discounts.filter fun d => decide (d.product_id = row.product_id)) = [pd] →
        row.discount_price
          = if pd.discount_start ≤ now ∧ now ≤ pd.discount_end then pd.discount_price
            else row.price)
      ∧ (∀ row ∈ getCart db now userId,
        (db.product_discounts.filter fun d => decide (d.product_id = row.product_id)) = [pd] →
        row.discount_price
          = if pd.discount_start ≤ now ∧ now ≤ pd.discount_end then pd.discount_price
            else row.price) := by
  constructor
  · intro row hrow hsingle
    obtain ⟨c, -, ci, -, p, -, -, -, -, -, hjoin⟩ := mem_verifyItems hrow
    unfold joinDiscounts at hjoin
    have hid : row.product_id = p.product_id := by
      split at hjoin
      · simp only [List.mem_singleton] at hjoin
        rw [hjoin]
        rfl
      · simp only [List.mem_map] at hjoin
        obtain ⟨d, -, hd⟩ := hjoin
        rw [← hd]
        rfl
    rw [hid] at hsingle
    rw [activeDiscounts_single db now p pd hsingle] at hjoin
    by_cases hw : pd.discount_start ≤ now ∧ now ≤ pd.discount_end
    · simp only [hw, and_self, if_true, List.map_cons, List.map_nil, List.mem_singleton] at hjoin
      rw [hjoin]
      simp [hw, mkVerifiedItem]
    · simp only [hw, if_false, List.mem_singleton] at hjoin
      rw [hjoin]
      simp [hw, mkVerifiedItem]
  · intro row hrow hsingle
    obtain ⟨c, -, ci, -, p, -, -, -, -, hjoin⟩ := mem_getCart hrow
    unfold cartJoinDiscounts at hjoin
    have hid : row.product_id = p.product_id := by
      split at hjoin
      · simp only [List.mem_singleton] at hjoin
        rw [hjoin]
        rfl
      · simp only [List.mem_map] at hjoin
        obtain ⟨d, -, hd⟩ := hjoin
        rw [← hd]
        rfl
    rw [hid] at hsingle
    rw [activeDiscounts_single db now p pd hsingle] at hjoin
    by_cases hw : pd.discount_start ≤ now ∧ now ≤ pd.discount_end
    · simp only [hw, and_self, if_true, List.map_cons, List.map_nil, List.mem_singleton] at hjoin
      rw [hjoin]
      simp [hw, mkCartRow]
    · simp only [hw, if_false, List.mem_singleton] at hjoin
      rw [hjoin]
      simp [hw, mkCartRow]

/-- C17, amended, at the desk cart: at `now = 50` the row of the checkout has the discount
price 400, at `now = 51` the row of the cart query has the list price 500. -/
theorem C17_discount_window_scenario :
    mkVerifiedItem ⟨1, 1, 1, 2, none⟩ ⟨1, "desk", 500, 10⟩ 400 ∈ verifyItems dbDesk 50 7 [1]
      ∧ mkCartRow ⟨1, 1, 1, 2, none⟩ ⟨1, "desk", 500, 10⟩ 500 ∈ getCart dbDesk 51 7
      ∧ (dbDesk.product_discounts.filter fun d => decide (d.product_id = 1)) = [⟨1, 400, 0, 50⟩]
      ∧ (400 : Money) = (if (0 : Int) ≤ 50 ∧ (50 : Int) ≤ 50 then 400 else 500)
      ∧ (500 : Money) = (if (0 : Int) ≤ 51 ∧ (51 : Int) ≤ 50 then 400 else 500) := by
  have h1 : mkVerifiedItem ⟨1, 1, 1, 2, none⟩ ⟨1, "desk", 500, 10⟩ 400
      ∈ verifyItems dbDesk 50 7 [1] := by decide!
  have h2 : mkCartRow ⟨1, 1, 1, 2, none⟩ ⟨1, "desk", 500, 10⟩ 500 ∈ getCart dbDesk 51 7 := by
    decide!
  have hs : (dbDesk.product_discounts.filter fun d => decide (d.product_id = 1))
      = [⟨1, 400, 0, 50⟩] := by decide!
  have ht1 := (C17_discount_window_includes_both_ends dbDesk 50 7 [1] ⟨1, 400, 0, 50⟩).1 _ h1 hs
  have ht2 := (C17_discount_window_includes_both_ends dbDesk 51 7 [1] ⟨1, 400, 0, 50⟩).2 _ h2 hs
  exact ⟨h1, h2, hs, ht1, ht2⟩

/-- The rows of the discount join of a selected cart line of the user are among the rows of
the verification query, each as often as the join holds it. -/
theorem joinDiscounts_subperm_verifyItems {db : Db} (now : Int) {userId : Int}
    {cartItemIds : List Int} {c : Cart} {ci : CartItem} {p : Product}
    (hc : c ∈ db.carts) (hci : ci ∈ db.cart_items) (hp : p ∈ db.products)
    (h1 : c.cart_id = ci.cart_id) (h2 : ci.product_id = p.product_id)
    (h3 : c.user_id = userId) (h4 : ci.cart_item_id ∈ cartItemIds) :
    (joinDiscounts db now ci p).Subperm (verifyItems db now userId cartItemIds) := by
  have key : ∀ {α β : Type} (f : α → List β) (l : List α) (a : α), a ∈ l →
      (f a).Sublist (l.flatMap f) := by
    intro α β f l a ha
    exact List.sublist_flatten_of_mem (List.mem_map_of_mem f ha)
  apply List.Sublist.subperm
  unfold verifyItems
  refine List.Sublist.trans ?_ (key _ db.carts c hc)
  refine List.Sublist.trans ?_ (key _ db.cart_items ci hci)
  refine List.Sublist.trans ?_ (key _ db.products p hp)
  simp [h1, h2, h3, h4]

/-- C18, evaluated at the failing input: the request lists cart item 1 alone, a line of
user 7 whose product, the desk, has two discount windows active at `now = 10`; the
verification query returns two rows for the one id, and the checkout is rejected with the
400 of the count check; nothing is ordered and no window gives a price. -/
theorem C18_overlapping_windows_reject_the_checkout :
    selectedLines dbOverlap 7 [1] = [(⟨1, 1, 1, 2, none⟩, ⟨1, "desk", 500, 10⟩)]
      ∧ (activeDiscounts dbOverlap 10 ⟨1, "desk", 500, 10⟩).length = 2
      ∧ (verifyItems dbOverlap 10 7 [1]).length = 2
      ∧ reqDesk.cartItemIds = some [1]
      ∧ checkout dbOverlap 10 reqDesk noFaults
          = (.failure 400 "Some items don't exist or don't belong to your cart" none,
              dbOverlap) := by
  exact ⟨by decide!, by decide!, by decide!, rfl, by decide!⟩

/-- For a selected cart line of the user whose product has more than one discount window
active now, the verification query holds a row of that line for every active window, with
the discount price of that window as effective unit price; it holds more than one row for
the line, and no window is chosen over the others. -/
theorem one_row_per_active_window (db : Db) (now userId : Int) (cartItemIds : List Int)
    (c : Cart) (ci : CartItem) (p : Product)
    (hc : c ∈ db.carts) (hci : ci ∈ db.cart_items) (hp : p ∈ db.products)
    (h1 : c.cart_id = ci.cart_id) (h2 : ci.product_id = p.product_id)
    (h3 : c.user_id = userId) (h4 : ci.cart_item_id ∈ cartItemIds)
    (hmany : 1 < (activeDiscounts db now p).length) :
    (∀ pd ∈ activeDiscounts db now p,
        mkVerifiedItem ci p pd.discount_price ∈ verifyItems db now userId cartItemIds)
      ∧ 1 < ((verifyItems db now userId cartItemIds).filter fun row =>
          decide (row.cart_item_id = ci.cart_item_id)).length := by
  have hjoin : joinDiscounts db now ci p
      = (activeDiscounts db now p).map fun pd => mkVerifiedItem ci p pd.discount_price := by
    unfold joinDiscounts
    split
    · next hnil =>
      rw [hnil] at hmany
      simp at hmany
    · rfl
  have hsub := joinDiscounts_subperm_verifyItems now hc hci hp h1 h2 h3 h4
  rw [hjoin] at hsub
  refine ⟨?_, ?_⟩
  · intro pd hpd
    exact hsub.subset (List.mem_map_of_mem _ hpd)
  · have hfilter :=
      (hsub.filter fun row => decide (row.cart_item_id = ci.cart_item_id)).length_le
    have hall : ((activeDiscounts db now p).map fun pd =>
        mkVerifiedItem ci p pd.discount_price).filter
          (fun row => decide (row.cart_item_id = ci.cart_item_id))
        = (activeDiscounts db now p).map fun pd => mkVerifiedItem ci p pd.discount_price := by
      rw [List.filter_eq_self]
      intro row hrow
      rw [List.mem_map] at hrow
      obtain ⟨pd, -, hpd⟩ := hrow
      rw [← hpd]
      simp [mkVerifiedItem]
    rw [hall, List.length_map] at hfilter
    omega

/-- At the desk with two overlapping windows the verification query holds the desk line at
400 and at 350, two rows for the one line. -/
theorem one_row_per_active_window_scenario :
    1 < (activeDiscounts dbOverlap 10 ⟨1, "desk", 500, 10⟩).length
      ∧ mkVerifiedItem ⟨1, 1, 1, 2, none⟩ ⟨1, "desk", 500, 10⟩ 400 ∈ verifyItems dbOverlap 10 7 [1]
      ∧ mkVerifiedItem ⟨1, 1, 1, 2, none⟩ ⟨1, "desk", 500, 10⟩ 350 ∈ verifyItems dbOverlap 10 7 [1]
      ∧ 1 < ((verifyItems dbOverlap 10 7 [1]).filter fun row =>
          decide (row.cart_item_id = 1)).length := by
  have hmany : 1 < (activeDiscounts dbOverlap 10 ⟨1, "desk", 500, 10⟩).length := by decide!
  have hthm := one_row_per_active_window dbOverlap 10 7 [1] ⟨1, 7⟩ ⟨1, 1, 1, 2, none⟩
    ⟨1, "desk", 500, 10⟩ (by decide!) (by decide!) (by decide!) rfl rfl rfl (by decide) hmany
  exact ⟨hmany, hthm.1 ⟨1, 400, 0, 50⟩ (by decide!), hthm.1 ⟨1, 350, 5, 60⟩ (by decide!),
    hthm.2⟩

/-- C19, evaluated at the failing input: the request lists cart item 1 and cart item 99,
which does not exist; the desk of line 1 has two discount windows active, so the
verification query returns two rows for line 1, the count check passes, and the checkout
succeeds: an order is created with line 1 twice, the stock of the desk goes from 10 to 6
and the cart line is removed. -/
theorem C19_unknown_cart_item_is_not_rejected :
    (∀ ci ∈ dbOverlap.cart_items, ci.cart_item_id ≠ 99)
      ∧ reqWithUnknownItem.cartItemIds = some [1, 99]
      ∧ ∃ body db1, checkout dbOverlap 10 reqWithUnknownItem noFaults = (.success body, db1)
          ∧ db1.orders = [orderOf 1 7 1500 1500]
          ∧ db1.order_items = [⟨1, 1, 2, 800⟩, ⟨1, 1, 2, 700⟩]
          ∧ db1.products = [⟨1, "desk", 500, 6⟩, ⟨2, "chair", 80, 4⟩]
          ∧ db1.cart_items = [] := by
  have h : checkout dbOverlap 10 reqWithUnknownItem noFaults
      = (.success ⟨1, 1500, 0, 1500, "cod", "pending", none⟩,
          (checkout dbOverlap 10 reqWithUnknownItem noFaults).2) := by decide!
  exact ⟨by decide, rfl, _, _, h, by decide!, by decide!, by decide!, by decide!⟩

/-! ### The used flag of user vouchers -/

/-- A rejected checkout leaves every table as it was. -/
theorem checkout_failure_unchanged {db : Db} {now : Int} {req : CheckoutRequest} {f : Faults}
    {status : Nat} {error : String} {items : Option (List OutOfStockEntry)} {db1 : Db}
    (h : checkout db now req f = (.failure status error items, db1)) : db1 = db := by
  unfold checkout at h
  cases hu : req.userId with
  | none =>
    simp only [hu, Prod.mk.injEq] at h
    exact h.2.symm
  | some userId =>
    by_cases hu0 : userId = 0
    · simp only [hu, hu0, if_true, Prod.mk.injEq] at h
      exact h.2.symm
    · cases hc : req.cartItemIds with
      | none =>
        simp only [hu, hu0, hc, if_false, Prod.mk.injEq] at h
        exact h.2.symm
      | some cartItemIds =>
        by_cases hl : cartItemIds.length = 0
        · simp only [hu, hu0, hc, hl, if_true, if_false, Prod.mk.injEq] at h
          exact h.2.symm
        · simp only [hu, hu0, hc, hl, if_false] at h
          unfold checkoutVerified at h
          cases hp : f.getPool with
          | some e =>
            simp only [hp, Prod.mk.injEq] at h
            exact h.2.symm
          | none =>
            cases hv : f.verifyQuery with
            | some e =>
              simp only [hp, hv, Prod.mk.injEq] at h
              exact h.2.symm
            | none =>
              simp only [hp, hv] at h
              split at h
              · simp only [Prod.mk.injEq] at h
                exact h.2.symm
              · split at h
                · simp only [Prod.mk.injEq] at h
                  exact h.2.symm
                · unfold placeOrder at h
                  cases hq : (if truthyInt req.voucherId then f.voucherQuery else none) with
                  | some e =>
                    simp only [hq, Prod.mk.injEq] at h
                    exact h.2.symm
                  | none =>
                    cases hb : f.beginTx with
                    | some e =>
                      simp only [hq, hb, Prod.mk.injEq] at h
                      exact h.2.symm
                    | none =>
                      simp only [hq, hb] at h
                      split at h
                      · simp only [Prod.mk.injEq] at h
                        exact h.2.symm
                      · simp at h

/-- The marking step of the checkout leaves `user_vouchers` as it was or sets `used` in the
rows with one user-voucher id. -/
theorem markVoucherUsed_user_vouchers (db : Db) (f : Faults) (req : CheckoutRequest) :
    (markVoucherUsed db f req).user_vouchers = db.user_vouchers
      ∨ ∃ userVoucherId,
          (markVoucherUsed db f req).user_vouchers = setUsed db.user_vouchers userVoucherId := by
  rw [(markVoucherUsed_tables db f req).1]
  split
  · cases hf : f.markVoucherUsed with
    | some e => exact Or.inl rfl
    | none =>
      cases huv : req.userVoucherId with
      | none =>
        left
        simp
      | some userVoucherId =>
        right
        refine ⟨userVoucherId, ?_⟩
        simp [setUsed]
  · exact Or.inl rfl

/-- A checkout leaves `user_vouchers` as it was or sets `used` in the rows with one
user-voucher id. -/
theorem checkout_user_vouchers (db : Db) (now : Int) (req : CheckoutRequest) (f : Faults) :
    (checkout db now req f).2.user_vouchers = db.user_vouchers
      ∨ ∃ userVoucherId,
          (checkout db now req f).2.user_vouchers = setUsed db.user_vouchers userVoucherId := by
  cases hres : checkout db now req f with
  | mk resp db1 =>
    cases resp with
    | failure status error items =>
      left
      rw [checkout_failure_unchanged hres]
    | success body =>
      obtain ⟨userId, cartItemIds, -, -, -, -, -, -, hplace⟩ := checkout_success_inv hres
      obtain ⟨-, -, -, -, -, -, htx⟩ := placeOrder_success_inv hplace
      obtain ⟨huvs, -⟩ := txBody_ok_voucher_tables htx
      simp only [huvs]
      exact markVoucherUsed_user_vouchers db f req

/-- The seeding of the welcome voucher leaves `user_vouchers` as it was or appends one
claim row with `used = false`. -/
theorem getVouchers_user_vouchers (db : Db) (now inOneMonth userId : Int) (f : VoucherFaults) :
    (getVouchers db now inOneMonth userId f).2.user_vouchers = db.user_vouchers
      ∨ ∃ uv : UserVoucher, uv.used = some false
          ∧ (getVouchers db now inOneMonth userId f).2.user_vouchers
              = db.user_vouchers ++ [uv] := by
  have hens : (ensureWelcomeVoucher db inOneMonth).2.user_vouchers = db.user_vouchers := by
    unfold ensureWelcomeVoucher
    split <;> rfl
  unfold getVouchers
  cases hl : f.listQuery with
  | some e => exact Or.inl rfl
  | none =>
    simp only []
    split
    · unfold seedWelcomeVoucher
      cases hw : f.welcomeVoucher with
      | some e => exact Or.inl rfl
      | none =>
        simp only []
        cases hids : (ensureWelcomeVoucher db inOneMonth).1 with
        | nil => exact Or.inl hens
        | cons voucherId rest =>
          simp only []
          cases ha : f.assignVoucher with
          | some e => exact Or.inl hens
          | none =>
            simp only []
            have hassign : (assignWelcomeVoucher (ensureWelcomeVoucher db inOneMonth).2 userId
                  voucherId).2.user_vouchers = db.user_vouchers
                ∨ ∃ uv : UserVoucher, uv.used = some false
                  ∧ (assignWelcomeVoucher (ensureWelcomeVoucher db inOneMonth).2 userId
                      voucherId).2.user_vouchers = db.user_vouchers ++ [uv] := by
              unfold assignWelcomeVoucher
              split
              · right
                exact ⟨_, rfl, by rw [← hens]⟩
              · left
                exact hens
            split <;> exact hassign
    · exact Or.inl rfl

/-- One request leaves `user_vouchers` as it was, sets `used` in the rows with one
user-voucher id, or appends one claim row with `used = false`. -/
theorem stepVoucherOp_user_vouchers (db : Db) (op : VoucherOp) :
    (stepVoucherOp db op).user_vouchers = db.user_vouchers
      ∨ (∃ userVoucherId,
          (stepVoucherOp db op).user_vouchers = setUsed db.user_vouchers userVoucherId)
      ∨ ∃ uv : UserVoucher, uv.used = some false
          ∧ (stepVoucherOp db op).user_vouchers = db.user_vouchers ++ [uv] := by
  cases op with
  | getVouchers now inOneMonth userId f =>
    rcases getVouchers_user_vouchers db now inOneMonth userId f with h | h
    · exact Or.inl h
    · exact Or.inr (Or.inr h)
  | useVoucher req fault =>
    simp only [stepVoucherOp]
    unfold useVoucher
    split
    · exact Or.inl rfl
    · cases fault with
      | some e => exact Or.inl rfl
      | none =>
        cases huv : req.userVoucherId with
        | none => exact Or.inl rfl
        | some userVoucherId =>
          by_cases h0 : userVoucherId = 0
          · simp [h0]
          · right
            left
            exact ⟨userVoucherId, by simp [h0]⟩
  | checkout now req f =>
    rcases checkout_user_vouchers db now req f with h | h
    · exact Or.inl h
    · exact Or.inr (Or.inl h)

/-- Every table keeps its own used flags. -/
theorem usedFlagsKept_refl (l : List UserVoucher) : UsedFlagsKept l l :=
  fun _ uv h => ⟨uv, h, rfl, rfl, rfl, fun hu => hu⟩

/-- Keeping the used flags is transitive. -/
theorem usedFlagsKept_trans {l1 l2 l3 : List UserVoucher} (h12 : UsedFlagsKept l1 l2)
    (h23 : UsedFlagsKept l2 l3) : UsedFlagsKept l1 l3 := by
  intro i uv h
  obtain ⟨uv2, h2, a2, b2, c2, d2⟩ := h12 i uv h
  obtain ⟨uv3, h3, a3, b3, c3, d3⟩ := h23 i uv2 h2
  exact ⟨uv3, h3, a3.trans a2, b3.trans b2, c3.trans c2, fun hu => d3 (d2 hu)⟩

/-- Setting `used` for one user-voucher id keeps the used flags. -/
theorem usedFlagsKept_setUsed (l : List UserVoucher) (userVoucherId : Int) :
    UsedFlagsKept l (setUsed l userVoucherId) := by
  intro i uv h
  unfold setUsed
  rw [List.getElem?_map, h]
  by_cases hid : uv.user_voucher_id = userVoucherId
  · exact ⟨{ uv with used := some true }, by simp only [Option.map_some', hid, if_true],
      rfl, rfl, rfl, fun _ => rfl⟩
  · exact ⟨uv, by simp only [Option.map_some', hid, if_false], rfl, rfl, rfl, fun hu => hu⟩

/-- Appending rows keeps the used flags. -/
theorem usedFlagsKept_append (l extra : List UserVoucher) : UsedFlagsKept l (l ++ extra) := by
  intro i uv h
  have hlt : i < l.length := (List.getElem?_eq_some.mp h).1
  exact ⟨uv, by rw [List.getElem?_append_left hlt, h], rfl, rfl, rfl, fun hu => hu⟩

/-- One request keeps the used flags. -/
theorem usedFlagsKept_step (db : Db) (op : VoucherOp) :
    UsedFlagsKept db.user_vouchers (stepVoucherOp db op).user_vouchers := by
  rcases stepVoucherOp_user_vouchers db op with h | ⟨id, h⟩ | ⟨uv, -, h⟩
  · rw [h]
    exact usedFlagsKept_refl _
  · rw [h]
    exact usedFlagsKept_setUsed _ _
  · rw [h]
    exact usedFlagsKept_append _ _

/-- C14: over every sequence of requests to `GET /vouchers/:userId`, `POST /vouchers/use`
and `POST /checkout`, handled one after the other, every `user_vouchers` row stays at its
position with its ids, and a row that has `used = true` still has `used = true` at the end;
and every row that a single request adds to the table has `used = false`. -/
theorem C14_used_flag_is_monotone (db : Db) (ops : List VoucherOp) :
    UsedFlagsKept db.user_vouchers (runVoucherOps db ops).user_vouchers
      ∧ ∀ (op : VoucherOp) (i : Nat) (uv : UserVoucher), db.user_vouchers.length ≤ i →
          (stepVoucherOp db op).user_vouchers[i]? = some uv → uv.used = some false := by
  constructor
  · induction ops generalizing db with
    | nil => exact usedFlagsKept_refl _
    | cons op rest ih =>
      unfold runVoucherOps
      rw [List.foldl_cons]
      exact usedFlagsKept_trans (usedFlagsKept_step db op) (ih (stepVoucherOp db op))
  · intro op i uv hi hget
    rcases stepVoucherOp_user_vouchers db op with h | ⟨id, h⟩ | ⟨uv0, hused, h⟩
    · rw [h, List.getElem?_eq_none hi] at hget
      simp at hget
    · rw [h] at hget
      unfold setUsed at hget
      rw [List.getElem?_map, List.getElem?_eq_none hi] at hget
      simp at hget
    · rw [h, List.getElem?_append_right hi] at hget
      have hmem : uv ∈ [uv0] := by
        obtain ⟨hlt, heq⟩ := List.getElem?_eq_some.mp hget
        rw [← heq]
        exact List.getElem_mem _
      rw [List.mem_singleton] at hmem
      rw [hmem]
      exact hused

/-- C14 at a concrete sequence on the empty database: the first listing for user 7 seeds
the welcome voucher and adds the claim row 1 with `used = false`; after the use of user
voucher 1 and a second listing the row is still there, used, and no other row was added. -/
theorem C14_used_flag_scenario :
    emptyDb.user_vouchers.length ≤ 0
      ∧ (stepVoucherOp emptyDb (.getVouchers 10 40 7 noVoucherFaults)).user_vouchers[0]?
          = some ⟨1, 7, 1, some false⟩
      ∧ (⟨1, 7, 1, some false⟩ : UserVoucher).used = some false
      ∧ (runVoucherOps emptyDb opsWelcome).user_vouchers = [⟨1, 7, 1, some true⟩]
      ∧ UsedFlagsKept (runVoucherOps emptyDb (opsWelcome.take 2)).user_vouchers
          (runVoucherOps (runVoucherOps emptyDb (opsWelcome.take 2))
            (opsWelcome.drop 2)).user_vouchers := by
  have hget : (stepVoucherOp emptyDb (.getVouchers 10 40 7 noVoucherFaults)).user_vouchers[0]?
      = some ⟨1, 7, 1, some false⟩ := by decide!
  have hnew := (C14_used_flag_is_monotone emptyDb []).2 (.getVouchers 10 40 7 noVoucherFaults)
    0 ⟨1, 7, 1, some false⟩ (Nat.le_refl 0) hget
  exact ⟨Nat.le_refl 0, hget, hnew, by decide!,
    (C14_used_flag_is_monotone (runVoucherOps emptyDb (opsWelcome.take 2))
      (opsWelcome.drop 2)).1⟩

/-! ### Quantities of cart lines -/

/-- Step 1 of `POST /cart/add` does not touch the cart lines. -/
theorem ensureCart_cart_items {db db1 : Db} {userId cartId : Int} {f : CartAddFaults}
    (h : ensureCart db userId f = some (cartId, db1)) : db1.cart_items = db.cart_items := by
  unfold ensureCart at h
  split at h
  · split at h
    · simp at h
    · simp only [Option.some.injEq, Prod.mk.injEq] at h
      rw [← h.2]
  · simp only [Option.some.injEq, Prod.mk.injEq] at h
    rw [← h.2]

/-- Steps 2 and 3 of `POST /cart/add` keep every stored quantity positive. -/
theorem addToCart_positive (db : Db) (cartId : Int) (req : CartAddRequest)
    (f : CartAddFaults) (hinv : ∀ ci ∈ db.cart_items, 0 < ci.quantity) :
    ∀ ci ∈ (addToCart db cartId req f).2.cart_items, 0 < ci.quantity := by
  unfold addToCart
  cases hf : f.findItem with
  | some e => exact hinv
  | none =>
    simp only []
    split
    · next existing rest hfound =>
      cases hw : f.writeItem with
      | some e => exact hinv
      | none =>
        simp only []
        split
        · next hallowed =>
          intro ci hci
          simp only [updateCartLine, List.mem_map] at hci
          obtain ⟨ci0, hci0, heq⟩ := hci
          split at heq
          · rw [← heq]
            simpa [quantityAllowed] using hallowed
          · rw [← heq]
            exact hinv ci0 hci0
        · exact hinv
    · cases hw : f.writeItem with
      | some e => exact hinv
      | none =>
        simp only []
        split
        · exact hinv
        · split
          · next hallowed =>
            intro ci hci
            simp only [List.mem_append, List.mem_singleton] at hci
            rcases hci with hci | hci
            · exact hinv ci hci
            · rw [hci]
              simpa [quantityAllowed] using hallowed
          · exact hinv

/-- `POST /cart/add` keeps every stored quantity positive. -/
theorem cartAdd_positive (db : Db) (req : CartAddRequest) (f : CartAddFaults)
    (hinv : ∀ ci ∈ db.cart_items, 0 < ci.quantity) :
    ∀ ci ∈ (cartAdd db req f).2.cart_items, 0 < ci.quantity := by
  unfold cartAdd
  cases hu : req.userId with
  | none => exact hinv
  | some userId =>
    simp only []
    split
    · exact hinv
    · cases hf : f.findCart with
      | some e => exact hinv
      | none =>
        simp only []
        cases he : ensureCart db userId f with
        | none => exact hinv
        | some r =>
          obtain ⟨cartId, db1⟩ := r
          simp only []
          apply addToCart_positive
          rw [ensureCart_cart_items he]
          exact hinv

/-- `PUT /cart/:cartId` keeps every stored quantity positive. -/
theorem cartUpdate_positive (db : Db) (cartId quantity : Option Int) (f : CartUpdateFaults)
    (hinv : ∀ ci ∈ db.cart_items, 0 < ci.quantity) :
    ∀ ci ∈ (cartUpdate db cartId quantity f).2.cart_items, 0 < ci.quantity := by
  unfold cartUpdate
  cases hp : f.getPool with
  | some e => exact hinv
  | none =>
    cases cartId with
    | none => exact hinv
    | some cartItemId =>
      cases hfi : f.findItem with
      | some e => exact hinv
      | none =>
        simp only []
        split
        · exact hinv
        · cases quantity with
          | none => exact hinv
          | some parsedQuantity =>
            simp only []
            split
            · cases hd : f.deleteItem with
              | some e => exact hinv
              | none =>
                intro ci hci
                exact hinv ci (List.mem_filter.mp hci).1
            · cases hup : f.updateItem with
              | some e => exact hinv
              | none =>
                simp only []
                split
                · next hallowed =>
                  intro ci hci
                  simp only [List.mem_map] at hci
                  obtain ⟨ci0, hci0, heq⟩ := hci
                  split at heq
                  · rw [← heq]
                    simpa [quantityAllowed] using hallowed
                  · rw [← heq]
                    exact hinv ci0 hci0
                · exact hinv

/-- C15: from a state in which every cart line has a positive quantity, after every
sequence of `POST /cart/add` and `PUT /cart/:cartId` requests with arbitrary integer
quantities every stored cart line has a positive quantity (a write of a quantity that is
not positive is refused by the constraint of the column); and a `PUT` with quantity 0 on an
existing line, its calls not failing, deletes every row with that id instead of storing
0. -/
theorem C15_cart_quantity_stays_positive (db : Db) (ops : List CartOp)
    (hinv : ∀ ci ∈ db.cart_items, 0 < ci.quantity) :
    (∀ ci ∈ (runCartOps db ops).cart_items, 0 < ci.quantity)
      ∧ ∀ (cartItemId : Int) (f : CartUpdateFaults),
          f.getPool = none → f.findItem = none → f.deleteItem = none →
          (∃ ci ∈ db.cart_items, ci.cart_item_id = cartItemId) →
          (cartUpdate db (some cartItemId) (some 0) f).1 = .removed cartItemId
            ∧ (cartUpdate db (some cartItemId) (some 0) f).2.cart_items
                = db.cart_items.filter (fun ci => decide (ci.cart_item_id ≠ cartItemId))
            ∧ ∀ ci ∈ (cartUpdate db (some cartItemId) (some 0) f).2.cart_items,
                ci.cart_item_id ≠ cartItemId := by
  constructor
  · induction ops generalizing db with
    | nil => exact hinv
    | cons op rest ih =>
      unfold runCartOps
      rw [List.foldl_cons]
      apply ih
      cases op with
      | add req f => exact cartAdd_positive db req f hinv
      | update cartId quantity f => exact cartUpdate_positive db cartId quantity f hinv
  · intro cartItemId f hp hfi hd hex
    have hfound : ¬ (db.cart_items.filter fun ci =>
        decide (ci.cart_item_id = cartItemId)).length = 0 := by
      obtain ⟨ci, hci, hid⟩ := hex
      intro hzero
      have hmem : ci ∈ db.cart_items.filter fun ci => decide (ci.cart_item_id = cartItemId) :=
        List.mem_filter.mpr ⟨hci, by simpa using hid⟩
      rw [List.length_eq_zero.mp hzero] at hmem
      simp at hmem
    have hres : cartUpdate db (some cartItemId) (some 0) f
        = (.removed cartItemId,
            { db with
              cart_items := db.cart_items.filter fun ci =>
                decide (ci.cart_item_id ≠ cartItemId) }) := by
      unfold cartUpdate
      simp only [hp, hfi, hfound, hd, if_false, if_true]
    rw [hres]
    refine ⟨rfl, rfl, ?_⟩
    intro ci hci
    simpa using (List.mem_filter.mp hci).2

/-- C15 at a concrete sequence: on the cart with two desks, adding three chairs stores
them; adding minus five desks and setting the chairs to minus one are refused and store
nothing; setting the desks to 0 deletes their line. Every stored quantity is positive. -/
theorem C15_cart_quantity_scenario :
    (∀ ci ∈ dbDeskCart.cart_items, 0 < ci.quantity)
      ∧ (runCartOps dbDeskCart (opsCart.take 3)).cart_items
          = [⟨1, 1, 1, 2, none⟩, ⟨2, 1, 2, 3, none⟩]
      ∧ (runCartOps dbDeskCart opsCart).cart_items = [⟨2, 1, 2, 3, none⟩]
      ∧ (∀ ci ∈ (runCartOps dbDeskCart opsCart).cart_items, 0 < ci.quantity)
      ∧ (∃ ci ∈ dbDeskCart.cart_items, ci.cart_item_id = 1)
      ∧ (cartUpdate dbDeskCart (some 1) (some 0) noCartUpdateFaults).1 = .removed 1
      ∧ (cartUpdate dbDeskCart (some 1) (some 0) noCartUpdateFaults).2.cart_items = [] := by
  have hinv : ∀ ci ∈ dbDeskCart.cart_items, 0 < ci.quantity := by decide
  have hex : ∃ ci ∈ dbDeskCart.cart_items, ci.cart_item_id = 1 :=
    ⟨⟨1, 1, 1, 2, none⟩, List.mem_singleton.mpr rfl, rfl⟩
  have hthm := C15_cart_quantity_stays_positive dbDeskCart opsCart hinv
  have hput := hthm.2 1 noCartUpdateFaults rfl rfl rfl hex
  exact ⟨hinv, by decide!, by decide!, hthm.1, hex, hput.1, by decide!⟩

/-! ### The product rating -/

/-- The average the helper writes, `average_rating || 0`, is the mean of the ratings of the
product, and 0 when it has no review. -/
theorem averageRating_getD (reviews : List Review) (productId : Int) :
    (averageRating reviews productId).getD 0 = meanRating reviews productId := by
  unfold averageRating meanRating
  simp only [List.length_map]
  split <;> rfl

/-- Rounding to one decimal place gives a multiple of one tenth at most one twentieth away
from the number. -/
theorem roundDecimal1_spec (x : Money) :
    (∃ n : Int, roundDecimal1 x = (n : Money) / 10) ∧ |roundDecimal1 x - x| ≤ 1 / 20 := by
  unfold roundDecimal1
  refine ⟨⟨⌊x * 10 + 1 / 2⌋, rfl⟩, ?_⟩
  have h1 : ((⌊x * 10 + 1 / 2⌋ : Int) : Money) ≤ x * 10 + 1 / 2 := Int.floor_le _
  have h2 : x * 10 + 1 / 2 < ((⌊x * 10 + 1 / 2⌋ : Int) : Money) + 1 := Int.lt_floor_add_one _
  rw [abs_le]
  constructor <;> linarith

/-- After the helper ran without error, the reviews are as before and every statistics row
of the product holds the mean of its ratings rounded to one decimal place. -/
theorem updateProductRating_ok (db : ReviewDb) (productId : Int) (f : ReviewFaults)
    (hq : f.ratingQuery = none) (hu : f.ratingUpdate = none) :
    (updateProductRating db productId f).reviews = db.reviews
      ∧ ∀ s ∈ (updateProductRating db productId f).product_stats, s.product_id = productId →
          s.rating = roundDecimal1 (meanRating db.reviews productId) := by
  unfold updateProductRating
  rw [hq, hu]
  refine ⟨rfl, ?_⟩
  intro s hs hid
  simp only [List.mem_map] at hs
  obtain ⟨s0, -, heq⟩ := hs
  by_cases h0 : s0.product_id = productId
  · simp only [h0, if_true] at heq
    rw [← heq, averageRating_getD]
  · simp only [h0, if_false] at heq
    rw [← heq] at hid
    exact absurd hid h0

/-- C16, counterexample: users 1, 2 and 3 review product 1, which has a statistics row, with
the ratings 5, 4 and 4; the mean of the stored ratings is 13/3, and the rating stored in
`product_stats` is 4.3. -/
theorem C16_stored_rating_is_not_the_exact_mean :
    (dbThreeReviews 5 4 4).reviews.map (fun r => (r.product_id, r.rating))
        = [(1, 5), (1, 4), (1, 4)]
      ∧ meanRating (dbThreeReviews 5 4 4).reviews 1 = 13 / 3
      ∧ (dbThreeReviews 5 4 4).product_stats = [⟨1, "0", 43 / 10⟩]
      ∧ (43 / 10 : Money) ≠ 13 / 3 := by
  exact ⟨by decide!, by decide!, by decide!, by norm_num⟩

/-- C16, amended: the rating recomputation not failing, after a review add or update, and
after a review delete, every `product_stats` row of the product holds the arithmetic mean
of the ratings of the reviews now stored for the product, 0 when there are none, rounded
to one decimal place: a multiple of one tenth at most one twentieth away from the mean. -/
theorem C16_rating_is_mean_rounded_to_one_decimal (db : ReviewDb) (f : ReviewFaults)
    (hq : f.ratingQuery = none) (hu : f.ratingUpdate = none) :
    (∀ (userId productId rating : Int) (reviewText : Option String),
        userId ≠ 0 → productId ≠ 0 → 1 ≤ rating → rating ≤ 5 →
        f.checkExisting = none → f.writeReview = none →
        ∃ reply db1,
          addReview db ⟨some userId, some productId, some rating, reviewText⟩ f = (reply, db1)
            ∧ (∃ id, reply = .updated id ∨ reply = .added id)
            ∧ ∀ s ∈ db1.product_stats, s.product_id = productId →
                s.rating = roundDecimal1 (meanRating db1.reviews productId))
      ∧ (∀ (reviewId : Int) (review : Review),
        (db.reviews.filter fun r => decide (r.review_id = reviewId)).head? = some review →
        f.findReview = none → f.deleteReview = none →
        ∃ db1, deleteReview db reviewId f = (.deleted, db1)
          ∧ ∀ s ∈ db1.product_stats, s.product_id = review.product_id →
              s.rating = roundDecimal1 (meanRating db1.reviews review.product_id))
      ∧ ∀ x : Money, (∃ n : Int, roundDecimal1 x = (n : Money) / 10)
          ∧ |roundDecimal1 x - x| ≤ 1 / 20 := by
  refine ⟨?_, ?_, roundDecimal1_spec⟩
  · intro userId productId rating reviewText hu0 hp0 hr1 hr5 hce hwr
    have hchecks : addReview db ⟨some userId, some productId, some rating, reviewText⟩ f
        = writeReview db userId productId rating reviewText f := by
      unfold addReview
      have hr0 : rating ≠ 0 := by omega
      have hrange : ¬ (rating < 1 ∨ rating > 5) := by omega
      simp [truthyInt, hu0, hp0, hr0, hrange]
    rw [hchecks]
    unfold writeReview
    simp only [hce, hwr]
    split
    · next existing rest hfound =>
      refine ⟨_, _, rfl, ⟨existing.review_id, Or.inl rfl⟩, ?_⟩
      intro s hs hid
      obtain ⟨hrev, hstat⟩ := updateProductRating_ok
        { db with
          reviews := db.reviews.map fun r =>
            if r.user_id = userId ∧ r.product_id = productId then
              { r with rating := rating, review_text := reviewTextOrEmpty reviewText }
            else r }
        productId f hq hu
      rw [hrev]
      exact hstat s hs hid
    · refine ⟨_, _, rfl, ⟨db.next_review_id, Or.inr rfl⟩, ?_⟩
      intro s hs hid
      obtain ⟨hrev, hstat⟩ := updateProductRating_ok
        { db with
          reviews := db.reviews
            ++ [Review.mk db.next_review_id userId productId rating
                  (reviewTextOrEmpty reviewText)]
          next_review_id := db.next_review_id + 1 }
        productId f hq hu
      rw [hrev]
      exact hstat s hs hid
  · intro reviewId review hhead hfr hdr
    unfold deleteReview
    simp only [hfr, hdr]
    cases hfilter : db.reviews.filter (fun r => decide (r.review_id = reviewId)) with
    | nil =>
      rw [hfilter] at hhead
      simp at hhead
    | cons found rest =>
      rw [hfilter] at hhead
      simp only [List.head?_cons, Option.some.injEq] at hhead
      subst hhead
      refine ⟨updateProductRating
        { db with reviews := db.reviews.filter fun r => decide (r.review_id ≠ reviewId) }
        found.product_id f, rfl, ?_⟩
      intro s hs hid
      obtain ⟨hrev, hstat⟩ := updateProductRating_ok
        { db with reviews := db.reviews.filter fun r => decide (r.review_id ≠ reviewId) }
        found.product_id f hq hu
      rw [hrev]
      exact hstat s hs hid

/-- C16, amended, at the scenario of the specification: the ratings 5, 3 and 4 give the
stored rating 4.0, and deleting the review with rating 3 gives 4.5. -/
theorem C16_rating_scenario :
    noReviewFaults.ratingQuery = none ∧ noReviewFaults.ratingUpdate = none
      ∧ (dbThreeReviews 5 3 4).product_stats = [⟨1, "0", 4⟩]
      ∧ ((dbThreeReviews 5 3 4).reviews.filter fun r => decide (r.review_id = 2)).head?
          = some ⟨2, 2, 1, 3, ""⟩
      ∧ (∃ db1, deleteReview (dbThreeReviews 5 3 4) 2 noReviewFaults = (.deleted, db1)
          ∧ db1.product_stats = [⟨1, "0", 9 / 2⟩]
          ∧ ∀ s ∈ db1.product_stats, s.product_id = 1 →
              s.rating = roundDecimal1 (meanRating db1.reviews 1)) := by
  have hhead : ((dbThreeReviews 5 3 4).reviews.filter fun r =>
      decide (r.review_id = 2)).head? = some ⟨2, 2, 1, 3, ""⟩ := by decide!
  obtain ⟨db1, hdel, hstat⟩ := (C16_rating_is_mean_rounded_to_one_decimal
    (dbThreeReviews 5 3 4) noReviewFaults rfl rfl).2.1 2 ⟨2, 2, 1, 3, ""⟩ hhead rfl rfl
  have hdb1 : db1 = (deleteReview (dbThreeReviews 5 3 4) 2 noReviewFaults).2 := by
    rw [hdel]
  refine ⟨rfl, rfl, by decide!, hhead, db1, hdel, ?_, hstat⟩
  rw [hdb1]
  decide!

/-! ### The out-of-stock list, the order lines and the cart after a checkout -/

/-- Only the out-of-stock rejection carries an `items` list: every failure answered by
`placeOrder` has none. -/
theorem placeOrder_failure_items {db : Db} {now : Int} {f : Faults} {userId : Int}
    {cartItemIds : List Int} {req : CheckoutRequest} {rows : List VerifiedItem}
    {status : Nat} {error : String} {items : Option (List OutOfStockEntry)}
    (h : (placeOrder db now f userId cartItemIds req rows).1 = .failure status error items) :
    items = none := by
  unfold placeOrder at h
  cases hq : (if truthyInt req.voucherId then f.voucherQuery else none) with
  | some e =>
    simp only [hq, Response.failure.injEq] at h
    exact h.2.2.symm
  | none =>
    cases hb : f.beginTx with
    | some e =>
      simp only [hq, hb, Response.failure.injEq] at h
      exact h.2.2.symm
    | none =>
      simp only [hq, hb] at h
      cases ht : txBody db f userId cartItemIds req rows (subtotalOf rows)
          (max 0 (subtotalOf rows - (applyVoucher db now req.voucherId (subtotalOf rows)).1)) with
      | error e =>
        simp only [ht, Response.failure.injEq] at h
        exact h.2.2.symm
      | ok r =>
        obtain ⟨orderId, db2⟩ := r
        simp [ht] at h

/-- The order-voucher block writes neither `cart_items` nor `order_items`. -/
theorem recordOrderVoucherIfAny_lines (db : Db) (f : Faults) (orderId : Int)
    (voucherId : Option Int) :
    (recordOrderVoucherIfAny db f orderId voucherId).cart_items = db.cart_items
      ∧ (recordOrderVoucherIfAny db f orderId voucherId).order_items = db.order_items
      ∧ (recordOrderVoucherIfAny db f orderId voucherId).carts = db.carts := by
  unfold recordOrderVoucherIfAny recordOrderVoucher
  cases voucherId with
  | none => exact ⟨rfl, rfl, rfl⟩
  | some vid =>
    by_cases hv : vid = 0
    · simp [hv]
    · cases hf : f.orderVoucherInsert with
      | some e => simp [hv]
      | none =>
        by_cases ha : (db.has_order_vouchers_table
            && db.vouchers.any (fun v => decide (v.voucher_id = vid))) = true
        · simp [hv, ha]
        · simp [hv, ha]

/-- A committed transaction body appends one order item per row to `order_items`, and
leaves in `cart_items` what the cart deletion leaves of the rows before the request. -/
theorem txBody_ok_line_tables {db : Db} {f : Faults} {userId : Int} {cartItemIds : List Int}
    {req : CheckoutRequest} {rows : List VerifiedItem} {subtotal finalTotal : Money}
    {orderId : Int} {db1 : Db}
    (h : txBody db f userId cartItemIds req rows subtotal finalTotal = .ok (orderId, db1)) :
    db1.order_items = db.order_items ++ rows.map (orderItemOf orderId)
      ∧ db1.cart_items = (removeCartItems db f cartItemIds).cart_items
      ∧ db1.carts = db.carts := by
  obtain ⟨-, -, db3, db4, hitems, hpay, hdb⟩ := txBody_ok_steps h
  have hi := processItems_ok_tables f orderId rows 0 _ db3 hitems
  have hp := createPayment_ok_tables hpay
  have hm := markVoucherUsed_tables db4 f req
  have hr := recordOrderVoucherIfAny_lines (insertOrder db userId subtotal finalTotal).2 f
    orderId req.voucherId
  have hc4 : db4.cart_items = db.cart_items := by
    rw [hp.2.2.1, hi.2.2.2.2.2.1, hr.1]; rfl
  have ho4 : db4.order_items = db.order_items ++ rows.map (orderItemOf orderId) := by
    rw [hp.2.2.2.1, hi.2.1, hr.2.1]; rfl
  have hk4 : db4.carts = db.carts := by
    rw [hp.2.2.2.2.2, hi.2.2.2.2.1, hr.2.2]; rfl
  subst hdb
  refine ⟨?_, ?_, ?_⟩
  · rw [(removeCartItems_tables _ f cartItemIds).2.2, hm.2.2.2, ho4]
  · unfold removeCartItems
    cases hd : f.cartDelete with
    | some e => simp only [hm.2.2.1, hc4]
    | none => simp only [hm.2.2.1, hc4]
  · unfold removeCartItems markVoucherUsed
    cases hd : f.cartDelete with
    | some e =>
      simp only
      split
      · split <;> exact hk4
      · exact hk4
    | none =>
      simp only
      split
      · split <;> exact hk4
      · exact hk4

/-- The handler answers with an `items` list exactly when the request passes the checks on
its body, the verification query returns as many rows as ids were listed and some row asks
for more than the stock of its product; the answer is then the 400
`Some items are out of stock`, and the list has one entry per row of the query whose
quantity exceeds the stock, as the handler received the rows, and no other entry, each with
the requested quantity and the available stock of that row. -/
theorem out_of_stock_items_list (db : Db) (now : Int) (req : CheckoutRequest)
    (f : Faults) (status : Nat) (error : String) (items : List OutOfStockEntry) :
    (checkout db now req f).1 = .failure status error (some items) ↔
      status = 400 ∧ error = "Some items are out of stock"
        ∧ ∃ userId cartItemIds, req.userId = some userId ∧ userId ≠ 0
            ∧ req.cartItemIds = some cartItemIds ∧ cartItemIds ≠ []
            ∧ f.getPool = none ∧ f.verifyQuery = none
            ∧ (verifyItems db now userId cartItemIds).length = cartItemIds.length
            ∧ items ≠ []
            ∧ items
                = ((verifyItems db now userId cartItemIds).filter
                    fun row => decide (row.quantity > row.stock_quantity)).map
                  fun row => OutOfStockEntry.mk row.cart_item_id row.product_name
                    row.quantity row.stock_quantity := by
  constructor
  · intro h
    unfold checkout at h
    cases hu : req.userId with
    | none => simp [hu] at h
    | some userId =>
      by_cases hu0 : userId = 0
      · simp [hu, hu0] at h
      · cases hc : req.cartItemIds with
        | none => simp [hu, hu0, hc] at h
        | some cartItemIds =>
          by_cases hl : cartItemIds.length = 0
          · simp [hu, hu0, hc, hl] at h
          · simp only [hu, hu0, hc, hl, if_false] at h
            unfold checkoutVerified at h
            cases hp : f.getPool with
            | some e => simp [hp] at h
            | none =>
              cases hv : f.verifyQuery with
              | some e => simp [hp, hv] at h
              | none =>
                simp only [hp, hv] at h
                by_cases hlen :
                    (verifyItems db now userId cartItemIds).length = cartItemIds.length
                · by_cases hs :
                      (outOfStockItems (verifyItems db now userId cartItemIds)).length > 0
                  · simp only [hlen, hs, ne_eq, not_true_eq_false, if_false, if_true,
                      Response.failure.injEq, Option.some.injEq] at h
                    obtain ⟨h1, h2, h3⟩ := h
                    refine ⟨h1.symm, h2.symm, userId, cartItemIds, rfl, hu0, rfl, ?_, rfl, rfl,
                      hlen, ?_, ?_⟩
                    · intro hnil
                      exact hl (by simp [hnil])
                    · intro hnil
                      rw [← h3] at hnil
                      unfold outOfStockEntries at hnil
                      rw [List.map_eq_nil_iff] at hnil
                      rw [hnil] at hs
                      simp at hs
                    · rw [← h3]
                      rfl
                  · simp only [hlen, hs, ne_eq, not_true_eq_false, if_false] at h
                    have := placeOrder_failure_items h
                    simp at this
                · simp [hlen] at h
  · rintro ⟨hst, herr, userId, cartItemIds, hu, hu0, hc, hne, hp, hv, hlen, hitems, heq⟩
    have hl : cartItemIds.length ≠ 0 := by
      intro h0
      exact hne (List.length_eq_zero.mp h0)
    have hent : outOfStockEntries (verifyItems db now userId cartItemIds) = items := by
      rw [heq]
      rfl
    have hs : (outOfStockItems (verifyItems db now userId cartItemIds)).length > 0 := by
      apply List.length_pos.mpr
      intro hnil
      apply hitems
      rw [← hent]
      unfold outOfStockEntries
      rw [hnil]
      rfl
    unfold checkout
    simp only [hu, hc, hu0, hl, if_false]
    unfold checkoutVerified
    simp only [hp, hv, hlen, hs, ne_eq, not_true_eq_false, if_false, if_true, hent, hst, herr]

/-- With one discount window active: seven desks are asked for with three in stock, one
chair with four in stock; the list of the rejection holds the desk line alone, with 7
requested and 3 available. -/
theorem out_of_stock_items_scenario :
    (checkout dbMixedStock 10 reqMixedStock noFaults).1
        = .failure 400 "Some items are out of stock" (some [⟨1, "desk", 7, 3⟩])
      ∧ verifyItems dbMixedStock 10 7 [1, 2]
          = [mkVerifiedItem ⟨1, 1, 1, 7, none⟩ ⟨1, "desk", 500, 3⟩ 400,
              mkVerifiedItem ⟨2, 1, 2, 1, none⟩ ⟨2, "chair", 80, 4⟩ 80]
      ∧ ∃ userId cartItemIds, reqMixedStock.userId = some userId
          ∧ reqMixedStock.cartItemIds = some cartItemIds
          ∧ [OutOfStockEntry.mk 1 "desk" 7 3]
              = ((verifyItems dbMixedStock 10 userId cartItemIds).filter
                  fun row => decide (row.quantity > row.stock_quantity)).map
                fun row => OutOfStockEntry.mk row.cart_item_id row.product_name
                  row.quantity row.stock_quantity := by
  have h : (checkout dbMixedStock 10 reqMixedStock noFaults).1
      = .failure 400 "Some items are out of stock" (some [⟨1, "desk", 7, 3⟩]) := by decide!
  obtain ⟨-, -, userId, cartItemIds, hu, -, hc, -, -, -, -, -, heq⟩ :=
    (out_of_stock_items_list dbMixedStock 10 reqMixedStock noFaults 400
      "Some items are out of stock" [⟨1, "desk", 7, 3⟩]).mp h
  exact ⟨h, by decide!, userId, cartItemIds, hu, hc, heq⟩


/-- C21, evaluated at the failing input: the request lists cart item 1, a line of seven
desks with three in stock, and cart item 99, which does not exist; the desk has two discount
windows active, the verification query returns the line twice, the count check passes, and
the out-of-stock rejection lists the one offending line twice. -/
theorem C21_one_offending_line_is_listed_twice :
    selectedLines dbOverlapShort 7 [1, 99] = [(⟨1, 1, 1, 7, none⟩, ⟨1, "desk", 500, 3⟩)]
      ∧ (verifyItems dbOverlapShort 10 7 [1, 99]).length = 2
      ∧ checkout dbOverlapShort 10 reqWithUnknownItem noFaults
          = (.failure 400 "Some items are out of stock"
              (some [⟨1, "desk", 7, 3⟩, ⟨1, "desk", 7, 3⟩]), dbOverlapShort) := by
  exact ⟨by decide!, by decide!, by decide!⟩

/-- C22, evaluated at the failing input: the request lists cart item 1, a line of two
desks, and cart item 99, which does not exist; the desk has two discount windows active,
the verification query returns the line twice, the count check passes, and the order gets
two order items for the one selected line, at 800 and at 700. The two subtotals add up to
the `total_price` of 1500. -/
theorem C22_one_line_gets_two_order_items :
    selectedLines dbOverlap 7 [1, 99] = [(⟨1, 1, 1, 2, none⟩, ⟨1, "desk", 500, 10⟩)]
      ∧ ∃ body db1, checkout dbOverlap 10 reqWithUnknownItem noFaults = (.success body, db1)
          ∧ body.orderId = 1
          ∧ db1.orders = [⟨1, 7, 1500, some 1500, "processing"⟩]
          ∧ db1.order_items = [⟨1, 1, 2, 800⟩, ⟨1, 1, 2, 700⟩]
          ∧ (itemsOfOrder db1 1).length = 2
          ∧ ((itemsOfOrder db1 1).map fun oi => oi.subtotal).sum = 1500 := by
  have h : checkout dbOverlap 10 reqWithUnknownItem noFaults
      = (.success ⟨1, 1500, 0, 1500, "cod", "pending", none⟩,
          (checkout dbOverlap 10 reqWithUnknownItem noFaults).2) := by decide!
  exact ⟨by decide!, _, _, h, rfl, by decide!, by decide!, by decide!, by decide!⟩

/-- C23: after a successful checkout whose cart deletion does not throw, `cart_items` is
the table before the request without the rows whose id was listed: no listed id remains,
every row with another id is still there unchanged (rows are neither added nor modified,
whoever owns them), and `carts` is as before. -/
theorem C23_listed_cart_items_removed (db : Db) (now : Int) (req : CheckoutRequest)
    (f : Faults) (body : CheckoutSuccess) (db1 : Db)
    (h : checkout db now req f = (.success body, db1)) (hd : f.cartDelete = none) :
    ∃ cartItemIds, req.cartItemIds = some cartItemIds
      ∧ db1.cart_items
          = db.cart_items.filter (fun ci => decide (ci.cart_item_id ∉ cartItemIds))
      ∧ (∀ ci ∈ db1.cart_items, ci.cart_item_id ∉ cartItemIds ∧ ci ∈ db.cart_items)
      ∧ (∀ ci ∈ db.cart_items, ci.cart_item_id ∉ cartItemIds → ci ∈ db1.cart_items)
      ∧ db1.carts = db.carts := by
  obtain ⟨userId, cartItemIds, -, -, hc, -, -, -, hplace⟩ := checkout_success_inv h
  obtain ⟨-, -, -, -, -, -, htx⟩ := placeOrder_success_inv hplace
  obtain ⟨-, hcart, hcarts⟩ := txBody_ok_line_tables htx
  have heq : db1.cart_items
      = db.cart_items.filter (fun ci => decide (ci.cart_item_id ∉ cartItemIds)) := by
    rw [hcart]
    unfold removeCartItems
    simp only [hd]
  refine ⟨cartItemIds, hc, heq, ?_, ?_, hcarts⟩
  · intro ci hci
    rw [heq, List.mem_filter] at hci
    exact ⟨by simpa using hci.2, hci.1⟩
  · intro ci hci hnot
    rw [heq, List.mem_filter]
    exact ⟨hci, by simpa using hnot⟩

/-- C23 at a concrete request: user 7 checks out line 1; line 2 of the same user and
line 3 of user 8 stay as they were. -/
theorem C23_listed_cart_items_scenario :
    ∃ body db1, checkout dbTwoUsers 10 reqDesk noFaults = (.success body, db1)
      ∧ noFaults.cartDelete = none
      ∧ db1.cart_items = [⟨2, 1, 2, 1, none⟩, ⟨3, 2, 1, 1, none⟩]
      ∧ ∃ cartItemIds, reqDesk.cartItemIds = some cartItemIds
          ∧ db1.cart_items
              = dbTwoUsers.cart_items.filter
                  (fun ci => decide (ci.cart_item_id ∉ cartItemIds)) := by
  have h : checkout dbTwoUsers 10 reqDesk noFaults
      = (.success ⟨1, 800, 0, 800, "cod", "pending", none⟩,
          (checkout dbTwoUsers 10 reqDesk noFaults).2) := by decide!
  obtain ⟨cartItemIds, hc, heq, -, -, -⟩ :=
    C23_listed_cart_items_removed dbTwoUsers 10 reqDesk noFaults _ _ h rfl
  exact ⟨_, _, h, rfl, by decide!, cartItemIds, hc, heq⟩


/-! ### Orders after their creation -/

/-- Every table keeps the totals of its own orders. -/
theorem orderTotalsKept_refl (l : List Order) : OrderTotalsKept l l :=
  fun _ o h => ⟨o, h, rfl, rfl, rfl, rfl⟩

/-- Keeping the totals is transitive. -/
theorem orderTotalsKept_trans {l1 l2 l3 : List Order} (h12 : OrderTotalsKept l1 l2)
    (h23 : OrderTotalsKept l2 l3) : OrderTotalsKept l1 l3 := by
  intro i o h
  obtain ⟨o2, h2, a2, b2, c2, d2⟩ := h12 i o h
  obtain ⟨o3, h3, a3, b3, c3, d3⟩ := h23 i o2 h2
  exact ⟨o3, h3, a3.trans a2, b3.trans b2, c3.trans c2, d3.trans d2⟩

/-- The status update changes nothing but `order_status`, row by row. -/
theorem onlyStatusChanged_setOrderStatus (l : List Order) (orderId : Int) (status : String) :
    OnlyStatusChanged l (setOrderStatus l orderId status) := by
  refine ⟨by simp [setOrderStatus], ?_⟩
  intro i o h
  unfold setOrderStatus
  rw [List.getElem?_map, h]
  by_cases hid : o.order_id = orderId
  · exact ⟨{ o with order_status := status }, by simp only [Option.map_some', hid, if_true],
      rfl⟩
  · exact ⟨o, by simp only [Option.map_some', hid, if_false], rfl⟩

/-- A table is itself with no status changed. -/
theorem onlyStatusChanged_refl (l : List Order) : OnlyStatusChanged l l :=
  ⟨rfl, fun _ o h => ⟨o, h, rfl⟩⟩

/-- A change of `order_status` alone keeps the totals. -/
theorem orderTotalsKept_of_onlyStatusChanged {old new : List Order}
    (h : OnlyStatusChanged old new) : OrderTotalsKept old new := by
  intro i o hi
  obtain ⟨o1, h1, heq⟩ := h.2 i o hi
  refine ⟨o1, h1, ?_, ?_, ?_, ?_⟩ <;> rw [heq]

/-- Appending orders keeps the totals of the orders that were there. -/
theorem orderTotalsKept_append (l extra : List Order) : OrderTotalsKept l (l ++ extra) := by
  intro i o h
  have hlt : i < l.length := (List.getElem?_eq_some.mp h).1
  exact ⟨o, by rw [List.getElem?_append_left hlt, h], rfl, rfl, rfl, rfl⟩

/-- The tables keep their own order rows. -/
theorem orderRowsKept_refl (db : Db) : OrderRowsKept db db :=
  ⟨orderTotalsKept_refl _, le_refl _, [], by simp, by simp⟩

/-- Keeping the order rows is transitive. -/
theorem orderRowsKept_trans {db1 db2 db3 : Db} (h12 : OrderRowsKept db1 db2)
    (h23 : OrderRowsKept db2 db3) : OrderRowsKept db1 db3 := by
  obtain ⟨ho12, hn12, added12, hi12, hid12⟩ := h12
  obtain ⟨ho23, hn23, added23, hi23, hid23⟩ := h23
  refine ⟨orderTotalsKept_trans ho12 ho23, le_trans hn12 hn23, added12 ++ added23, ?_, ?_⟩
  · rw [hi23, hi12, List.append_assoc]
  · intro oi hoi
    rw [List.mem_append] at hoi
    rcases hoi with hoi | hoi
    · exact hid12 oi hoi
    · exact le_trans hn12 (hid23 oi hoi)

/-- A request that writes neither `orders` (beyond `order_status`) nor `order_items` nor the
identity counter keeps the order rows. -/
theorem orderRowsKept_of_status {db db1 : Db} (ho : OnlyStatusChanged db.orders db1.orders)
    (hi : db1.order_items = db.order_items) (hn : db1.next_order_id = db.next_order_id) :
    OrderRowsKept db db1 :=
  ⟨orderTotalsKept_of_onlyStatusChanged ho, le_of_eq hn.symm, [], by simp [hi], by simp⟩

/-- The handler of `PUT /orders/:orderId/status` writes only `orders`, and there only
`order_status`. -/
theorem updateOrderStatus_tables (db : Db) (orderId : Int) (status : Option String)
    (fault : Option String) :
    ∃ orders, (updateOrderStatus db orderId status fault).2 = { db with orders := orders }
      ∧ OnlyStatusChanged db.orders orders := by
  unfold updateOrderStatus
  cases fault with
  | some e => exact ⟨db.orders, rfl, onlyStatusChanged_refl _⟩
  | none =>
    by_cases hm : (db.orders.filter fun o => decide (o.order_id = orderId)).length > 0
    · cases status with
      | none =>
        simp only [hm, if_true]
        exact ⟨db.orders, rfl, onlyStatusChanged_refl _⟩
      | some s =>
        by_cases hs : s.length > 50
        · simp only [hm, hs, if_true]
          exact ⟨db.orders, rfl, onlyStatusChanged_refl _⟩
        · simp only [hm, hs, if_true, if_false]
          exact ⟨_, rfl, onlyStatusChanged_setOrderStatus _ _ _⟩
    · simp only [hm, if_false]
      exact ⟨db.orders, rfl, onlyStatusChanged_refl _⟩

/-- The handler of `PUT /orders/:orderId/cancel` writes only `orders`, and there only
`order_status`. -/
theorem cancelOrder_tables (db : Db) (orderId : Int) (fault : Option String) :
    ∃ orders, (cancelOrder db orderId fault).2 = { db with orders := orders }
      ∧ OnlyStatusChanged db.orders orders := by
  unfold cancelOrder
  cases fault with
  | some e => exact ⟨db.orders, rfl, onlyStatusChanged_refl _⟩
  | none =>
    by_cases hm : (db.orders.filter fun o => decide (o.order_id = orderId)).length > 0
    · simp only [hm, if_true]
      exact ⟨_, rfl, onlyStatusChanged_setOrderStatus _ _ _⟩
    · simp only [hm, if_false]
      exact ⟨db.orders, rfl, onlyStatusChanged_refl _⟩

/-- A stock addition writes neither `orders` nor `order_items` nor the identity counter of
`orders`. -/
theorem addStock_order_tables (db : Db) (req : AddStockRequest) (f : AddStockFaults) :
    (addStock db req f).2.orders = db.orders
      ∧ (addStock db req f).2.order_items = db.order_items
      ∧ (addStock db req f).2.next_order_id = db.next_order_id := by
  unfold addStock
  repeat' split
  all_goals exact ⟨rfl, rfl, rfl⟩

/-- The creation of a voucher writes neither `orders` nor `order_items` nor the identity
counter of `orders`. -/
theorem adminAddVoucher_order_tables (db : Db) (req : NewVoucherRequest)
    (fault : Option String) :
    (adminAddVoucher db req fault).2.orders = db.orders
      ∧ (adminAddVoucher db req fault).2.order_items = db.order_items
      ∧ (adminAddVoucher db req fault).2.next_order_id = db.next_order_id := by
  unfold adminAddVoucher
  repeat' split
  all_goals exact ⟨rfl, rfl, rfl⟩

/-- The deletion of a voucher writes neither `orders` nor `order_items` nor the identity
counter of `orders`. -/
theorem adminDeleteVoucher_order_tables (db : Db) (voucherId : Int) (fault : Option String) :
    (adminDeleteVoucher db voucherId fault).2.orders = db.orders
      ∧ (adminDeleteVoucher db voucherId fault).2.order_items = db.order_items
      ∧ (adminDeleteVoucher db voucherId fault).2.next_order_id = db.next_order_id := by
  unfold adminDeleteVoucher
  repeat' split
  all_goals exact ⟨rfl, rfl, rfl⟩

/-- The payment block does not touch the identity counter of `orders`. -/
theorem createPayment_ok_next_order_id {db db1 : Db} {f : Faults} {orderId : Int}
    {req : CheckoutRequest} (h : createPayment db f orderId req = .ok db1) :
    db1.next_order_id = db.next_order_id := by
  unfold createPayment at h
  cases h1 : f.paymentColumnQuery with
  | some e => simp [h1] at h
  | none =>
    cases h2 : f.paymentInsert with
    | some e => simp [h1, h2] at h
    | none =>
      simp only [h1, h2, Except.ok.injEq] at h
      rw [← h]

/-- A committed transaction body moves the identity counter of `orders` by one. -/
theorem txBody_ok_next_order_id {db : Db} {f : Faults} {userId : Int}
    {cartItemIds : List Int} {req : CheckoutRequest} {rows : List VerifiedItem}
    {subtotal finalTotal : Money} {orderId : Int} {db1 : Db}
    (h : txBody db f userId cartItemIds req rows subtotal finalTotal = .ok (orderId, db1)) :
    db1.next_order_id = db.next_order_id + 1 := by
  obtain ⟨-, -, db3, db4, hitems, hpay, hdb⟩ := txBody_ok_steps h
  have hi := processItems_ok_tables f orderId rows 0 _ db3 hitems
  have hp := createPayment_ok_next_order_id hpay
  have hr := recordOrderVoucherIfAny_tables (insertOrder db userId subtotal finalTotal).2 f
    orderId req.voucherId
  have h4 : db4.next_order_id = db.next_order_id + 1 := by
    rw [hp, hi.2.2.2.1, hr.2.2]; rfl
  subst hdb
  unfold removeCartItems markVoucherUsed
  repeat' split
  all_goals exact h4

/-- A checkout keeps the order rows: it fails and writes nothing, or it appends one order
and the order items of that order. -/
theorem checkout_orderRowsKept (db : Db) (now : Int) (req : CheckoutRequest) (f : Faults) :
    OrderRowsKept db (checkout db now req f).2 := by
  cases hres : checkout db now req f with
  | mk resp db1 =>
    cases resp with
    | failure status error items =>
      rw [checkout_failure_unchanged hres]
      exact orderRowsKept_refl db
    | success body =>
      obtain ⟨userId, cartItemIds, -, -, -, -, -, -, hplace⟩ := checkout_success_inv hres
      obtain ⟨-, -, -, -, -, -, htx⟩ := placeOrder_success_inv hplace
      obtain ⟨hid, horders, -⟩ := txBody_ok_inv htx
      obtain ⟨hitems, -, -⟩ := txBody_ok_line_tables htx
      have hnext := txBody_ok_next_order_id htx
      refine ⟨?_, ?_, _, hitems, ?_⟩
      · simp only [horders]
        exact orderTotalsKept_append _ _
      · simp only [hnext]
        omega
      · intro oi hoi
        rw [List.mem_map] at hoi
        obtain ⟨row, -, rfl⟩ := hoi
        simp [orderItemOf, hid]

/-- One request keeps the order rows. -/
theorem orderRowsKept_step (db : Db) (op : OrderOp) : OrderRowsKept db (stepOrderOp db op) := by
  cases op with
  | updateStatus orderId status fault =>
    obtain ⟨orders, heq, hst⟩ := updateOrderStatus_tables db orderId status fault
    simp only [stepOrderOp, heq]
    exact orderRowsKept_of_status hst rfl rfl
  | cancel orderId fault =>
    obtain ⟨orders, heq, hst⟩ := cancelOrder_tables db orderId fault
    simp only [stepOrderOp, heq]
    exact orderRowsKept_of_status hst rfl rfl
  | setPrice productId price =>
    exact orderRowsKept_of_status (onlyStatusChanged_refl _) rfl rfl
  | addStock req f =>
    obtain ⟨h1, h2, h3⟩ := addStock_order_tables db req f
    exact orderRowsKept_of_status (by simp only [stepOrderOp, h1]; exact onlyStatusChanged_refl _)
      h2 h3
  | addVoucher req fault =>
    obtain ⟨h1, h2, h3⟩ := adminAddVoucher_order_tables db req fault
    exact orderRowsKept_of_status (by simp only [stepOrderOp, h1]; exact onlyStatusChanged_refl _)
      h2 h3
  | deleteVoucher voucherId fault =>
    obtain ⟨h1, h2, h3⟩ := adminDeleteVoucher_order_tables db voucherId fault
    exact orderRowsKept_of_status (by simp only [stepOrderOp, h1]; exact onlyStatusChanged_refl _)
      h2 h3
  | checkout now req f => exact checkout_orderRowsKept db now req f

/-- Every sequence of requests keeps the order rows. -/
theorem orderRowsKept_run (ops : List OrderOp) :
    ∀ db : Db, OrderRowsKept db (runOrderOps db ops) := by
  induction ops with
  | nil => exact fun db => orderRowsKept_refl db
  | cons op rest ih =>
    intro db
    unfold runOrderOps
    rw [List.foldl_cons]
    exact orderRowsKept_trans (orderRowsKept_step db op) (ih (stepOrderOp db op))


/-- C24: over every sequence of status updates, cancellations, price changes, stock
additions, voucher creations and deletions and checkouts, handled one after the other, every
order stays at its position with its id, user, `total_price` and `total`; no row of
`order_items` is changed or removed, and the rows of an order that got its id from the
identity counter are at the end exactly the rows it had. A status update and a cancellation
write no table but `orders`, and there they change nothing but `order_status`. -/
theorem C24_order_totals_are_frozen (db : Db) (ops : List OrderOp) :
    OrderTotalsKept db.orders (runOrderOps db ops).orders
      ∧ (∃ added, (runOrderOps db ops).order_items = db.order_items ++ added)
      ∧ (∀ o ∈ db.orders, o.order_id < db.next_order_id →
          itemsOfOrder (runOrderOps db ops) o.order_id = itemsOfOrder db o.order_id)
      ∧ (∀ (orderId : Int) (status fault : Option String),
          ∃ orders, (updateOrderStatus db orderId status fault).2 = { db with orders := orders }
            ∧ OnlyStatusChanged db.orders orders)
      ∧ (∀ (orderId : Int) (fault : Option String),
          ∃ orders, (cancelOrder db orderId fault).2 = { db with orders := orders }
            ∧ OnlyStatusChanged db.orders orders) := by
  obtain ⟨horders, -, added, hitems, hids⟩ := orderRowsKept_run ops db
  refine ⟨horders, ⟨added, hitems⟩, ?_, updateOrderStatus_tables db, cancelOrder_tables db⟩
  intro o _ hlt
  unfold itemsOfOrder
  rw [hitems, List.filter_append]
  have hnone : added.filter (fun oi => decide (oi.order_id = o.order_id)) = [] := by
    rw [List.filter_eq_nil_iff]
    intro oi hoi
    have := hids oi hoi
    simp only [decide_eq_true_eq]
    omega
  rw [hnone, List.append_nil]

/-- C24 at a concrete sequence: order 1 of user 7 (two desks, 800) goes through a status
update, a price change of the desk, a stock addition, the creation and the deletion of a
voucher, a second checkout and its own cancellation; it ends with its totals of 800 and its
one item of 800, only its status changed. -/
theorem C24_order_totals_scenario :
    (runOrderOps dbAfterOrder opsAfterOrder).orders
        = [⟨1, 7, 800, some 800, "Cancelled"⟩, ⟨2, 7, 80, some 80, "processing"⟩]
      ∧ (runOrderOps dbAfterOrder opsAfterOrder).order_items = [⟨1, 1, 2, 800⟩, ⟨2, 2, 1, 80⟩]
      ∧ (runOrderOps dbAfterOrder opsAfterOrder).products
          = [⟨1, "desk", 650, 13⟩, ⟨2, "chair", 80, 3⟩]
      ∧ OrderTotalsKept dbAfterOrder.orders (runOrderOps dbAfterOrder opsAfterOrder).orders
      ∧ itemsOfOrder (runOrderOps dbAfterOrder opsAfterOrder) 1 = itemsOfOrder dbAfterOrder 1 := by
  obtain ⟨hkept, -, hitems, -, -⟩ := C24_order_totals_are_frozen dbAfterOrder opsAfterOrder
  exact ⟨by decide!, by decide!, by decide!, hkept,
    hitems ⟨1, 7, 800, some 800, "processing"⟩ (by decide!) (by decide)⟩


/-! ### The sign of the discount -/

/-- The discount of a voucher with a non-negative `discount_amount` on a non-negative
subtotal is not negative. -/
theorem voucherDiscount_nonneg (voucher : Voucher) (subtotal : Money)
    (ha : 0 ≤ voucher.discount_amount) (hs : 0 ≤ subtotal) :
    0 ≤ voucherDiscount voucher subtotal := by
  unfold voucherDiscount
  split
  · simp only []
    split
    · norm_num
    · exact div_nonneg (mul_nonneg hs ha) (by norm_num)
  · exact ha

/-- Step 4 of the handler gives a discount that is not negative when the subtotal is not
negative and the voucher named by the request, if it is stored, has a non-negative
`discount_amount`. -/
theorem applyVoucher_discount_nonneg (db : Db) (now : Int) (voucherId : Option Int)
    (subtotal : Money) (hs : 0 ≤ subtotal)
    (hv : ∀ v ∈ db.vouchers, some v.voucher_id = voucherId → 0 ≤ v.discount_amount) :
    0 ≤ (applyVoucher db now voucherId subtotal).1 := by
  unfold applyVoucher
  cases voucherId with
  | none => exact le_refl _
  | some vid =>
    by_cases h0 : vid = 0
    · simp [h0]
    · have hne : (vid != 0) = true := by simpa using h0
      simp only [hne, if_true]
      unfold applyVoucherRows
      cases hl : voucherLookup db now vid with
      | nil => exact le_refl _
      | cons v rest =>
        have hmem : v ∈ voucherLookup db now vid := by rw [hl]; exact List.mem_cons_self _ _
        unfold voucherLookup at hmem
        rw [List.mem_filter] at hmem
        obtain ⟨hin, hcond⟩ := hmem
        simp only [Bool.and_eq_true, decide_eq_true_eq] at hcond
        have ha : 0 ≤ v.discount_amount := hv v hin (by rw [hcond.1.1])
        simp only []
        split
        · exact voucherDiscount_nonneg v subtotal ha hs
        · exact le_refl _

/-- C29, the claim as stated fails: a voucher with `discount_amount = -50`, stored through
`POST /admin/vouchers` without any check, passes the percentage branch; on the lamp cart of
1000 the checkout returns a discount of -500 and a final total of 1500. -/
theorem C29_negative_voucher_raises_the_total :
    adminAddVoucher dbLamp ⟨some "MINUS", some (-50), some 0, some 100, some 1⟩ none
        = (.ok, dbNegative)
      ∧ ∃ body db1, checkout dbNegative 10 reqVoucher noFaults = (.success body, db1)
          ∧ body.totalBeforeDiscount = 1000 ∧ body.discount = -500 ∧ body.finalTotal = 1500
          ∧ body.discount < 0 ∧ body.finalTotal > body.totalBeforeDiscount := by
  have h : checkout dbNegative 10 reqVoucher noFaults
      = (.success ⟨1, 1000, -500, 1500, "card", "completed", some ⟨1, "MINUS", -500⟩⟩,
          (checkout dbNegative 10 reqVoucher noFaults).2) := by decide!
  exact ⟨by decide!, _, _, h, rfl, rfl, rfl, by decide!, by decide!⟩

/-- C29, amended: for every successful checkout with a subtotal that is not negative, when
the voucher named by the request, if it is stored, has a `discount_amount` that is not
negative, the discount returned is not negative and the final total is at most the
subtotal. -/
theorem C29_non_negative_voucher_never_raises_the_total (db : Db) (now : Int)
    (req : CheckoutRequest) (f : Faults) (body : CheckoutSuccess) (db1 : Db)
    (h : checkout db now req f = (.success body, db1))
    (hs : 0 ≤ body.totalBeforeDiscount)
    (hv : ∀ v ∈ db.vouchers, some v.voucher_id = req.voucherId → 0 ≤ v.discount_amount) :
    0 ≤ body.discount ∧ body.finalTotal ≤ body.totalBeforeDiscount := by
  obtain ⟨userId, cartItemIds, -, -, -, -, -, -, hplace⟩ := checkout_success_inv h
  obtain ⟨hbefore, hdisc, hfinal, -, -, -, -⟩ := placeOrder_success_inv hplace
  rw [hbefore] at hs
  have hd : 0 ≤ body.discount := by
    rw [hdisc]
    exact applyVoucher_discount_nonneg db now req.voucherId _ hs hv
  refine ⟨hd, ?_⟩
  rw [hfinal, hbefore]
  exact max_le hs (by linarith)

/-- C29, amended, at a concrete request: the 20 percent voucher on the lamp cart of 1000
gives a discount of 200 and a final total of 800. -/
theorem C29_non_negative_voucher_scenario :
    ∃ body db1, checkout dbPct 10 reqVoucher noFaults = (.success body, db1)
      ∧ (0 : Money) ≤ body.totalBeforeDiscount
      ∧ (∀ v ∈ dbPct.vouchers, some v.voucher_id = reqVoucher.voucherId →
          0 ≤ v.discount_amount)
      ∧ body.discount = 200 ∧ body.finalTotal = 800
      ∧ 0 ≤ body.discount ∧ body.finalTotal ≤ body.totalBeforeDiscount := by
  have h : checkout dbPct 10 reqVoucher noFaults
      = (.success ⟨1, 1000, 200, 800, "card", "completed", some ⟨1, "SAVE20", 200⟩⟩,
          (checkout dbPct 10 reqVoucher noFaults).2) := by decide!
  have hs : (0 : Money) ≤ 1000 := by norm_num
  have hv : ∀ v ∈ dbPct.vouchers, some v.voucher_id = reqVoucher.voucherId →
      0 ≤ v.discount_amount := by
    intro v hmem _
    have hv : v = voucherPct := by simpa [dbPct] using hmem
    rw [hv]
    decide!
  have hthm := C29_non_negative_voucher_never_raises_the_total dbPct 10 reqVoucher noFaults
    _ _ h hs hv
  exact ⟨_, _, h, hs, hv, rfl, rfl, hthm.1, hthm.2⟩


/-! ### The front-end discount -/

/-- The front-end discount of a voucher that passes the first two checks: the fixed or the
percentage branch. -/
theorem calculateVoucherDiscount_branches (v : ClientVoucher) (subtotal : Money)
    (hs : 0 < subtotal) (hm : ¬ (minOrderValueOf v > 0 ∧ subtotal < minOrderValueOf v)) :
    calculateVoucherDiscount (some v) subtotal
      = if discountTypeOf v = "percentage" then
          if maxDiscountOf v > 0 ∧ subtotal * discountValueOf v / 100 > maxDiscountOf v then
            maxDiscountOf v
          else subtotal * discountValueOf v / 100
        else if discountValueOf v > subtotal then subtotal else discountValueOf v := by
  unfold calculateVoucherDiscount
  have hs1 : ¬ subtotal ≤ 0 := not_le.mpr hs
  simp only [hs1, hm, if_false]

/-- C27, the claim as stated fails: for a percentage voucher of 150 percent without
`max_discount`, whose discount value is not negative, the function returns 150 on a subtotal
of 100, more than the subtotal. -/
theorem C27_percentage_over_hundred_exceeds_subtotal :
    0 ≤ discountValueOf voucherOverHundred
      ∧ calculateVoucherDiscount (some voucherOverHundred) 100 = 150
      ∧ ¬ (calculateVoucherDiscount (some voucherOverHundred) 100 ≤ 100) := by
  refine ⟨by decide!, by decide!, by decide!⟩

/-- C27, amended: the function returns 0 when the voucher is absent, when the subtotal is
not positive, and when the subtotal is below a positive `min_order_value`; otherwise it
returns `min(discount value, subtotal)` for a voucher whose type is not `percentage`, and
`subtotal × value / 100`, capped at `max_discount` when `max_discount > 0`, for a
percentage voucher. On a subtotal that is not negative the result `d` satisfies
`0 ≤ d ≤ subtotal` for every voucher with a non-negative discount value that is fixed or is
a percentage of at most 100. -/
theorem C27_front_end_discount (voucher : Option ClientVoucher) (subtotal : Money) :
    (voucher = none ∨ subtotal ≤ 0 → calculateVoucherDiscount voucher subtotal = 0)
      ∧ (∀ v, voucher = some v → 0 < minOrderValueOf v → subtotal < minOrderValueOf v →
          calculateVoucherDiscount voucher subtotal = 0)
      ∧ (∀ v, voucher = some v → 0 < subtotal →
          ¬ (0 < minOrderValueOf v ∧ subtotal < minOrderValueOf v) →
          (discountTypeOf v ≠ "percentage" →
              calculateVoucherDiscount voucher subtotal = min (discountValueOf v) subtotal)
            ∧ (discountTypeOf v = "percentage" →
              calculateVoucherDiscount voucher subtotal
                = if 0 < maxDiscountOf v then
                    min (subtotal * discountValueOf v / 100) (maxDiscountOf v)
                  else subtotal * discountValueOf v / 100))
      ∧ (0 ≤ subtotal →
          (∀ v, voucher = some v → 0 ≤ discountValueOf v
            ∧ (discountTypeOf v = "percentage" → discountValueOf v ≤ 100)) →
          0 ≤ calculateVoucherDiscount voucher subtotal
            ∧ calculateVoucherDiscount voucher subtotal ≤ subtotal) := by
  have hzero : voucher = none ∨ subtotal ≤ 0 → calculateVoucherDiscount voucher subtotal = 0 := by
    rintro (h | h)
    · rw [h]
      rfl
    · cases voucher with
      | none => rfl
      | some v => simp only [calculateVoucherDiscount, h, if_true]
  have hmin : ∀ v, voucher = some v → 0 < minOrderValueOf v → subtotal < minOrderValueOf v →
      calculateVoucherDiscount voucher subtotal = 0 := by
    intro v hv h1 h2
    rw [hv]
    unfold calculateVoucherDiscount
    have h12 : minOrderValueOf v > 0 ∧ subtotal < minOrderValueOf v := ⟨h1, h2⟩
    by_cases hs : subtotal ≤ 0
    · simp only [hs, if_true]
    · simp only [hs, h12, and_self, if_true, if_false]
  have hbranch : ∀ v, voucher = some v → 0 < subtotal →
      ¬ (0 < minOrderValueOf v ∧ subtotal < minOrderValueOf v) →
      (discountTypeOf v ≠ "percentage" →
          calculateVoucherDiscount voucher subtotal = min (discountValueOf v) subtotal)
        ∧ (discountTypeOf v = "percentage" →
          calculateVoucherDiscount voucher subtotal
            = if 0 < maxDiscountOf v then
                min (subtotal * discountValueOf v / 100) (maxDiscountOf v)
              else subtotal * discountValueOf v / 100) := by
    intro v hv hs hm
    rw [hv, calculateVoucherDiscount_branches v subtotal hs hm]
    constructor
    · intro ht
      simp only [ht, if_false]
      by_cases hgt : discountValueOf v > subtotal
      · simp only [hgt, if_true]
        exact (min_eq_right (le_of_lt hgt)).symm
      · simp only [hgt, if_false]
        exact (min_eq_left (not_lt.mp hgt)).symm
    · intro ht
      simp only [ht, if_true]
      by_cases hmax : 0 < maxDiscountOf v
      · by_cases hgt : subtotal * discountValueOf v / 100 > maxDiscountOf v
        · have hboth : maxDiscountOf v > 0 ∧ subtotal * discountValueOf v / 100 > maxDiscountOf v :=
            ⟨hmax, hgt⟩
          rw [if_pos hboth, if_pos hmax]
          exact (min_eq_right (le_of_lt hgt)).symm
        · have hboth : ¬ (maxDiscountOf v > 0
              ∧ subtotal * discountValueOf v / 100 > maxDiscountOf v) := fun h => hgt h.2
          rw [if_neg hboth, if_pos hmax]
          exact (min_eq_left (not_lt.mp hgt)).symm
      · have hboth : ¬ (maxDiscountOf v > 0
            ∧ subtotal * discountValueOf v / 100 > maxDiscountOf v) := fun h => hmax h.1
        rw [if_neg hboth, if_neg hmax]
  refine ⟨hzero, hmin, hbranch, ?_⟩
  intro hs0 hv
  cases hvo : voucher with
  | none =>
    rw [hvo] at hzero
    rw [hzero (Or.inl rfl)]
    exact ⟨le_refl _, hs0⟩
  | some v =>
    rw [hvo] at hzero hmin hbranch hv
    obtain ⟨hval, hpct⟩ := hv v rfl
    by_cases hs : subtotal ≤ 0
    · rw [hzero (Or.inr hs)]
      exact ⟨le_refl _, hs0⟩
    · have hpos : 0 < subtotal := not_le.mp hs
      by_cases hm : 0 < minOrderValueOf v ∧ subtotal < minOrderValueOf v
      · rw [hmin v rfl hm.1 hm.2]
        exact ⟨le_refl _, hs0⟩
      · obtain ⟨hfixed, hperc⟩ := hbranch v rfl hpos hm
        by_cases ht : discountTypeOf v = "percentage"
        · have h100 := hpct ht
          have hd0 : 0 ≤ subtotal * discountValueOf v / 100 :=
            div_nonneg (mul_nonneg hs0 hval) (by norm_num)
          have hdS : subtotal * discountValueOf v / 100 ≤ subtotal := by
            have : subtotal * discountValueOf v ≤ subtotal * 100 :=
              mul_le_mul_of_nonneg_left h100 hs0
            linarith
          rw [hperc ht]
          by_cases hmax : 0 < maxDiscountOf v
          · simp only [hmax, if_true]
            exact ⟨le_min hd0 (le_of_lt hmax), le_trans (min_le_left _ _) hdS⟩
          · simp only [hmax, if_false]
            exact ⟨hd0, hdS⟩
        · rw [hfixed ht]
          exact ⟨le_min hval hs0, min_le_right _ _⟩

/-- C27, amended, at concrete vouchers: 20 percent with at most 150 off and a minimum order
of 500 gives 150 on 1000, 120 on 600 and 0 on 400; each result is between 0 and the
subtotal. -/
theorem C27_front_end_discount_scenario :
    calculateVoucherDiscount (some voucherTwentyCapped) 1000 = 150
      ∧ calculateVoucherDiscount (some voucherTwentyCapped) 600 = 120
      ∧ calculateVoucherDiscount (some voucherTwentyCapped) 400 = 0
      ∧ 0 ≤ calculateVoucherDiscount (some voucherTwentyCapped) 600
      ∧ calculateVoucherDiscount (some voucherTwentyCapped) 600 ≤ 600 := by
  have hbound := (C27_front_end_discount (some voucherTwentyCapped) 600).2.2.2 (by norm_num)
    (by
      intro v hv
      have hv1 : v = voucherTwentyCapped := (Option.some.inj hv).symm
      rw [hv1]
      exact ⟨by decide!, fun _ => by decide!⟩)
  exact ⟨by decide!, by decide!, by decide!, hbound.1, hbound.2⟩


/-! ### Repeated seeding of the welcome voucher -/

/-- The welcome statement when a voucher with the code exists: its ids are returned and
nothing is written. -/
theorem ensureWelcomeVoucher_of_found {db : Db} {v : Voucher} {rest : List Voucher}
    (inOneMonth : Int) (h : welcomeVouchers db = v :: rest) :
    ensureWelcomeVoucher db inOneMonth = ((v :: rest).map (fun w => w.voucher_id), db) := by
  unfold welcomeVouchers at h
  unfold ensureWelcomeVoucher
  rw [h]

/-- The welcome statement when no voucher has the code: the voucher is inserted. -/
theorem ensureWelcomeVoucher_of_none {db : Db} (inOneMonth : Int)
    (h : welcomeVouchers db = []) :
    ensureWelcomeVoucher db inOneMonth
      = ([db.next_voucher_id],
          { db with
            vouchers := db.vouchers ++ [welcomeVoucher db.next_voucher_id inOneMonth]
            next_voucher_id := db.next_voucher_id + 1 }) := by
  unfold welcomeVouchers at h
  unfold ensureWelcomeVoucher
  rw [h]

/-- The assign statement when the user has a claim of the voucher: nothing is written. -/
theorem assignWelcomeVoucher_of_claimed {db : Db} {userId voucherId : Int} {c : UserVoucher}
    {rest : List UserVoucher} (h : claimsOf db userId voucherId = c :: rest) :
    (assignWelcomeVoucher db userId voucherId).2 = db := by
  unfold claimsOf at h
  unfold assignWelcomeVoucher
  rw [h]

/-- The assign statement when the user has no claim of the voucher: one claim is
inserted. -/
theorem assignWelcomeVoucher_of_none {db : Db} {userId voucherId : Int}
    (h : claimsOf db userId voucherId = []) :
    assignWelcomeVoucher db userId voucherId
      = ([db.next_user_voucher_id],
          { db with
            user_vouchers := db.user_vouchers
              ++ [UserVoucher.mk db.next_user_voucher_id userId voucherId (some false)]
            next_user_voucher_id := db.next_user_voucher_id + 1 }) := by
  unfold claimsOf at h
  unfold assignWelcomeVoucher
  rw [h]

/-- After the welcome statement a voucher with the code exists, the first id returned is the
id of the first such voucher, and `user_vouchers` is as before. -/
theorem ensureWelcomeVoucher_found (db : Db) (inOneMonth : Int) :
    ∃ v rest, welcomeVouchers (ensureWelcomeVoucher db inOneMonth).2 = v :: rest
      ∧ (ensureWelcomeVoucher db inOneMonth).1 = (v :: rest).map (fun w => w.voucher_id)
      ∧ (ensureWelcomeVoucher db inOneMonth).2.user_vouchers = db.user_vouchers := by
  cases hw : welcomeVouchers db with
  | nil =>
    rw [ensureWelcomeVoucher_of_none inOneMonth hw]
    refine ⟨welcomeVoucher db.next_voucher_id inOneMonth, [], ?_, rfl, rfl⟩
    unfold welcomeVouchers at hw ⊢
    simp only [List.filter_append, hw, List.nil_append]
    rfl
  | cons v rest =>
    rw [ensureWelcomeVoucher_of_found inOneMonth hw]
    exact ⟨v, rest, hw, rfl, rfl⟩

/-- When the user holds a claim of the first voucher with the welcome code, a call writes
nothing, whatever its time and whichever of its database calls throw. -/
theorem seeded_unchanged {db : Db} {userId : Int} {v : Voucher} {rest : List Voucher}
    (hw : welcomeVouchers db = v :: rest) (hc : claimsOf db userId v.voucher_id ≠ [])
    (now inOneMonth : Int) (f : VoucherFaults) :
    (getVouchers db now inOneMonth userId f).2 = db := by
  unfold getVouchers
  cases hl : f.listQuery with
  | some e => rfl
  | none =>
    simp only []
    split
    · unfold seedWelcomeVoucher
      cases hwf : f.welcomeVoucher with
      | some e => rfl
      | none =>
        simp only [ensureWelcomeVoucher_of_found inOneMonth hw, List.map_cons]
        cases haf : f.assignVoucher with
        | some e => rfl
        | none =>
          simp only []
          cases hcl : claimsOf db userId v.voucher_id with
          | nil => exact absurd hcl hc
          | cons c more =>
            have hdb := assignWelcomeVoucher_of_claimed hcl
            split
            · exact hdb
            · exact hdb
    · rfl

/-- A call whose listing is empty and whose database calls do not throw leaves a voucher
with the welcome code and a claim of the first such voucher by the user. -/
theorem getVouchers_seeds {db : Db} {now userId : Int} (inOneMonth : Int)
    (hl : (vouchersQuery db now userId).length = 0) :
    ∃ v rest,
      welcomeVouchers (getVouchers db now inOneMonth userId noVoucherFaults).2 = v :: rest
        ∧ claimsOf (getVouchers db now inOneMonth userId noVoucherFaults).2 userId v.voucher_id
            ≠ [] := by
  obtain ⟨v, rest, hw, hids, huv⟩ := ensureWelcomeVoucher_found db inOneMonth
  have hdb : (getVouchers db now inOneMonth userId noVoucherFaults).2
      = (assignWelcomeVoucher (ensureWelcomeVoucher db inOneMonth).2 userId v.voucher_id).2 := by
    unfold getVouchers
    simp only [noVoucherFaults, hl, if_true]
    unfold seedWelcomeVoucher
    simp only [hids, List.map_cons]
    split
    · rfl
    · rfl
  rw [hdb]
  refine ⟨v, rest, ?_, ?_⟩
  · cases hcl : claimsOf (ensureWelcomeVoucher db inOneMonth).2 userId v.voucher_id with
    | nil =>
      rw [assignWelcomeVoucher_of_none hcl]
      exact hw
    | cons c more =>
      rw [assignWelcomeVoucher_of_claimed hcl]
      exact hw
  · cases hcl : claimsOf (ensureWelcomeVoucher db inOneMonth).2 userId v.voucher_id with
    | nil =>
      rw [assignWelcomeVoucher_of_none hcl]
      unfold claimsOf at hcl ⊢
      simp [List.filter_append, hcl]
    | cons c more =>
      rw [assignWelcomeVoucher_of_claimed hcl, hcl]
      exact List.cons_ne_nil _ _


/-- What the welcome statement followed by the assign statement writes: at most the welcome
voucher, inserted when no voucher has the code, and at most one claim of the user, inserted
when the user has no claim of that voucher. -/
theorem assignAfterEnsure_tables (db : Db) (inOneMonth userId voucherId : Int) :
    ((ensureWelcomeVoucher db inOneMonth).2.vouchers = db.vouchers
        ∨ (welcomeVouchers db = []
            ∧ (ensureWelcomeVoucher db inOneMonth).2.vouchers
                = db.vouchers ++ [welcomeVoucher db.next_voucher_id inOneMonth]))
      ∧ (assignWelcomeVoucher (ensureWelcomeVoucher db inOneMonth).2 userId voucherId).2.vouchers
          = (ensureWelcomeVoucher db inOneMonth).2.vouchers
      ∧ ((assignWelcomeVoucher (ensureWelcomeVoucher db inOneMonth).2 userId
              voucherId).2.user_vouchers = db.user_vouchers
          ∨ ∃ userVoucherId, claimsOf db userId voucherId = []
              ∧ (assignWelcomeVoucher (ensureWelcomeVoucher db inOneMonth).2 userId
                    voucherId).2.user_vouchers
                  = db.user_vouchers ++ [UserVoucher.mk userVoucherId userId voucherId
                      (some false)]) := by
  obtain ⟨-, -, -, -, huv⟩ := ensureWelcomeVoucher_found db inOneMonth
  have hclaims : claimsOf (ensureWelcomeVoucher db inOneMonth).2 userId voucherId
      = claimsOf db userId voucherId := by
    unfold claimsOf
    rw [huv]
  refine ⟨?_, ?_, ?_⟩
  · cases hw : welcomeVouchers db with
    | nil =>
      right
      rw [ensureWelcomeVoucher_of_none inOneMonth hw]
      exact ⟨rfl, rfl⟩
    | cons v rest =>
      left
      rw [ensureWelcomeVoucher_of_found inOneMonth hw]
  · cases hcl : claimsOf (ensureWelcomeVoucher db inOneMonth).2 userId voucherId with
    | nil => rw [assignWelcomeVoucher_of_none hcl]
    | cons c more => rw [assignWelcomeVoucher_of_claimed hcl]
  · cases hcl : claimsOf (ensureWelcomeVoucher db inOneMonth).2 userId voucherId with
    | nil =>
      right
      rw [assignWelcomeVoucher_of_none hcl]
      refine ⟨(ensureWelcomeVoucher db inOneMonth).2.next_user_voucher_id, ?_, ?_⟩
      · rw [← hclaims]
        exact hcl
      · simp only [huv]
    | cons c more =>
      left
      rw [assignWelcomeVoucher_of_claimed hcl]
      exact huv

/-- What one call of `GET /vouchers/:userId` writes to `vouchers` and `user_vouchers`: at
most the welcome voucher, when no voucher has the code, and at most one claim of the user,
for a voucher of which the user has no claim. -/
theorem getVouchers_tables (db : Db) (now inOneMonth userId : Int) (f : VoucherFaults) :
    ((getVouchers db now inOneMonth userId f).2.vouchers = db.vouchers
        ∨ (welcomeVouchers db = []
            ∧ (getVouchers db now inOneMonth userId f).2.vouchers
                = db.vouchers ++ [welcomeVoucher db.next_voucher_id inOneMonth]))
      ∧ ((getVouchers db now inOneMonth userId f).2.user_vouchers = db.user_vouchers
          ∨ ∃ voucherId userVoucherId, claimsOf db userId voucherId = []
              ∧ (getVouchers db now inOneMonth userId f).2.user_vouchers
                  = db.user_vouchers ++ [UserVoucher.mk userVoucherId userId voucherId
                      (some false)]) := by
  obtain ⟨v, rest, -, hids, huv⟩ := ensureWelcomeVoucher_found db inOneMonth
  unfold getVouchers
  cases hl : f.listQuery with
  | some e => exact ⟨Or.inl rfl, Or.inl rfl⟩
  | none =>
    simp only []
    split
    · unfold seedWelcomeVoucher
      cases hwf : f.welcomeVoucher with
      | some e => exact ⟨Or.inl rfl, Or.inl rfl⟩
      | none =>
        simp only [hids, List.map_cons]
        obtain ⟨hens, hav, hau⟩ := assignAfterEnsure_tables db inOneMonth userId v.voucher_id
        cases haf : f.assignVoucher with
        | some e => exact ⟨hens, Or.inl huv⟩
        | none =>
          simp only []
          have hboth :
              ((assignWelcomeVoucher (ensureWelcomeVoucher db inOneMonth).2 userId
                    v.voucher_id).2.vouchers = db.vouchers
                  ∨ (welcomeVouchers db = []
                      ∧ (assignWelcomeVoucher (ensureWelcomeVoucher db inOneMonth).2 userId
                            v.voucher_id).2.vouchers
                          = db.vouchers ++ [welcomeVoucher db.next_voucher_id inOneMonth]))
                ∧ ((assignWelcomeVoucher (ensureWelcomeVoucher db inOneMonth).2 userId
                        v.voucher_id).2.user_vouchers = db.user_vouchers
                    ∨ ∃ voucherId userVoucherId, claimsOf db userId voucherId = []
                        ∧ (assignWelcomeVoucher (ensureWelcomeVoucher db inOneMonth).2 userId
                              v.voucher_id).2.user_vouchers
                            = db.user_vouchers ++ [UserVoucher.mk userVoucherId userId
                                voucherId (some false)]) := by
            refine ⟨?_, ?_⟩
            · rw [hav]
              exact hens
            · rcases hau with h | ⟨uvid, h1, h2⟩
              · exact Or.inl h
              · exact Or.inr ⟨v.voucher_id, uvid, h1, h2⟩
          split
          · exact hboth
          · exact hboth
    · exact ⟨Or.inl rfl, Or.inl rfl⟩

/-- One call of `GET /vouchers/:userId` keeps "at most one voucher with the welcome code"
and "at most one claim per user and voucher". -/
theorem getVouchers_keeps_single (db : Db) (now inOneMonth userId : Int) (f : VoucherFaults)
    (hw : (welcomeVouchers db).length ≤ 1)
    (hc : ∀ u v, (claimsOf db u v).length ≤ 1) :
    (welcomeVouchers (getVouchers db now inOneMonth userId f).2).length ≤ 1
      ∧ ∀ u v, (claimsOf (getVouchers db now inOneMonth userId f).2 u v).length ≤ 1 := by
  obtain ⟨hv, hu⟩ := getVouchers_tables db now inOneMonth userId f
  constructor
  · rcases hv with h | ⟨hnone, h⟩
    · unfold welcomeVouchers at hw ⊢
      rw [h]
      exact hw
    · unfold welcomeVouchers at hnone ⊢
      rw [h, List.filter_append, hnone]
      simp [welcomeVoucher]
  · intro u v
    rcases hu with h | ⟨vid, uvid, hnone, h⟩
    · unfold claimsOf at hc ⊢
      rw [h]
      exact hc u v
    · have hcuv := hc u v
      unfold claimsOf at hnone hcuv ⊢
      rw [h, List.filter_append, List.length_append]
      by_cases hsame : userId = u ∧ vid = v
      · obtain ⟨rfl, rfl⟩ := hsame
        rw [hnone]
        simp
      · have hnew : List.filter (fun uv => decide (uv.user_id = u) && decide (uv.voucher_id = v))
            [UserVoucher.mk uvid userId vid (some false)] = [] := by
          rw [List.filter_eq_nil_iff]
          intro uv huv
          rw [List.mem_singleton] at huv
          rw [huv]
          simpa using fun h1 => fun h2 => hsame ⟨h1, h2⟩
        rw [hnew]
        simpa using hcuv

/-- C25, the claim as stated fails: user 7 is offered the voucher `SPRING`, which expires at
20. A first call at 10 lists it and writes nothing; a second call at 30 finds the listing
empty, runs the seeding and inserts the voucher `WELCOME10` and a claim of it, so the second
call does not leave the tables as the first call left them. -/
theorem C25_second_call_seeds_after_expiry :
    (getVouchers dbSpring 10 40 7 noVoucherFaults).1.map (fun view => view.code) = ["SPRING"]
      ∧ (getVouchers dbSpring 10 40 7 noVoucherFaults).2 = dbSpring
      ∧ (getVouchers (getVouchers dbSpring 10 40 7 noVoucherFaults).2 30 60 7
            noVoucherFaults).2.vouchers
          = [⟨1, "SPRING", 20, 0, 20, some 1, some "active"⟩,
              ⟨2, "WELCOME10", 100, 500, 60, some 1, some "active"⟩]
      ∧ (getVouchers (getVouchers dbSpring 10 40 7 noVoucherFaults).2 30 60 7
            noVoucherFaults).2.user_vouchers = [⟨1, 7, 2, some false⟩]
      ∧ (getVouchers (getVouchers dbSpring 10 40 7 noVoucherFaults).2 30 60 7
            noVoucherFaults).2.vouchers
          ≠ (getVouchers dbSpring 10 40 7 noVoucherFaults).2.vouchers := by
  exact ⟨by decide!, by decide!, by decide!, by decide!, by decide!⟩

/-- C25, amended: over every sequence of calls of `GET /vouchers/:userId`, for any users,
at any times and with any of their database calls throwing, a database with at most one
voucher of code `WELCOME10` and at most one claim per user and voucher stays so. After a call
whose database calls do not throw, a second call for the same user leaves every table as
the first call left it, at whatever time and with whatever errors, when the first call
ran the seeding (its listing was empty), and also when the second call is made at the
time of the first. -/
theorem C25_welcome_seeding_is_idempotent (db : Db)
    (hw : (welcomeVouchers db).length ≤ 1) (hc : ∀ u v, (claimsOf db u v).length ≤ 1)
    (calls : List VoucherCall) :
    (welcomeVouchers (runVoucherCalls db calls)).length ≤ 1
      ∧ (∀ u v, (claimsOf (runVoucherCalls db calls) u v).length ≤ 1)
      ∧ ∀ (now inOneMonth userId now2 inOneMonth2 : Int) (f2 : VoucherFaults),
          (vouchersQuery (runVoucherCalls db calls) now userId).length = 0 ∨ now2 = now →
          (getVouchers
              (getVouchers (runVoucherCalls db calls) now inOneMonth userId noVoucherFaults).2
              now2 inOneMonth2 userId f2).2
            = (getVouchers (runVoucherCalls db calls) now inOneMonth userId noVoucherFaults).2 := by
  have hinv : ∀ (calls : List VoucherCall) (db : Db), (welcomeVouchers db).length ≤ 1 →
      (∀ u v, (claimsOf db u v).length ≤ 1) →
      (welcomeVouchers (runVoucherCalls db calls)).length ≤ 1
        ∧ ∀ u v, (claimsOf (runVoucherCalls db calls) u v).length ≤ 1 := by
    intro calls
    induction calls with
    | nil => exact fun db hw hc => ⟨hw, hc⟩
    | cons c rest ih =>
      intro db hw hc
      obtain ⟨hw1, hc1⟩ := getVouchers_keeps_single db c.now c.inOneMonth c.userId c.f hw hc
      unfold runVoucherCalls
      rw [List.foldl_cons]
      exact ih _ hw1 hc1
  refine ⟨(hinv calls db hw hc).1, (hinv calls db hw hc).2, ?_⟩
  intro now inOneMonth userId now2 inOneMonth2 f2 hcase
  by_cases hl : (vouchersQuery (runVoucherCalls db calls) now userId).length = 0
  · obtain ⟨v, rest, hwel, hclaim⟩ :=
      @getVouchers_seeds (runVoucherCalls db calls) now userId inOneMonth hl
    exact seeded_unchanged hwel hclaim now2 inOneMonth2 f2
  · have hnow : now2 = now := by
      rcases hcase with h | h
      · exact absurd h hl
      · exact h
    have hfirst : (getVouchers (runVoucherCalls db calls) now inOneMonth userId
        noVoucherFaults).2 = runVoucherCalls db calls := by
      unfold getVouchers
      simp only [noVoucherFaults, hl, if_false]
    rw [hfirst, hnow]
    unfold getVouchers
    cases f2.listQuery with
    | some e => rfl
    | none => simp only [hl, if_false]

/-- C25 at a concrete sequence on the empty database: a first call for user 7 seeds
voucher 1 and claim 1; a second call for user 7, a call for user 8 (who is offered the
voucher without a claim) and a call for user 7 after the voucher expired add nothing. -/
theorem C25_welcome_seeding_scenario :
    (welcomeVouchers emptyDb).length ≤ 1
      ∧ (∀ u v, (claimsOf emptyDb u v).length ≤ 1)
      ∧ (runVoucherCalls emptyDb callsWelcome).vouchers
          = [⟨1, "WELCOME10", 100, 500, 40, some 1, some "active"⟩]
      ∧ (runVoucherCalls emptyDb callsWelcome).user_vouchers = [⟨1, 7, 1, some false⟩]
      ∧ (welcomeVouchers (runVoucherCalls emptyDb callsWelcome)).length ≤ 1
      ∧ (getVouchers (getVouchers emptyDb 10 40 7 noVoucherFaults).2 11 41 7 noVoucherFaults).2
          = (getVouchers emptyDb 10 40 7 noVoucherFaults).2 := by
  have hw : (welcomeVouchers emptyDb).length ≤ 1 := by decide
  have hc : ∀ u v, (claimsOf emptyDb u v).length ≤ 1 := fun _ _ => by simp [claimsOf, emptyDb]
  have hrun := C25_welcome_seeding_is_idempotent emptyDb hw hc callsWelcome
  have hfirst := (C25_welcome_seeding_is_idempotent emptyDb hw hc []).2.2 10 40 7 11 41
    noVoucherFaults (Or.inl (by decide))
  exact ⟨hw, hc, by decide!, by decide!, hrun.1, hfirst⟩


/-! ### The reported discount type and the preview -/

/-- In the listing of `GET /vouchers/:userId` the reported type follows the rule of the
checkout: `fixed` exactly when `discount_amount > 100`, `percentage` otherwise. -/
theorem processVoucher_discount_type (r : Voucher × Option UserVoucher) :
    ((processVoucher r).discount_type = "fixed" ↔ r.1.discount_amount > 100)
      ∧ ((processVoucher r).discount_type = "percentage" ↔ r.1.discount_amount ≤ 100)
      ∧ (processVoucher r).discount_amount = r.1.discount_amount := by
  have hne : ("fixed" : String) ≠ "percentage" := by decide
  by_cases h : r.1.discount_amount > 100
  · have ht : (processVoucher r).discount_type = "fixed" := by
      simp only [processVoucher, h, if_true]
    refine ⟨⟨fun _ => h, fun _ => ht⟩, ⟨fun hp => ?_, fun hle => ?_⟩, rfl⟩
    · rw [ht] at hp
      exact absurd hp hne
    · exact absurd h (not_lt.mpr hle)
  · have ht : (processVoucher r).discount_type = "percentage" := by
      simp only [processVoucher, h, if_false]
    refine ⟨⟨fun hf => ?_, fun hgt => absurd hgt h⟩, ⟨fun _ => not_lt.mp h, fun _ => ht⟩, rfl⟩
    rw [ht] at hf
    exact absurd hf.symm hne

/-- C28, evaluated at the failing input: the first listing for user 7 on a database without
vouchers seeds `WELCOME10` and reports it with `discount_type = "fixed"` although its
`discount_amount` is 100, not above 100; the next listing reports the same voucher as
`"percentage"`, and the checkout of the lamp (1000) with it deducts 100 percent, 1000, not
the amount 100. -/
theorem C28_welcome_voucher_reported_fixed_deducted_as_percentage :
    (getVouchers dbLamp 10 40 7 noVoucherFaults).1 = [welcomeView 1 1 40]
      ∧ (welcomeView 1 1 40).discount_type = "fixed"
      ∧ (welcomeView 1 1 40).discount_amount = 100
      ∧ ¬ ((welcomeView 1 1 40).discount_amount > 100)
      ∧ (getVouchers (getVouchers dbLamp 10 40 7 noVoucherFaults).2 11 41 7
            noVoucherFaults).1.map (fun view => (view.code, view.discount_type))
          = [("WELCOME10", "percentage")]
      ∧ ∃ body db1,
          checkout (getVouchers dbLamp 10 40 7 noVoucherFaults).2 11 reqVoucher noFaults
              = (.success body, db1)
            ∧ body.totalBeforeDiscount = 1000 ∧ body.discount = 1000 ∧ body.finalTotal = 0
            ∧ body.discount ≠ (welcomeView 1 1 40).discount_amount := by
  have h : checkout (getVouchers dbLamp 10 40 7 noVoucherFaults).2 11 reqVoucher noFaults
      = (.success ⟨1, 1000, 1000, 0, "card", "completed", some ⟨1, "WELCOME10", 1000⟩⟩,
          (checkout (getVouchers dbLamp 10 40 7 noVoucherFaults).2 11 reqVoucher
            noFaults).2) := by decide!
  exact ⟨by decide!, rfl, rfl, by decide!, by decide!, _, _, h, rfl, rfl, rfl, by decide!⟩

/-- The voucher query of the preview throws whatever the tables hold: its text refers to
`@userId`, which the handler does not bind. -/
theorem previewQuery_throws (db : Db) (now userId voucherId : Int) (fault : Option String) :
    ∃ e, previewQuery db now userId voucherId fault = .error e := by
  unfold previewQuery
  cases fault with
  | some e => exact ⟨e, rfl⟩
  | none => exact ⟨_, rfl⟩

/-- The part of the preview handler after the voucher query, run on the rows that the text
of the query selects for the fixed voucher of 1500 and the lamp line: it limits the
discount to the subtotal and gives `discountAmount = 1000`, `finalAmount = 0`, where the
checkout of the same line with the same voucher at the same time returns
`discount = 1500`, `finalTotal = 0`. -/
theorem previewAnswer_caps_where_checkout_does_not :
    applyVoucherPreview dbFixed 10 reqPreview none = .failure 500 "Failed to apply voucher"
      ∧ previewAnswer (previewRows dbFixed 10 7 1)
            (previewItemsOf (verifyItems dbFixed 10 7 [1]))
          = .success ⟨1, "BIG", none, 1000, 1000, 0, false, 1500⟩
      ∧ ∃ body db1, checkout dbFixed 10 reqVoucher noFaults = (.success body, db1)
          ∧ body.totalBeforeDiscount = 1000 ∧ body.discount = 1500 ∧ body.finalTotal = 0 := by
  have h : checkout dbFixed 10 reqVoucher noFaults
      = (.success ⟨1, 1000, 1500, 0, "card", "completed", some ⟨1, "BIG", 1500⟩⟩,
          (checkout dbFixed 10 reqVoucher noFaults).2) := by decide!
  exact ⟨by decide!, by decide!, _, _, h, rfl, rfl, rfl⟩

/-- C30: every request to `POST /apply-voucher` is answered with a failure, the 400 of the
check of the body or the 500 of the `catch`, because the voucher query refers to `@userId`,
which the handler does not bind, and throws whatever the tables hold. No request is
answered with a success: there is no voucher and cart for which the preview returns
success, so what the claim asks of every successful preview holds of all of them. -/
theorem C30_no_preview_succeeds :
    (∀ (db : Db) (now : Int) (req : PreviewRequest) (fault : Option String),
        applyVoucherPreview db now req fault = .failure 400 "Missing required data"
          ∨ applyVoucherPreview db now req fault = .failure 500 "Failed to apply voucher")
      ∧ ∀ (db : Db) (now : Int) (req : PreviewRequest) (fault : Option String)
          (body : PreviewSuccess), applyVoucherPreview db now req fault ≠ .success body := by
  have hfail : ∀ (db : Db) (now : Int) (req : PreviewRequest) (fault : Option String),
      applyVoucherPreview db now req fault = .failure 400 "Missing required data"
        ∨ applyVoucherPreview db now req fault = .failure 500 "Failed to apply voucher" := by
    intro db now req fault
    unfold applyVoucherPreview
    split
    · exact Or.inl rfl
    · cases req.cartItems with
      | none => exact Or.inl rfl
      | some cartItems =>
        obtain ⟨e, he⟩ :=
          previewQuery_throws db now (req.userId.getD 0) (req.voucherId.getD 0) fault
        right
        simp only [he]
  refine ⟨hfail, ?_⟩
  intro db now req fault body hs
  rcases hfail db now req fault with h | h
  · rw [h] at hs
    exact PreviewResponse.noConfusion hs
  · rw [h] at hs
    exact PreviewResponse.noConfusion hs

/-! ### The last unit, one request after the other -/

/-- Handled one after the other, two checkouts of the last lamp end as follows: the first
commits and leaves `stock_quantity = 0`, the second is answered with the out-of-stock
rejection and writes nothing. Requests that overlap in time are outside this model. -/
theorem last_unit_one_after_the_other :
    ∃ body db1, checkout dbLastUnit 10 reqDesk noFaults = (.success body, db1)
      ∧ db1.products = [⟨1, "lamp", 1000, 0⟩]
      ∧ checkout db1 11 reqSecondUser noFaults
          = (.failure 400 "Some items are out of stock" (some [⟨2, "lamp", 1, 0⟩]), db1) := by
  have h : checkout dbLastUnit 10 reqDesk noFaults
      = (.success ⟨1, 1000, 0, 1000, "cod", "pending", none⟩,
          (checkout dbLastUnit 10 reqDesk noFaults).2) := by decide!
  exact ⟨_, _, h, by decide!, by decide!⟩


end Checkout
